import Mathlib

/-!
# OceanSentinels backend: chat, weather risk scoring, navigation, SOS cases

A shallow embedding of

* `backend/src/services/chatService.js` (`generateChatId`, `sendMessage`,
  `storeMessageBackup`, `getUnreadCount`, `markMessagesAsRead`, `getBackupMessages`,
  `clearBackupMessages`, `broadcastMessage`, `getBoatChats`, `sendSOSMessage`) with
  `chatMessageSchema` of `backend/src/utils/validation.js`,
* `backend/src/services/weatherService.js` (`calculateSeaCondition`,
  `calculateSignalStatus`),
* `backend/src/services/navigationService.js` (`calculateDistance`,
  `calculateBearing`, `calculateETA`, `findNearestSafePort`),
* `backend/src/services/sosService.js` (`createSOSAlert` and the notifications it
  starts, `resolveSOSAlert`, `getActiveSOSAlerts`, `getSOSAlerts`),
* `backend/src/services/alertService.js` (`isBoatInAffectedArea`, `sendAlertToBoats`,
  `generateCacheKey`, `generateTamilVoiceAlert`),

followed by the properties proved about them.

Number models.  The weather rules only compare a number with a constant.  Every
finite double is a rational and the comparison of two doubles is the comparison of
the rationals they denote, so those rules are modelled exactly over `JsNum`
(the rationals together with `NaN`, `+Infinity`, `-Infinity`).  The navigation
formulas use `Math.sin`, `Math.cos`, `Math.atan2` and `Math.sqrt`; they are read
over the real numbers.  The loop of `findNearestSafePort` compares the numbers that
the machine computes, and such a number can be `NaN`: there the coordinates and the
distances are JavaScript numbers (`JsReal`), a coordinate that is not finite gives the
distance `NaN`, and what floating-point arithmetic returns for finite coordinates is
a parameter (`DistanceEval`) about which nothing is assumed.

State.  The services act on Firestore; the collections they use are the fields of
`World`, and an operation is a function from the state, and from what the call draws
from outside (generated ids, the clock, the outcome of the simulated transport and
of the notification providers), to the state after the call and the error thrown or
the value returned.  A write that happened before an error stays.  Calls that the
source starts together (`Promise.all`) are taken one after the other, except the
callbacks of `notifyEmergencyContacts`, which take turns at each `await`.  The
failures of Firestore that are modelled are `NOT_FOUND` of an update and the refusal
by `add()` of an `undefined` field of an emergency contact; others are left out.
-/

namespace OceanSentinels

/-! ## JavaScript strings and the default `Array.prototype.sort` order -/

/-- A JavaScript string, as its sequence of UTF-16 code units. -/
abbrev JsString := List Nat

/-- The relation `x < y` on JavaScript strings: lexicographic on code units, a
proper prefix being smaller. -/
def strLt : JsString → JsString → Bool
  | [], [] => false
  | [], _ :: _ => true
  | _ :: _, [] => false
  | a :: as, b :: bs => if a < b then true else if b < a then false else strLt as bs

/-- Insertion of `x`, which stood before them in the array, into the ascending
list of the elements that followed it: `x` passes only the elements that are
smaller, so equal elements keep their order (the sort is stable). -/
def sortInsert (x : JsString) : List JsString → List JsString
  | [] => [x]
  | y :: ys => if strLt y x then y :: sortInsert x ys else x :: y :: ys

/-- `array.sort()` without a comparator on an array of strings: ascending in
`strLt`, equal elements keeping their order. -/
def jsSort : List JsString → List JsString
  | [] => []
  | x :: xs => sortInsert x (jsSort xs)

/-- The code unit of the separator `_`. -/
def underscore : Nat := 95

/-- `ChatService.generateChatId(boat1, boat2)`:
`sortedBoats = [boat1, boat2].sort()`, then the template
`${sortedBoats[0]}_${sortedBoats[1]}`. -/
def generateChatId (boat1 boat2 : JsString) : JsString :=
  let sortedBoats := jsSort [boat1, boat2]
  sortedBoats.getD 0 [] ++ [underscore] ++ sortedBoats.getD 1 []

/-! ## JavaScript numbers compared with constants -/

/-- A JavaScript number as far as comparison is concerned. -/
inductive JsNum where
  | nan : JsNum
  | negInf : JsNum
  | fin (q : ℚ) : JsNum
  | posInf : JsNum
  deriving DecidableEq

instance : OfNat JsNum n := ⟨JsNum.fin n⟩

/-- The operator `a < b`: false as soon as one side is `NaN`. -/
def jsLt : JsNum → JsNum → Bool
  | .nan, _ => false
  | _, .nan => false
  | .negInf, .negInf => false
  | .negInf, _ => true
  | .fin _, .negInf => false
  | .fin a, .fin b => decide (a < b)
  | .fin _, .posInf => true
  | .posInf, _ => false

/-- The operator `a > b`. -/
def jsGt (a b : JsNum) : Bool := jsLt b a

/-- The operator `a <= b`: false as soon as one side is `NaN`. -/
def jsLe : JsNum → JsNum → Bool
  | .nan, _ => false
  | _, .nan => false
  | a, b => !jsLt b a

/-- The operator `a >= b`. -/
def jsGe (a b : JsNum) : Bool := jsLe b a

/-! ## WeatherService -/

/-- `WeatherService.calculateSeaCondition(windSpeed, weatherType)`. -/
def calculateSeaCondition (windSpeed : JsNum) (_weatherType : String) : String :=
  if jsLt windSpeed 5 then "calm"
  else if jsLt windSpeed 10 then "slight"
  else if jsLt windSpeed 20 then "moderate"
  else if jsLt windSpeed 30 then "rough"
  else if jsLt windSpeed 40 then "very_rough"
  else "high"

/-- The fields of a weather snapshot that `calculateSignalStatus` destructures. -/
structure WeatherData where
  windSpeed : JsNum
  seaCondition : String
  visibility : JsNum
  temperature : JsNum

/-- The record returned by `calculateSignalStatus`, without its `timestamp`
(`new Date()`). -/
structure SignalStatus where
  level : String
  color : String
  riskScore : Nat
  reasons : List String
  deriving DecidableEq

/-- The accumulator of `calculateSignalStatus`: `riskScore` and `reasons`. -/
structure Risk where
  riskScore : Nat
  reasons : List String

/-- The pair `riskScore += n; reasons.push(r)`. -/
def Risk.add (acc : Risk) (n : Nat) (r : String) : Risk :=
  { riskScore := acc.riskScore + n, reasons := acc.reasons ++ [r] }

/-- The block "Wind speed assessment". -/
def windAssessment (windSpeed : JsNum) (acc : Risk) : Risk :=
  if jsGt windSpeed 40 then acc.add 100 "Extreme wind conditions"
  else if jsGt windSpeed 30 then acc.add 80 "High wind conditions"
  else if jsGt windSpeed 20 then acc.add 60 "Moderate wind conditions"
  else if jsGt windSpeed 10 then acc.add 30 "Light wind conditions"
  else acc

/-- The block "Sea condition assessment". -/
def seaAssessment (seaCondition : String) (acc : Risk) : Risk :=
  if seaCondition = "high" then acc.add 100 "Dangerous sea conditions"
  else if seaCondition = "very_rough" then acc.add 80 "Very rough sea conditions"
  else if seaCondition = "rough" then acc.add 60 "Rough sea conditions"
  else if seaCondition = "moderate" then acc.add 40 "Moderate sea conditions"
  else acc

/-- The block "Visibility assessment". -/
def visibilityAssessment (visibility : JsNum) (acc : Risk) : Risk :=
  if jsLt visibility 1 then acc.add 70 "Poor visibility"
  else if jsLt visibility 5 then acc.add 40 "Reduced visibility"
  else acc

/-- The block "Temperature assessment". -/
def temperatureAssessment (temperature : JsNum) (acc : Risk) : Risk :=
  if jsLt temperature 0 || jsGt temperature 45 then
    acc.add 30 "Extreme temperature conditions"
  else acc

/-- The block "Determine signal level": the level and its colour. -/
def signalLevel (riskScore : Nat) : String × String :=
  if riskScore ≥ 150 then ("red", "#FF4444")
  else if riskScore ≥ 100 then ("yellow", "#FFAA00")
  else ("green", "#44FF44")

/-- `WeatherService.calculateSignalStatus(weatherData)`. -/
def calculateSignalStatus (weatherData : WeatherData) : SignalStatus :=
  let acc : Risk := { riskScore := 0, reasons := [] }
  let acc := windAssessment weatherData.windSpeed acc
  let acc := seaAssessment weatherData.seaCondition acc
  let acc := visibilityAssessment weatherData.visibility acc
  let acc := temperatureAssessment weatherData.temperature acc
  let lvl := signalLevel acc.riskScore
  { level := lvl.1, color := lvl.2, riskScore := acc.riskScore, reasons := acc.reasons }

/-! ### The score table of the specification -/

/-- Wind row of the table: `>40→100, >30→80, >20→60, >10→30, else 0`. -/
def windScore (windSpeed : JsNum) : Nat :=
  if jsGt windSpeed 40 then 100
  else if jsGt windSpeed 30 then 80
  else if jsGt windSpeed 20 then 60
  else if jsGt windSpeed 10 then 30
  else 0

/-- Sea-condition row: `high→100, very_rough→80, rough→60, moderate→40, else 0`. -/
def seaScore (seaCondition : String) : Nat :=
  if seaCondition = "high" then 100
  else if seaCondition = "very_rough" then 80
  else if seaCondition = "rough" then 60
  else if seaCondition = "moderate" then 40
  else 0

/-- Visibility row: `<1→70, <5→40, else 0`. -/
def visibilityScore (visibility : JsNum) : Nat :=
  if jsLt visibility 1 then 70
  else if jsLt visibility 5 then 40
  else 0

/-- Temperature row: `<0 or >45 → 30, else 0`. -/
def temperatureScore (temperature : JsNum) : Nat :=
  if jsLt temperature 0 || jsGt temperature 45 then 30 else 0

/-- The descriptions that one assessment block pushes onto `reasons`. -/
def pushed (block : Risk → Risk) : List String :=
  (block { riskScore := 0, reasons := [] }).reasons

/-- The number `1` for a factor that contributes to the score, `0` otherwise. -/
def triggered (score : Nat) : Nat := if score = 0 then 0 else 1

/-! ## NavigationService -/

/-- An entry of `NavigationService.safePorts`. -/
structure SafePort where
  id : String
  name : String
  tamilName : String
  latitude : ℝ
  longitude : ℝ
  capacity : Nat
  isActive : Bool
  facilities : List String

/-- The list `this.safePorts` set up by the constructor. -/
noncomputable def defaultSafePorts : List SafePort :=
  [ { id := "chennai", name := "Chennai Port", tamilName := "சென்னை துறைமுகம்",
      latitude := 13.0827, longitude := 80.2707, capacity := 100, isActive := true,
      facilities := ["fuel", "repair", "medical", "emergency"] },
    { id := "tuticorin", name := "Tuticorin Port", tamilName := "தூத்துக்குடி துறைமுகம்",
      latitude := 8.7642, longitude := 78.1348, capacity := 80, isActive := true,
      facilities := ["fuel", "repair", "medical", "emergency"] },
    { id := "enayam", name := "Enayam Port", tamilName := "எண்ணாயம் துறைமுகம்",
      latitude := 8.1833, longitude := 77.4167, capacity := 60, isActive := true,
      facilities := ["fuel", "repair", "emergency"] },
    { id := "kanyakumari", name := "Kanyakumari Port", tamilName := "கன்னியாகுமரி துறைமுகம்",
      latitude := 8.0883, longitude := 77.5385, capacity := 40, isActive := true,
      facilities := ["fuel", "emergency"] },
    { id := "rameshwaram", name := "Rameshwaram Port", tamilName := "ராமேஸ்வரம் துறைமுகம்",
      latitude := 9.2881, longitude := 79.3129, capacity := 50, isActive := true,
      facilities := ["fuel", "repair", "emergency"] } ]

/-- `toRadians(degrees)`. -/
noncomputable def toRadians (degrees : ℝ) : ℝ := degrees * (Real.pi / 180)

/-- `toDegrees(radians)`. -/
noncomputable def toDegrees (radians : ℝ) : ℝ := radians * (180 / Real.pi)

/-- `Math.atan2(y, x)` on real numbers: the angle in `(-π, π]` of the point
`(x, y)`, and `0` at the origin. -/
noncomputable def atan2 (y x : ℝ) : ℝ := Complex.arg ⟨x, y⟩

/-- Rounding towards zero, the quotient used by the operator `%`. -/
noncomputable def truncate (x : ℝ) : ℤ := if 0 ≤ x then ⌊x⌋ else ⌈x⌉

/-- The operator `x % m` on real numbers, for `m ≠ 0`: the remainder has the sign
of `x`. -/
noncomputable def jsMod (x m : ℝ) : ℝ := x - m * truncate (x / m)

/-- `Math.round(x)`: the nearest integer, halves going up. -/
noncomputable def mathRound (x : ℝ) : ℤ := ⌊x + 1 / 2⌋

/-- `NavigationService.calculateDistance(lat1, lon1, lat2, lon2)`: the haversine
formula.  The quantity `a` lies between 0 and 1 (`haversine_mem_unit`), so the two
square roots are those of `Math.sqrt`. -/
noncomputable def calculateDistance (lat1 lon1 lat2 lon2 : ℝ) : ℝ :=
  let R : ℝ := 6371
  let dLat := toRadians (lat2 - lat1)
  let dLon := toRadians (lon2 - lon1)
  let a := Real.sin (dLat / 2) * Real.sin (dLat / 2) +
    Real.cos (toRadians lat1) * Real.cos (toRadians lat2) *
    Real.sin (dLon / 2) * Real.sin (dLon / 2)
  let c := 2 * atan2 (Real.sqrt a) (Real.sqrt (1 - a))
  R * c

/-- `NavigationService.calculateBearing(lat1, lon1, lat2, lon2)`. -/
noncomputable def calculateBearing (lat1 lon1 lat2 lon2 : ℝ) : ℝ :=
  let dLon := toRadians (lon2 - lon1)
  let lat1Rad := toRadians lat1
  let lat2Rad := toRadians lat2
  let y := Real.sin dLon * Real.cos lat2Rad
  let x := Real.cos lat1Rad * Real.sin lat2Rad -
    Real.sin lat1Rad * Real.cos lat2Rad * Real.cos dLon
  let bearing := atan2 y x
  let bearing := toDegrees bearing
  let bearing := jsMod (bearing + 360) 360
  bearing

/-- The default value of the parameter `boatSpeed` of `calculateETA`. -/
def defaultBoatSpeed : ℝ := 20

/-- `NavigationService.calculateETA(distance, boatSpeed)`, for a finite distance
and `boatSpeed ≠ 0`. -/
noncomputable def calculateETA (distance boatSpeed : ℝ) : ℤ :=
  let timeInHours := distance / boatSpeed
  let timeInMinutes := timeInHours * 60
  mathRound timeInMinutes

/-- The number that a call of `calculateETA` returns: a count of minutes,
`Infinity`, `-Infinity` or `NaN`. -/
inductive EtaValue where
  | nan : EtaValue
  | negInf : EtaValue
  | minutes (m : ℤ) : EtaValue
  | posInf : EtaValue

/-- A JavaScript number as `findNearestSafePort` meets it: `NaN`, `-Infinity`, a
finite number, or `Infinity`. -/
inductive JsReal where
  | nan : JsReal
  | negInf : JsReal
  | fin (x : ℝ) : JsReal
  | posInf : JsReal

/-- The comparison `a < b` of JavaScript numbers: false when a side is `NaN`. -/
noncomputable def realLt : JsReal → JsReal → Bool
  | .nan, _ => false
  | _, .nan => false
  | .negInf, .negInf => false
  | .negInf, _ => true
  | .fin _, .negInf => false
  | .fin x, .fin y => decide (x < y)
  | .fin _, .posInf => true
  | .posInf, _ => false

/-- The comparison `a <= b` of JavaScript numbers: false when a side is `NaN`. -/
noncomputable def realLe : JsReal → JsReal → Bool
  | .nan, _ => false
  | _, .nan => false
  | .negInf, _ => true
  | .fin _, .negInf => false
  | .fin x, .fin y => decide (x ≤ y)
  | .fin _, .posInf => true
  | .posInf, .posInf => true
  | .posInf, _ => false

/-- The number that the body of `calculateDistance` computes in floating-point
arithmetic from four finite coordinates.  It is left open: the formula over the real
numbers, `calculateDistance`, approximates it, and it can be `NaN`, because rounding
can make `a` exceed 1, and `Math.sqrt(1 - a)` is then `NaN`. -/
def DistanceEval : Type := ℝ → ℝ → ℝ → ℝ → JsReal

/-- The evaluation that makes no rounding error. -/
noncomputable def exactDistance : DistanceEval :=
  fun lat1 lon1 lat2 lon2 => .fin (calculateDistance lat1 lon1 lat2 lon2)

/-- A call `calculateDistance(lat1, lon1, lat2, lon2)` on JavaScript numbers.  A
coordinate that is `NaN` or infinite makes the result `NaN`: a difference with it is
`NaN` or infinite, the sine and the cosine of an infinite angle are `NaN`, and every
operation of the body gives `NaN` on a `NaN` operand. -/
def calculateDistanceCall (eval : DistanceEval) : JsReal → JsReal → JsReal → JsReal → JsReal
  | .fin lat1, .fin lon1, .fin lat2, .fin lon2 => eval lat1 lon1 lat2 lon2
  | _, _, _, _ => .nan

/-- A call `calculateBearing(lat1, lon1, lat2, lon2)` on JavaScript numbers, the
finite case read over the real numbers. -/
noncomputable def calculateBearingCall : JsReal → JsReal → JsReal → JsReal → JsReal
  | .fin lat1, .fin lon1, .fin lat2, .fin lon2 => .fin (calculateBearing lat1 lon1 lat2 lon2)
  | _, _, _, _ => .nan

/-- The call `calculateETA(shortestDistance)` of `findNearestSafePort`, the speed
being the default one. -/
noncomputable def etaOfDistance : JsReal → EtaValue
  | .nan => .nan
  | .negInf => .negInf
  | .fin d => .minutes (calculateETA d defaultBoatSpeed)
  | .posInf => .posInf

/-- The two variables of the loop of `findNearestSafePort`. -/
structure Scan where
  nearestPort : Option SafePort
  shortestDistance : JsReal

/-- The distance that the loop computes for `port`. -/
def distanceTo (eval : DistanceEval) (latitude longitude : JsReal) (port : SafePort) :
    JsReal :=
  calculateDistanceCall eval latitude longitude (.fin port.latitude) (.fin port.longitude)

/-- One iteration of the loop `for (const port of this.safePorts)`. -/
noncomputable def scanStep (eval : DistanceEval) (latitude longitude : JsReal) (st : Scan)
    (port : SafePort) : Scan :=
  if !port.isActive then st
  else
    let distance :=
      calculateDistanceCall eval latitude longitude (.fin port.latitude) (.fin port.longitude)
    if realLt distance st.shortestDistance then
      { shortestDistance := distance, nearestPort := some port }
    else st

/-- The loop invariant of `findNearestSafePort`, `seen` being the ports already
visited.  Either no port is held, the distance is `Infinity` and no visited active
port has a distance below `Infinity`; or the held port is active, the distance is its
distance, which is below `Infinity`, every active port visited before it whose
distance is a number is farther, and no active port visited after it is nearer. -/
def ScanInv (eval : DistanceEval) (latitude longitude : JsReal) (seen : List SafePort)
    (st : Scan) : Prop :=
  match st.nearestPort with
  | none =>
    st.shortestDistance = .posInf ∧
      ∀ q ∈ seen, q.isActive = true →
        realLt (distanceTo eval latitude longitude q) .posInf = false
  | some p =>
    st.shortestDistance = distanceTo eval latitude longitude p ∧
      realLt (distanceTo eval latitude longitude p) .posInf = true ∧ p.isActive = true ∧
      ∃ pre post, seen = pre ++ p :: post ∧
        (∀ q ∈ pre, q.isActive = true → distanceTo eval latitude longitude q ≠ .nan →
          realLt (distanceTo eval latitude longitude p)
            (distanceTo eval latitude longitude q) = true) ∧
        (∀ q ∈ post, q.isActive = true →
          realLt (distanceTo eval latitude longitude q)
            (distanceTo eval latitude longitude p) = false)

/-- The record returned by `findNearestSafePort`. -/
structure NearestPort where
  port : Option SafePort
  distance : JsReal
  bearing : JsReal
  eta : EtaValue

/-- `NavigationService.findNearestSafePort(latitude, longitude)`, the field
`this.safePorts` and the floating-point evaluation of the distance being the first
arguments. -/
noncomputable def findNearestSafePort (eval : DistanceEval) (safePorts : List SafePort)
    (latitude longitude : JsReal) : NearestPort :=
  let st := safePorts.foldl (scanStep eval latitude longitude)
    { nearestPort := none, shortestDistance := .posInf }
  { port := st.nearestPort
    distance := st.shortestDistance
    bearing :=
      match st.nearestPort with
      | some nearestPort =>
        calculateBearingCall latitude longitude (.fin nearestPort.latitude)
          (.fin nearestPort.longitude)
      | none => .fin 0
    eta := etaOfDistance st.shortestDistance }

/-- A call `calculateETA(distance, boatSpeed)` on finite numbers, as an outcome:
`Except.error` for a thrown error, `Except.ok` for the returned number.  The body
has three statements, a division, a multiplication and `Math.round`, none of which
throws, and no `throw`; a division by zero gives `Infinity`, `-Infinity` or `NaN`
according to the sign of `distance`. -/
noncomputable def calculateETACall (distance boatSpeed : ℝ) : Except String EtaValue :=
  if boatSpeed ≠ 0 then Except.ok (EtaValue.minutes (calculateETA distance boatSpeed))
  else if 0 < distance then Except.ok EtaValue.posInf
  else if distance < 0 then Except.ok EtaValue.negInf
  else Except.ok EtaValue.nan

/-! ## Text, time and Firestore collections -/

/-- The UTF-16 code units of a character. -/
def utf16Char (c : Char) : List Nat :=
  if c.toNat < 65536 then [c.toNat]
  else [55296 + (c.toNat - 65536) / 1024, 56320 + (c.toNat - 65536) % 1024]

/-- The JavaScript string that a string literal of the source denotes. -/
def utf16 (s : String) : JsString := s.toList.flatMap utf16Char

/-- A `Date`, as a number of milliseconds. -/
abbrev Time := Nat

/-- A Firestore collection: its documents, each under its document id, in the
order of their creation. -/
abbrev Collection (α : Type) := List (JsString × α)

/-- `collection.add(data)`: a new document, under the id `autoId` that Firestore
generates for it. -/
def addDoc {α : Type} (c : Collection α) (autoId : JsString) (data : α) : Collection α :=
  c ++ [(autoId, data)]

/-- `collection.doc(id).update(fields)` and `doc.ref.update(fields)`: the document of
that id gets the fields; the call fails (error `NOT_FOUND`, here `none`) when the
collection has no document of that id. -/
def updateDoc {α : Type} (c : Collection α) (id : JsString) (fields : α → α) :
    Option (Collection α) :=
  if c.any (fun d => d.1 == id) then
    some (c.map fun d => if d.1 = id then (d.1, fields d.2) else d)
  else none

/-- `doc.ref.delete()`: the collection without the document of that id. -/
def deleteDoc {α : Type} (c : Collection α) (id : JsString) : Collection α :=
  c.filter fun d => d.1 != id

/-- The collection in which the entry under `key` is replaced by `value`
(`collection(..).doc(key).collection(..)` addresses one sub-collection). -/
def setAt {α : Type} (f : JsString → α) (key : JsString) (value : α) : JsString → α :=
  fun k => if k = key then value else f k

/-! ## Chat messages and their validation -/

/-- The value of a key of the object given to `sendMessage`, as far as `Joi.string()`
tells values apart. -/
inductive JsField where
  | undefined : JsField
  | string (s : JsString) : JsField
  | other : JsField
  deriving DecidableEq

/-- The value of the key `timestamp`, as far as `Joi.date()` tells values apart. -/
inductive DateField where
  | undefined : DateField
  | date (t : Time) : DateField
  | other : DateField
  deriving DecidableEq

/-- The object given to `sendMessage`: the five keys of `chatMessageSchema` and the
names of its other keys. -/
structure MessageData where
  fromBoat : JsField
  toBoat : JsField
  message : JsField
  messageType : JsField
  timestamp : DateField
  unknownKeys : List String

/-- The `value` that `chatMessageSchema.validate` returns for an accepted object. -/
structure ChatValue where
  fromBoat : JsString
  toBoat : JsString
  message : JsString
  messageType : JsString
  timestamp : Time
  deriving DecidableEq

/-- The first error that `chatMessageSchema.validate` reports, with its key. -/
inductive ValidationError where
  | required (key : String) : ValidationError
  | stringBase (key : String) : ValidationError
  | stringEmpty (key : String) : ValidationError
  | stringPattern (key : String) : ValidationError
  | stringMax (key : String) : ValidationError
  | anyOnly (key : String) : ValidationError
  | dateBase (key : String) : ValidationError
  | unknown (key : String) : ValidationError
  deriving DecidableEq

/-- The class `\d`. -/
def isDigit (c : Nat) : Bool := 48 ≤ c && c ≤ 57

/-- The class `[A-Z]`. -/
def isUpper (c : Nat) : Bool := 65 ≤ c && c ≤ 90

/-- The pattern `/^TN\d{2}-[A-Z]{2}\d{3}$/`. -/
def boatNumberPattern : JsString → Bool
  | [t, n, d₁, d₂, h, a₁, a₂, d₃, d₄, d₅] =>
    t == 84 && n == 78 && isDigit d₁ && isDigit d₂ && h == 45 &&
      isUpper a₁ && isUpper a₂ && isDigit d₃ && isDigit d₄ && isDigit d₅
  | _ => false

/-- `Joi.string().pattern(/^TN\d{2}-[A-Z]{2}\d{3}$/).required()`. -/
def validateBoat (key : String) : JsField → Except ValidationError JsString
  | .undefined => .error (.required key)
  | .other => .error (.stringBase key)
  | .string [] => .error (.stringEmpty key)
  | .string s => if boatNumberPattern s then .ok s else .error (.stringPattern key)

/-- `Joi.string().min(1).max(1000).required()`. -/
def validateBody (key : String) : JsField → Except ValidationError JsString
  | .undefined => .error (.required key)
  | .other => .error (.stringBase key)
  | .string [] => .error (.stringEmpty key)
  | .string s => if s.length > 1000 then .error (.stringMax key) else .ok s

/-- The values of `.valid('text', 'sos', 'location', 'weather')`. -/
def messageTypes : List JsString :=
  [utf16 "text", utf16 "sos", utf16 "location", utf16 "weather"]

/-- `Joi.string().valid('text', 'sos', 'location', 'weather').default('text')`. -/
def validateType (key : String) : JsField → Except ValidationError JsString
  | .undefined => .ok (utf16 "text")
  | .other => .error (.anyOnly key)
  | .string s => if s ∈ messageTypes then .ok s else .error (.anyOnly key)

/-- `Joi.date().default(Date.now)`. -/
def validateDate (key : String) (now : Time) : DateField → Except ValidationError Time
  | .undefined => .ok now
  | .date t => .ok t
  | .other => .error (.dateBase key)

/-- `chatMessageSchema.validate(messageData)`: the keys in the order of the schema,
then the keys that the schema does not have, which are not allowed. -/
def validateChatMessage (now : Time) (messageData : MessageData) :
    Except ValidationError ChatValue := do
  let fromBoat ← validateBoat "fromBoat" messageData.fromBoat
  let toBoat ← validateBoat "toBoat" messageData.toBoat
  let message ← validateBody "message" messageData.message
  let messageType ← validateType "messageType" messageData.messageType
  let timestamp ← validateDate "timestamp" now messageData.timestamp
  match messageData.unknownKeys with
  | key :: _ => .error (.unknown key)
  | [] => .ok { fromBoat, toBoat, message, messageType, timestamp }

/-- A document of `chats/{chatId}/messages`. -/
structure Message where
  id : JsString
  fromBoat : JsString
  toBoat : JsString
  message : JsString
  messageType : JsString
  timestamp : Time
  isDelivered : Bool
  isRead : Bool
  deliveredAt : Option Time
  readAt : Option Time
  deriving DecidableEq

/-- A document of `chatBackup/{boatNumber}/messages`:
`{ ...message, backupCreatedAt }`. -/
structure BackupEntry extends Message where
  backupCreatedAt : Time
  deriving DecidableEq

/-! ## The documents of the other collections -/

/-- What reading a key of an emergency contact gives: `undefined` when the stored
object has no such key, `null`, or a string. -/
inductive ContactField where
  | undefined : ContactField
  | null : ContactField
  | string (s : JsString) : ContactField
  deriving DecidableEq

/-- Whether the value is truthy: a string that is not empty. -/
def ContactField.truthy : ContactField → Bool
  | .string (_ :: _) => true
  | _ => false

/-- The string that a truthy value is. -/
def ContactField.text : ContactField → JsString
  | .string s => s
  | _ => []

/-- Whether the value is not `undefined`. -/
def ContactField.isDefined : ContactField → Bool
  | .undefined => false
  | _ => true

/-- An entry of the array `emergencyContacts` of a user profile, as far as it is
read: the keys `name`, `phoneNumber` and `email`. -/
structure EmergencyContact where
  name : ContactField
  phoneNumber : ContactField
  email : ContactField
  deriving DecidableEq

/-- The field `lastKnownLocation` that `updateBoatLocation` writes into a user
profile. -/
structure LastKnownLocation where
  latitude : JsNum
  longitude : JsNum
  timestamp : Time
  deriving DecidableEq

/-- A document of `users`.  The profile that the registration stores has no
`lastKnownLocation`. -/
structure User where
  uid : JsString
  username : JsString
  boatNumber : JsString
  phoneNumber : JsString
  role : String
  isActive : Bool
  emergencyContacts : Option (List EmergencyContact)
  lastKnownLocation : Option LastKnownLocation
  deriving DecidableEq

/-- The field `location` of an SOS alert. -/
structure SOSLocation where
  latitude : JsNum
  longitude : JsNum
  accuracy : JsNum
  timestamp : Time
  deriving DecidableEq

/-- The field `notes` of an SOS alert: the empty array that `createSOSAlert` stores,
or the text that `resolveSOSAlert` stores. -/
inductive Notes where
  | empty : Notes
  | text (s : JsString) : Notes
  deriving DecidableEq

/-- A document of `sosAlerts`.  The last two fields are absent (`none`) until
`createVoiceAlert` writes them. -/
structure SOSAlert where
  id : JsString
  boatNumber : JsString
  userId : JsString
  username : JsString
  phoneNumber : JsString
  location : SOSLocation
  message : JsString
  status : String
  priority : String
  createdAt : Time
  updatedAt : Time
  emergencyContacts : List EmergencyContact
  responseTime : Option Time
  resolvedAt : Option Time
  resolvedBy : Option JsString
  notes : Notes
  voiceText : Option JsString
  voiceGenerated : Option Bool
  deriving DecidableEq

/-- A document of `sosLogs`. -/
inductive SOSLog where
  | created (sosId boatNumber : JsString) (timestamp : Time) (details : SOSAlert) : SOSLog
  | contactNotification (sosId : JsString) (contact : EmergencyContact) (status : String)
      (error : Option String) (timestamp : Time) : SOSLog
  deriving DecidableEq

/-- A document of `boatAlerts/{boatNumber}/alerts` that SOSService writes:
`{ ...sosAlert, type: 'sos_nearby', receivedAt }`. -/
structure BoatAlert where
  alert : SOSAlert
  type : String
  receivedAt : Time
  deriving DecidableEq

/-- The object `alert` of `AlertService.createAlert`. -/
structure Alert where
  id : JsString
  type : JsString
  severity : JsString
  title : JsString
  description : JsString
  affectedAreas : List JsString
  estimatedTime : Time
  recommendedActions : List JsString
  voiceAlertText : JsString
  voiceUrl : JsString
  createdAt : Time
  isActive : Bool
  acknowledgedBy : List JsString
  deriving DecidableEq

/-- A document of `boatAlerts/{boatNumber}/alerts` that AlertService writes:
`{ ...alert, boatNumber, sentAt, isRead: false, isAcknowledged: false }`. -/
structure SentAlert extends Alert where
  boatNumber : JsString
  sentAt : Time
  isRead : Bool
  isAcknowledged : Bool
  deriving DecidableEq

/-- A document of `boatAlerts/{boatNumber}/alerts`, of either writer. -/
inductive BoatAlertDoc where
  | sosNearby (boatAlert : BoatAlert) : BoatAlertDoc
  | alert (boatAlert : SentAlert) : BoatAlertDoc
  deriving DecidableEq

/-- A call of `sendSMS` or `sendEmail`: the channel, the target, and whether the
call returned (`true`) or threw. -/
structure ChannelCall where
  channel : String
  target : JsString
  returned : Bool
  deriving DecidableEq

/-- The state that the services act on: the Firestore collections, and the calls
made so far to the SMS and email channels.  The documents of `sosLogs` and of
`boatAlerts` are only ever added, so their ids are left out.  `chats` holds the
sub-collections `chats/{chatId}/messages`; `chatDocs` holds the ids of the documents
of the collection `chats` itself, which is what `collection('chats').get()` lists. -/
structure World where
  chats : JsString → Collection Message
  chatBackup : JsString → Collection BackupEntry
  users : Collection User
  sosAlerts : Collection SOSAlert
  sosLogs : List SOSLog
  boatAlerts : JsString → List BoatAlertDoc
  channelCalls : List ChannelCall
  chatDocs : List JsString

/-- The state with no document and no call. -/
def emptyWorld : World :=
  { chats := fun _ => [], chatBackup := fun _ => [], users := [], sosAlerts := [],
    sosLogs := [], boatAlerts := fun _ => [], channelCalls := [], chatDocs := [] }

/-! ## ChatService -/

/-- What one call of `sendMessage` draws from outside: `uuidv4()`, the clock, the ids
that Firestore generates for the two added documents, and the outcome of the
simulated transport (`Math.random() > 0.1`). -/
structure SendEnv where
  uuid : JsString
  now : Time
  messageDocId : JsString
  backupDocId : JsString
  backupCreatedAt : Time
  loraSuccess : Bool
  deliveredAt : Time

/-- The error that a ChatService call throws. -/
inductive ChatError where
  | validation (e : ValidationError) : ChatError
  | notFound (docId : JsString) : ChatError
  deriving DecidableEq

/-- The field `data` of what `sendMessage` returns. -/
structure SendResult where
  messageId : JsString
  isDelivered : Bool
  loraStatus : String
  deriving DecidableEq

/-- `ChatService.storeMessageBackup(boatNumber, message)`. -/
def storeMessageBackup (w : World) (autoId : JsString) (backupCreatedAt : Time)
    (boatNumber : JsString) (message : Message) : World :=
  { w with
    chatBackup := setAt w.chatBackup boatNumber
      (addDoc (w.chatBackup boatNumber) autoId { message with backupCreatedAt }) }

/-- The object `message` that `sendMessage` builds from the validated `value`. -/
def newMessage (env : SendEnv) (value : ChatValue) : Message :=
  { id := env.uuid, fromBoat := value.fromBoat, toBoat := value.toBoat,
    message := value.message, messageType := value.messageType,
    timestamp := env.now, isDelivered := false, isRead := false,
    deliveredAt := none, readAt := none }

/-- The write `db.collection('chats').doc(chatId).collection('messages').add(message)`. -/
def storeMessage (w : World) (autoId chatId : JsString) (message : Message) : World :=
  { w with chats := setAt w.chats chatId (addDoc (w.chats chatId) autoId message) }

/-- `ChatService.sendMessage(messageData)`: the state after the call, and the error
thrown or the data returned. -/
def sendMessage (w : World) (env : SendEnv) (messageData : MessageData) :
    World × Except ChatError SendResult :=
  match validateChatMessage env.now messageData with
  | .error e => (w, .error (.validation e))
  | .ok value =>
    let message := newMessage env value
    let chatId := generateChatId value.fromBoat value.toBoat
    let w := storeMessage w env.messageDocId chatId message
    let w := storeMessageBackup w env.backupDocId env.backupCreatedAt value.toBoat message
    if env.loraSuccess then
      match updateDoc (w.chats chatId) message.id
          (fun m => { m with isDelivered := true, deliveredAt := some env.deliveredAt }) with
      | none => (w, .error (.notFound message.id))
      | some messages =>
        ({ w with chats := setAt w.chats chatId messages },
          .ok { messageId := message.id, isDelivered := true, loraStatus := "transmitted" })
    else
      (w, .ok { messageId := message.id, isDelivered := false, loraStatus := "failed" })

/-- The query `.where('toBoat', '==', boatNumber).where('isRead', '==', false)` on the
messages of a chat. -/
def unreadMessages (w : World) (chatId boatNumber : JsString) : Collection Message :=
  (w.chats chatId).filter fun d => d.2.toBoat == boatNumber && d.2.isRead == false

/-- `ChatService.getUnreadCount(chatId, boatNumber)`. -/
def getUnreadCount (w : World) (chatId boatNumber : JsString) : Nat :=
  (unreadMessages w chatId boatNumber).length

/-- The updates `doc.ref.update(fields)` of the documents of the given ids, one after
the other: the collection reached, and the ids for which the update failed. -/
def updateEach {α : Type} (fields : α → α) :
    List JsString → Collection α → Collection α × List JsString
  | [], c => (c, [])
  | id :: ids, c =>
    match updateDoc c id fields with
    | some c' => updateEach fields ids c'
    | none => ((updateEach fields ids c).1, id :: (updateEach fields ids c).2)

/-- What `markMessagesAsRead` returns besides `success` and `message`. -/
structure MarkResult where
  count : Nat
  deriving DecidableEq

/-- `ChatService.markMessagesAsRead(chatId, boatNumber)`, `now` being the clock. -/
def markMessagesAsRead (w : World) (now : Time) (chatId boatNumber : JsString) :
    World × Except ChatError MarkResult :=
  let unread := unreadMessages w chatId boatNumber
  let updated := updateEach (fun m : Message => { m with isRead := true, readAt := some now })
    (unread.map Prod.fst) (w.chats chatId)
  let w' := { w with chats := setAt w.chats chatId updated.1 }
  match updated.2 with
  | [] => (w', .ok { count := unread.length })
  | id :: _ => (w', .error (.notFound id))

/-- The order of `.orderBy('timestamp', 'asc')`: by timestamp, then by document
id. -/
def docBefore (a b : JsString × BackupEntry) : Bool :=
  a.2.timestamp < b.2.timestamp || (a.2.timestamp == b.2.timestamp && strLt a.1 b.1)

/-- Insertion into a list ordered by `docBefore`. -/
def insertDoc (d : JsString × BackupEntry) : Collection BackupEntry → Collection BackupEntry
  | [] => [d]
  | e :: es => if docBefore e d then e :: insertDoc d es else d :: e :: es

/-- The documents of a backup queue in the order `.orderBy('timestamp', 'asc')`. -/
def orderByTimestamp : Collection BackupEntry → Collection BackupEntry
  | [] => []
  | d :: ds => insertDoc d (orderByTimestamp ds)

/-- `ChatService.getBackupMessages(boatNumber)`: each document as
`{ id: doc.id, ...doc.data() }`, in which the `id` of the data replaces `doc.id`. -/
def getBackupMessages (w : World) (boatNumber : JsString) :
    World × Except ChatError (List BackupEntry) :=
  (w, .ok ((orderByTimestamp (w.chatBackup boatNumber)).map Prod.snd))

/-- What `clearBackupMessages` returns besides `success` and `message`. -/
structure ClearResult where
  count : Nat
  deriving DecidableEq

/-- `ChatService.clearBackupMessages(boatNumber)`: `doc.ref.delete()` for each
document of the queue. -/
def clearBackupMessages (w : World) (boatNumber : JsString) :
    World × Except ChatError ClearResult :=
  let backupSnapshot := w.chatBackup boatNumber
  let remaining := backupSnapshot.foldl (fun c d => deleteDoc c d.1) backupSnapshot
  ({ w with chatBackup := setAt w.chatBackup boatNumber remaining },
    .ok { count := backupSnapshot.length })

/-- Calls of `sendMessage` one after the other, each with what it draws from
outside: the state reached and the outcome of each call. -/
def sendAll : World → List (SendEnv × MessageData) →
    World × List (Except ChatError SendResult)
  | w, [] => (w, [])
  | w, call :: calls =>
    let r := sendMessage w call.1 call.2
    let rest := sendAll r.1 calls
    (rest.1, r.2 :: rest.2)

/-- The query `.where('isActive', '==', true)` on `users`. -/
def activeUsers (w : World) : Collection User :=
  w.users.filter fun d => d.2.isActive == true

/-- The calls of `sendMessage` that `broadcastMessage` makes for the documents of
`usersSnapshot` from position `i` on; `envs i` is what the call for the document at
position `i` draws from outside. -/
def broadcastCalls (envs : Nat → SendEnv) (fromBoat message messageType : JsString) :
    Nat → Collection User → List (SendEnv × MessageData)
  | _, [] => []
  | i, doc :: docs =>
    if doc.2.boatNumber ≠ fromBoat then
      (envs i, { fromBoat := .string fromBoat, toBoat := .string doc.2.boatNumber,
                 message := .string message, messageType := .string messageType,
                 timestamp := .undefined, unknownKeys := [] }) ::
        broadcastCalls envs fromBoat message messageType (i + 1) docs
    else broadcastCalls envs fromBoat message messageType (i + 1) docs

/-- The first error of a list of outcomes. -/
def firstError : List (Except ChatError SendResult) → Option ChatError
  | [] => none
  | .error e :: _ => some e
  | .ok _ :: rest => firstError rest

/-- What `broadcastMessage` returns besides `success` and `message`. -/
structure BroadcastResult where
  sentTo : Int
  deriving DecidableEq

/-- `ChatService.broadcastMessage(fromBoat, message, messageType)`.  The calls of
`sendMessage` run to their end whether or not one of them throws; they are taken in
the order of `usersSnapshot`, and `Promise.all` throws the error of one that
threw. -/
def broadcastMessage (w : World) (envs : Nat → SendEnv)
    (fromBoat message messageType : JsString) : World × Except ChatError BroadcastResult :=
  let usersSnapshot := activeUsers w
  let sent := sendAll w (broadcastCalls envs fromBoat message messageType 0 usersSnapshot)
  match firstError sent.2 with
  | some e => (sent.1, .error e)
  | none => (sent.1, .ok { sentTo := (usersSnapshot.length : Int) - 1 })

/-- The ids of the message documents are ids that `add()` generated: 20
characters. -/
def AutoIds (w : World) : Prop :=
  ∀ chatId d, d ∈ w.chats chatId → d.1.length = 20

/-- The ids that a call draws are well formed: `uuidv4()` gives 36 characters,
`add()` generates ids of 20 characters. -/
def SendEnv.WellFormed (env : SendEnv) : Prop :=
  env.uuid.length = 36 ∧ env.messageDocId.length = 20

/-- The defects of a message that the specification lists: `fromBoat` or `toBoat`
not of the form TN, two digits, `-`, two upper-case letters, three digits; a body
that is empty or longer than 1000 characters; a `messageType` outside text, sos,
location, weather. -/
def ListedDefect (messageData : MessageData) : Prop :=
  (∃ s, messageData.fromBoat = .string s ∧ boatNumberPattern s = false) ∨
  (∃ s, messageData.toBoat = .string s ∧ boatNumberPattern s = false) ∨
  messageData.message = .string [] ∨
  (∃ s, messageData.message = .string s ∧ s.length > 1000) ∨
  (∃ s, messageData.messageType = .string s ∧ s ∉ messageTypes)

/-! ## SOSService -/

/-- What one call of a SOSService operation draws from outside: `uuidv4()`, the id
that Firestore generates for the added alert, the clock, whether the SMS and the
email channel are configured, and for which targets their provider throws. -/
structure SosEnv where
  uuid : JsString
  alertDocId : JsString
  now : Time
  smsConfigured : Bool
  smsThrows : JsString → Bool
  emailConfigured : Bool
  emailThrows : JsString → Bool

/-- The error that a SOSService call throws. -/
inductive SosError where
  | boatNotFound : SosError
  | notFound (docId : JsString) : SosError
  deriving DecidableEq

/-- `this.emergencyNumbers.coastGuard`. -/
def coastGuard : JsString := utf16 "+91-1800-425-3784"

/-- `this.emergencyNumbers.marinePolice`. -/
def marinePolice : JsString := utf16 "+91-044-2345-6789"

/-- The argument `location` of `createSOSAlert`; a key that is absent reads as
`NaN`, which `|| 0` treats like `undefined`. -/
structure LocationInput where
  latitude : JsNum
  longitude : JsNum
  accuracy : JsNum

/-- The expression `x || 0` on a number. -/
def orZero : JsNum → JsNum
  | .nan => 0
  | .fin q => if q = 0 then 0 else .fin q
  | x => x

/-- Whether an optional string is truthy: present and not empty. -/
def truthy : Option JsString → Bool
  | some (_ :: _) => true
  | _ => false

/-- `SOSService.getUserByBoatNumber(boatNumber)`. -/
def getUserByBoatNumber (w : World) (boatNumber : JsString) : Option User :=
  (w.users.find? fun d => d.2.boatNumber == boatNumber).map Prod.snd

/-- Whether `sendSMS` returns for this number: Twilio is not configured, or the
provider accepts. -/
def smsReturns (env : SosEnv) (phoneNumber : JsString) : Bool :=
  !env.smsConfigured || !env.smsThrows phoneNumber

/-- Whether `sendEmail` returns for this address: SMTP is not configured, or the
provider accepts. -/
def emailReturns (env : SosEnv) (email : JsString) : Bool :=
  !env.emailConfigured || !env.emailThrows email

/-- `SOSService.sendSMS(phoneNumber, message)`: the call is recorded; it returns when
Twilio is not configured or the provider accepts, and throws otherwise. -/
def sendSMS (w : World) (env : SosEnv) (phoneNumber : JsString) : World × Bool :=
  let returned := smsReturns env phoneNumber
  let call : ChannelCall := { channel := "sms", target := phoneNumber, returned }
  ({ w with channelCalls := w.channelCalls ++ [call] }, returned)

/-- `SOSService.sendEmail(email, emailData)`: the call is recorded; it returns when
SMTP is not configured or the provider accepts, and throws otherwise. -/
def sendEmail (w : World) (env : SosEnv) (email : JsString) : World × Bool :=
  let returned := emailReturns env email
  let call : ChannelCall := { channel := "email", target := email, returned }
  ({ w with channelCalls := w.channelCalls ++ [call] }, returned)

/-- `SOSService.logEmergencyContactNotification(sosId, contact, status, error)`.  The
document has the fields `contact.name`, `contact.phoneNumber` and `contact.email`;
`add()` refuses a document with a field that is `undefined`, the Firestore client
being set up without `ignoreUndefinedProperties`, and the `catch` of the function
keeps that error: nothing is written then, and nothing is thrown. -/
def logEmergencyContactNotification (w : World) (env : SosEnv) (sosId : JsString)
    (contact : EmergencyContact) (status : String) (error : Option String) : World :=
  if contact.name.isDefined && contact.phoneNumber.isDefined && contact.email.isDefined then
    let entry := SOSLog.contactNotification sosId contact status error env.now
    { w with sosLogs := w.sosLogs ++ [entry] }
  else w

/-- An awaited call of the callback that `notifyEmergencyContacts` maps over the
contacts. -/
inductive ContactStep where
  | sms (phoneNumber : JsString) : ContactStep
  | email (email : JsString) : ContactStep
  | log (status : String) (error : Option String) : ContactStep
  deriving DecidableEq

/-- The awaited calls that the callback makes for one contact, in their order: the
SMS if `contact.phoneNumber` is truthy, the email if `contact.email` is truthy, then
the log entry `sent`; a call that throws leads to the log entry `failed` at once.  The
`error.message` of the provider is not known here; the entry records the channel that
threw in its place. -/
def contactSteps (env : SosEnv) (contact : EmergencyContact) : List ContactStep :=
  let sms := if contact.phoneNumber.truthy then [ContactStep.sms contact.phoneNumber.text] else []
  if contact.phoneNumber.truthy && !smsReturns env contact.phoneNumber.text then
    sms ++ [ContactStep.log "failed" (some "sms")]
  else
    let mail := if contact.email.truthy then [ContactStep.email contact.email.text] else []
    if contact.email.truthy && !emailReturns env contact.email.text then
      sms ++ mail ++ [ContactStep.log "failed" (some "email")]
    else sms ++ mail ++ [ContactStep.log "sent" none]

/-- The effect of one awaited call of the callback of `contact`. -/
def runStep (env : SosEnv) (sosId : JsString) (w : World)
    (step : EmergencyContact × ContactStep) : World :=
  match step.2 with
  | .sms phoneNumber => (sendSMS w env phoneNumber).1
  | .email email => (sendEmail w env email).1
  | .log status error => logEmergencyContactNotification w env sosId step.1 status error

/-- `SOSService.notifyEmergencyContacts(sosAlert)`.  `map` starts the callbacks one
after the other, and each runs up to its next `await`: the first call of every
contact is made before the second call of any.  When the later calls are made depends
on when the providers answer; they are taken here turn by turn in the order of the
contacts.  A callback makes three awaited calls at most. -/
def notifyEmergencyContacts (w : World) (env : SosEnv) (sosAlert : SOSAlert) : World :=
  if sosAlert.emergencyContacts.length = 0 then w
  else
    let callbacks := sosAlert.emergencyContacts.map fun contact =>
      (contactSteps env contact).map fun step => (contact, step)
    let order := callbacks.filterMap (fun steps => steps[0]?) ++
      callbacks.filterMap (fun steps => steps[1]?) ++
      callbacks.filterMap (fun steps => steps[2]?)
    order.foldl (runStep env sosAlert.id) w

/-- `SOSService.notifyAuthorities(sosAlert)`: the coast guard, then the marine
police unless the first call threw. -/
def notifyAuthorities (w : World) (env : SosEnv) (_sosAlert : SOSAlert) : World :=
  let first := sendSMS w env coastGuard
  if !first.2 then first.1
  else (sendSMS first.1 env marinePolice).1

/-- `SOSService.getNearbyBoats(location, radiusKm)`. -/
def getNearbyBoats (w : World) (_location : SOSLocation) (_radiusKm : Nat) : List User :=
  (w.users.filter fun d => d.2.isActive == true && d.2.role == "fisherman").map Prod.snd

/-- `SOSService.sendSOSToBoat(boatNumber, sosAlert)`. -/
def sendSOSToBoat (env : SosEnv) (sosAlert : SOSAlert) (w : World) (boatNumber : JsString) :
    World :=
  let boatAlert : BoatAlert :=
    { alert := sosAlert, type := "sos_nearby", receivedAt := env.now }
  { w with
    boatAlerts := setAt w.boatAlerts boatNumber
      (w.boatAlerts boatNumber ++ [BoatAlertDoc.sosNearby boatAlert]) }

/-- `SOSService.notifyNearbyBoats(sosAlert)`, the boats in the order of the query. -/
def notifyNearbyBoats (w : World) (env : SosEnv) (sosAlert : SOSAlert) : World :=
  (getNearbyBoats w sosAlert.location 10).foldl
    (fun w boat =>
      if boat.boatNumber ≠ sosAlert.boatNumber then
        sendSOSToBoat env sosAlert w boat.boatNumber
      else w) w

/-- The text `voiceText` of `createVoiceAlert`. -/
def sosVoiceText (boatNumber : JsString) : JsString :=
  utf16 "அவசர SOS சிக்னல். படகு " ++ boatNumber ++
    utf16 " இருந்து. உதவி தேவை. அவசரமாக பதிலளிக்கவும்."

/-- `SOSService.createVoiceAlert(sosAlert)`: the update of the document
`sosAlerts/{sosAlert.id}`; its failure is caught and only logged to the console. -/
def createVoiceAlert (w : World) (sosAlert : SOSAlert) : World :=
  match updateDoc w.sosAlerts sosAlert.id
      (fun a => { a with voiceText := some (sosVoiceText sosAlert.boatNumber),
                         voiceGenerated := some true }) with
  | some alerts => { w with sosAlerts := alerts }
  | none => w

/-- `SOSService.logSOSActivity(sosAlert)`. -/
def logSOSActivity (w : World) (env : SosEnv) (sosAlert : SOSAlert) : World :=
  let entry := SOSLog.created sosAlert.id sosAlert.boatNumber env.now sosAlert
  { w with sosLogs := w.sosLogs ++ [entry] }

/-- The object `sosAlert` that `createSOSAlert` builds. -/
def newSOSAlert (env : SosEnv) (userData : User) (boatNumber : JsString)
    (location : LocationInput) (message : JsString) (userId : Option JsString) : SOSAlert :=
  { id := env.uuid
    boatNumber := boatNumber
    userId := if truthy userId then userId.getD [] else userData.uid
    username := userData.username
    phoneNumber := userData.phoneNumber
    location :=
      { latitude := orZero location.latitude, longitude := orZero location.longitude,
        accuracy := orZero location.accuracy, timestamp := env.now }
    message := if message = [] then utf16 "Emergency SOS signal sent" else message
    status := "active"
    priority := "critical"
    createdAt := env.now
    updatedAt := env.now
    emergencyContacts := userData.emergencyContacts.getD []
    responseTime := none
    resolvedAt := none
    resolvedBy := none
    notes := Notes.empty
    voiceText := none
    voiceGenerated := none }

/-- `SOSService.createSOSAlert(boatNumber, location, message, userId)`.  The four
notifications of `Promise.all` are taken in the order of the array; each of them
catches its own errors. -/
def createSOSAlert (w : World) (env : SosEnv) (boatNumber : JsString)
    (location : LocationInput) (message : JsString) (userId : Option JsString) :
    World × Except SosError SOSAlert :=
  match getUserByBoatNumber w boatNumber with
  | none => (w, .error .boatNotFound)
  | some userData =>
    let sosAlert := newSOSAlert env userData boatNumber location message userId
    let w := { w with sosAlerts := addDoc w.sosAlerts env.alertDocId sosAlert }
    let w := notifyEmergencyContacts w env sosAlert
    let w := notifyAuthorities w env sosAlert
    let w := notifyNearbyBoats w env sosAlert
    let w := createVoiceAlert w sosAlert
    let w := logSOSActivity w env sosAlert
    (w, .ok sosAlert)

/-- `SOSService.resolveSOSAlert(sosId, resolvedBy, notes)`, `now` being the clock. -/
def resolveSOSAlert (w : World) (now : Time) (sosId resolvedBy notes : JsString) :
    World × Except SosError Unit :=
  match updateDoc w.sosAlerts sosId
      (fun a => { a with status := "resolved", resolvedAt := some now,
                         resolvedBy := some resolvedBy, notes := Notes.text notes,
                         updatedAt := now }) with
  | some alerts => ({ w with sosAlerts := alerts }, .ok ())
  | none => (w, .error (.notFound sosId))

/-- The order of `.orderBy('createdAt', 'desc')`: the later alert first, then by
document id downwards. -/
def alertBefore (a b : JsString × SOSAlert) : Bool :=
  b.2.createdAt < a.2.createdAt || (a.2.createdAt == b.2.createdAt && strLt b.1 a.1)

/-- Insertion into a list ordered by `alertBefore`. -/
def insertAlert (d : JsString × SOSAlert) : Collection SOSAlert → Collection SOSAlert
  | [] => [d]
  | e :: es => if alertBefore e d then e :: insertAlert d es else d :: e :: es

/-- The documents in the order `.orderBy('createdAt', 'desc')`. -/
def orderByCreatedAtDesc : Collection SOSAlert → Collection SOSAlert
  | [] => []
  | d :: ds => insertAlert d (orderByCreatedAtDesc ds)

/-- `SOSService.getActiveSOSAlerts()`: each document as `{ id: doc.id, ...doc.data() }`,
in which the `id` of the data replaces `doc.id`. -/
def getActiveSOSAlerts (w : World) : World × Except SosError (List SOSAlert) :=
  (w, .ok ((orderByCreatedAtDesc
    (w.sosAlerts.filter fun d => d.2.status == "active")).map Prod.snd))

/-- `SOSService.getSOSAlerts(boatNumber)`. -/
def getSOSAlerts (w : World) (boatNumber : JsString) : World × Except SosError (List SOSAlert) :=
  (w, .ok (((orderByCreatedAtDesc
    (w.sosAlerts.filter fun d => d.2.boatNumber == boatNumber)).take 10).map Prod.snd))

/-- The ids of the alert documents are ids that `add()` generated: 20 characters. -/
def AlertAutoIds (w : World) : Prop :=
  ∀ d ∈ w.sosAlerts, d.1.length = 20

/-! ### The notification of one contact, channel by channel -/

/-- The SMS call made for a contact: one if the contact has a phone number. -/
def smsAttempt (env : SosEnv) (contact : EmergencyContact) : List ChannelCall :=
  if contact.phoneNumber.truthy then
    [{ channel := "sms", target := contact.phoneNumber.text,
       returned := smsReturns env contact.phoneNumber.text }]
  else []

/-- Whether the SMS step of a contact lets the email step run: there was no SMS call,
or it returned. -/
def smsPassed (env : SosEnv) (contact : EmergencyContact) : Bool :=
  !contact.phoneNumber.truthy || smsReturns env contact.phoneNumber.text

/-- The email call made for a contact: one if the contact has an email and the SMS
step passed. -/
def emailAttempt (env : SosEnv) (contact : EmergencyContact) : List ChannelCall :=
  if smsPassed env contact && contact.email.truthy then
    [{ channel := "email", target := contact.email.text,
       returned := emailReturns env contact.email.text }]
  else []

/-- Whether the three keys that the log entry copies are present in the contact. -/
def loggable (contact : EmergencyContact) : Bool :=
  contact.name.isDefined && contact.phoneNumber.isDefined && contact.email.isDefined

/-- The log entries written for a contact: none if a key that the entry copies is
missing, and otherwise one, `failed` with the channel that threw, or `sent` when no
call threw. -/
def contactLog (env : SosEnv) (sosId : JsString) (contact : EmergencyContact) :
    List SOSLog :=
  if !loggable contact then []
  else if !smsPassed env contact then
    [SOSLog.contactNotification sosId contact "failed" (some "sms") env.now]
  else if contact.email.truthy && !emailReturns env contact.email.text then
    [SOSLog.contactNotification sosId contact "failed" (some "email") env.now]
  else [SOSLog.contactNotification sosId contact "sent" none env.now]

/-- What one awaited call adds to the channel calls. -/
def stepCalls (env : SosEnv) (step : EmergencyContact × ContactStep) : List ChannelCall :=
  match step.2 with
  | .sms phoneNumber =>
    [{ channel := "sms", target := phoneNumber, returned := smsReturns env phoneNumber }]
  | .email email =>
    [{ channel := "email", target := email, returned := emailReturns env email }]
  | .log _ _ => []

/-- What one awaited call adds to `sosLogs`. -/
def stepLogs (env : SosEnv) (sosId : JsString) (step : EmergencyContact × ContactStep) :
    List SOSLog :=
  match step.2 with
  | .log status error =>
    if loggable step.1 then [SOSLog.contactNotification sosId step.1 status error env.now]
    else []
  | _ => []

/-! ## AlertService -/

/-- `AlertService.isBoatInAffectedArea(userData, affectedAreas)`. -/
def isBoatInAffectedArea (userData : User) (_affectedAreas : List JsString) : Bool :=
  if userData.lastKnownLocation.isNone then false
  else true

/-- `AlertService.sendAlertToBoat(boatNumber, alert)`, `now` being the clock. -/
def sendAlertToBoat (now : Time) (alert : Alert) (w : World) (boatNumber : JsString) : World :=
  let boatAlert : SentAlert :=
    { alert with boatNumber := boatNumber, sentAt := now, isRead := false,
                 isAcknowledged := false }
  { w with
    boatAlerts := setAt w.boatAlerts boatNumber
      (w.boatAlerts boatNumber ++ [BoatAlertDoc.alert boatAlert]) }

/-- The body of the `map` of `sendAlertToBoats` for one document of `usersSnapshot`. -/
def alertStep (now : Time) (alert : Alert) (w : World) (doc : JsString × User) : World :=
  if isBoatInAffectedArea doc.2 alert.affectedAreas then
    sendAlertToBoat now alert w doc.2.boatNumber
  else w

/-- `AlertService.sendAlertToBoats(alert)`, the boats in the order of the query. -/
def sendAlertToBoats (w : World) (now : Time) (alert : Alert) : World :=
  (activeUsers w).foldl (alertStep now alert) w

/-- The bytes of a code point in UTF-8. -/
def utf8OfCodePoint (cp : Nat) : List Nat :=
  if cp < 128 then [cp]
  else if cp < 2048 then [192 + cp / 64, 128 + cp % 64]
  else if cp < 65536 then [224 + cp / 4096, 128 + cp / 64 % 64, 128 + cp % 64]
  else [240 + cp / 262144, 128 + cp / 4096 % 64, 128 + cp / 64 % 64, 128 + cp % 64]

/-- A code unit that is the first half of a surrogate pair. -/
def isHighSurrogate (u : Nat) : Bool := 55296 ≤ u && u ≤ 56319

/-- A code unit that is the second half of a surrogate pair. -/
def isLowSurrogate (u : Nat) : Bool := 56320 ≤ u && u ≤ 57343

/-- The bytes of U+FFFD, which stand for a surrogate without its partner. -/
def replacementBytes : List Nat := [239, 191, 189]

/-- One code unit read by the UTF-8 encoder: the state is the high surrogate that
waits for its partner, if any, and the bytes written so far. -/
def utf8Step (st : Option Nat × List Nat) (u : Nat) : Option Nat × List Nat :=
  match st.1 with
  | some h =>
    if isLowSurrogate u then
      (none, st.2 ++ utf8OfCodePoint (65536 + (h - 55296) * 1024 + (u - 56320)))
    else if isHighSurrogate u then (some u, st.2 ++ replacementBytes)
    else (none, st.2 ++ replacementBytes ++ utf8OfCodePoint u)
  | none =>
    if isHighSurrogate u then (some u, st.2)
    else if isLowSurrogate u then (none, st.2 ++ replacementBytes)
    else (none, st.2 ++ utf8OfCodePoint u)

/-- `Buffer.from(text)`: the UTF-8 bytes of a JavaScript string. -/
def utf8 (text : JsString) : List Nat :=
  let st := text.foldl utf8Step (none, [])
  match st.1 with
  | some _ => st.2 ++ replacementBytes
  | none => st.2

/-- The code unit of the base64 digit of value `n`. -/
def base64Digit (n : Nat) : Nat :=
  if n < 26 then 65 + n
  else if n < 52 then 97 + (n - 26)
  else if n < 62 then 48 + (n - 52)
  else if n = 62 then 43
  else 47

/-- `buffer.toString('base64')`. -/
def base64 : List Nat → JsString
  | [] => []
  | [a] => [base64Digit (a / 4), base64Digit (a % 4 * 16), 61, 61]
  | [a, b] => [base64Digit (a / 4), base64Digit (a % 4 * 16 + b / 16), base64Digit (b % 16 * 4), 61]
  | a :: b :: c :: rest =>
    [base64Digit (a / 4), base64Digit (a % 4 * 16 + b / 16),
      base64Digit (b % 16 * 4 + c / 64), base64Digit (c % 64)] ++ base64 rest

/-- `AlertService.generateCacheKey(text)`:
`Buffer.from(text).toString('base64').substring(0, 32)`. -/
def generateCacheKey (text : JsString) : JsString :=
  (base64 (utf8 text)).take 32

/-- The map `this.voiceCache`: its entries, key and URL. -/
abbrev VoiceCache := List (JsString × JsString)

/-- `voiceCache.get(key)`, `none` when `voiceCache.has(key)` is false. -/
def cacheGet (cache : VoiceCache) (key : JsString) : Option JsString :=
  (cache.find? fun entry => entry.1 == key).map Prod.snd

/-- `voiceCache.set(key, url)`. -/
def cacheSet (cache : VoiceCache) (key url : JsString) : VoiceCache :=
  (cache.filter fun entry => entry.1 != key) ++ [(key, url)]

/-- `AlertService.generateTamilVoiceAlert(text)`: the cache after the call and the URL
returned or the error thrown.  `synthesis` is what the speech synthesis and the
upload give when they are run: the signed URL, or an error. -/
def generateTamilVoiceAlert (cache : VoiceCache) (synthesis : Except String JsString)
    (text : JsString) : VoiceCache × Except String JsString :=
  let cacheKey := generateCacheKey text
  match cacheGet cache cacheKey with
  | some url => (cache, .ok url)
  | none =>
    match synthesis with
    | .ok url => (cacheSet cache cacheKey url, .ok url)
    | .error e => (cache, .error e)

/-- The text `voiceAlertText` of `AlertService.createSOSAlert`. -/
def alertVoiceText (boatNumber : JsString) : JsString :=
  utf16 "அவசர SOS சிக்னல். படகு " ++ boatNumber ++ utf16 " இருந்து. உதவி தேவை."

/-! ## ChatService: the chats of a boat and the SOS message -/

/-- `text.split(separator)` for a separator of one code unit. -/
def jsSplit (sep : Nat) : JsString → List JsString
  | [] => [[]]
  | u :: rest =>
    if u = sep then [] :: jsSplit sep rest
    else
      match jsSplit sep rest with
      | part :: parts => (u :: part) :: parts
      | [] => [[u]]

/-- An entry of the array that `getBoatChats` returns. -/
structure ChatSummary where
  chatId : JsString
  otherBoat : Option JsString
  lastMessage : Option Message
  unreadCount : Nat
  deriving DecidableEq

/-- The order of `.orderBy('timestamp', 'desc')` on messages: the later one first,
then by document id downwards. -/
def messageBefore (a b : JsString × Message) : Bool :=
  b.2.timestamp < a.2.timestamp || (a.2.timestamp == b.2.timestamp && strLt b.1 a.1)

/-- The query `.orderBy('timestamp', 'desc').limit(1)` on the messages of a chat, the
document read as `{ id: doc.id, ...doc.data() }`. -/
def lastMessageOf (w : World) (chatId : JsString) : Option Message :=
  ((w.chats chatId).foldl
    (fun best d =>
      match best with
      | none => some d
      | some b => if messageBefore d b then some d else some b)
    none).map Prod.snd

/-- The body of the loop of `getBoatChats` for one document of `chatsSnapshot`:
`[boat1, boat2] = chatId.split('_')`, and the entry pushed when one of the two is
`boatNumber`. -/
def chatSummary (w : World) (boatNumber : JsString) (chatId : JsString) :
    Option ChatSummary :=
  let parts := jsSplit underscore chatId
  let boat1 := parts[0]?
  let boat2 := parts[1]?
  if boat1 = some boatNumber ∨ boat2 = some boatNumber then
    let otherBoat := if boat1 = some boatNumber then boat2 else boat1
    some { chatId := chatId, otherBoat := otherBoat, lastMessage := lastMessageOf w chatId,
           unreadCount := getUnreadCount w chatId boatNumber }
  else none

/-- Whether the comparator of `chats.sort` puts `a` before `b`: `a` has a last message
and `b` has none, or the last message of `a` is the later one. -/
def chatBefore (a b : ChatSummary) : Bool :=
  match a.lastMessage, b.lastMessage with
  | some _, none => true
  | some m, some n => n.timestamp < m.timestamp
  | none, _ => false

/-- Insertion of `x`, which stood before them, into the sorted list of the entries
that followed it. -/
def insertChat (x : ChatSummary) : List ChatSummary → List ChatSummary
  | [] => [x]
  | y :: ys => if chatBefore y x then y :: insertChat x ys else x :: y :: ys

/-- `chats.sort(comparator)`: a stable sort. -/
def sortChats : List ChatSummary → List ChatSummary
  | [] => []
  | x :: xs => insertChat x (sortChats xs)

/-- `ChatService.getBoatChats(boatNumber)`. -/
def getBoatChats (w : World) (boatNumber : JsString) :
    World × Except ChatError (List ChatSummary) :=
  (w, .ok (sortChats (w.chatDocs.filterMap (chatSummary w boatNumber))))

/-- The white space that `trim` removes, as code units. -/
def isWhiteSpace (u : Nat) : Bool :=
  u == 9 || u == 10 || u == 11 || u == 12 || u == 13 || u == 32 || u == 160 ||
    u == 5760 || (8192 ≤ u && u ≤ 8202) || u == 8232 || u == 8233 || u == 8239 ||
    u == 8287 || u == 12288 || u == 65279

/-- `text.trim()`. -/
def jsTrim (text : JsString) : JsString :=
  ((text.dropWhile isWhiteSpace).reverse.dropWhile isWhiteSpace).reverse

/-- The object `sosCopy` that `sendSOSMessage` passes to `sendMessage` for the boat
`toBoat`: the keys of `sosMessage` in their order are `id`, `fromBoat`, `toBoat`,
`message`, `messageType`, `location`, `timestamp`, `isDelivered`, `isRead`, `isSOS`. -/
def sosCopy (now : Time) (boatNumber message toBoat : JsString) : MessageData :=
  { fromBoat := .string boatNumber, toBoat := .string toBoat,
    message := .string (jsTrim (utf16 "SOS: " ++ message)),
    messageType := .string (utf16 "sos"), timestamp := .date now,
    unknownKeys := ["id", "location", "isDelivered", "isRead", "isSOS"] }

/-- The calls of `sendMessage` that `sendSOSMessage` makes for the documents of
`usersSnapshot` from position `i` on. -/
def sosCalls (envs : Nat → SendEnv) (now : Time) (boatNumber message : JsString) :
    Nat → Collection User → List (SendEnv × MessageData)
  | _, [] => []
  | i, doc :: docs =>
    if doc.2.boatNumber ≠ boatNumber then
      (envs i, sosCopy now boatNumber message doc.2.boatNumber) ::
        sosCalls envs now boatNumber message (i + 1) docs
    else sosCalls envs now boatNumber message (i + 1) docs

/-- The field `data` of what `sendSOSMessage` returns. -/
structure SosMessageResult where
  messageId : JsString
  sentTo : Int
  deriving DecidableEq

/-- `ChatService.sendSOSMessage(boatNumber, location, message)`; `uuid` and `now` are
the `uuidv4()` and `new Date()` of `sosMessage`. -/
def sendSOSMessage (w : World) (uuid : JsString) (now : Time) (envs : Nat → SendEnv)
    (boatNumber : JsString) (_location : LocationInput) (message : JsString) :
    World × Except ChatError SosMessageResult :=
  let usersSnapshot := activeUsers w
  let sent := sendAll w (sosCalls envs now boatNumber message 0 usersSnapshot)
  match firstError sent.2 with
  | some e => (sent.1, .error e)
  | none => (sent.1, .ok { messageId := uuid, sentTo := (usersSnapshot.length : Int) - 1 })

/-! ## Sample data -/

/-- The boat identifier `TN01-AB123`. -/
def boatA : JsString := utf16 "TN01-AB123"

/-- The boat identifier `TN02-CD456`. -/
def boatB : JsString := utf16 "TN02-CD456"

/-- The boat identifier `TN03-EF789`. -/
def boatC : JsString := utf16 "TN03-EF789"

/-- What a call draws from outside when the simulated transport succeeds. -/
def sampleEnv : SendEnv :=
  { uuid := utf16 "7c9e6679-7425-40de-944b-e07fc1f90ae7", now := 1000,
    messageDocId := utf16 "Jx0aQ4mT8vLw2ZrY6bNd", backupDocId := utf16 "p3KsV9uE1cHg5RtA7oMf",
    backupCreatedAt := 1001, loraSuccess := true, deliveredAt := 1002 }

/-- The message `hi` from `TN01-AB123` to `TN02-CD456`. -/
def sampleMessage : MessageData :=
  { fromBoat := .string boatA, toBoat := .string boatB, message := .string (utf16 "hi"),
    messageType := .undefined, timestamp := .undefined, unknownKeys := [] }

/-- The `value` that the validation returns for `sampleMessage` at time 1000. -/
def sampleValue : ChatValue :=
  { fromBoat := boatA, toBoat := boatB, message := utf16 "hi", messageType := utf16 "text",
    timestamp := 1000 }

/-- A thread between `TN01-AB123` and `TN02-CD456` with one unread message for each
of the two boats. -/
def sampleThread : Collection Message :=
  [ (utf16 "Jx0aQ4mT8vLw2ZrY6bNd",
      { id := utf16 "7c9e6679-7425-40de-944b-e07fc1f90ae7", fromBoat := boatA, toBoat := boatB,
        message := utf16 "hi", messageType := utf16 "text", timestamp := 1000,
        isDelivered := false, isRead := false, deliveredAt := none, readAt := none }),
    (utf16 "b8WnS1yD4kPq7GzC0hUe",
      { id := utf16 "1b4e28ba-2fa1-41d2-983f-6a1c5d0e7f42", fromBoat := boatB, toBoat := boatA,
        message := utf16 "hello", messageType := utf16 "text", timestamp := 1500,
        isDelivered := false, isRead := false, deliveredAt := none, readAt := none }) ]

/-- The state whose only documents are those of `sampleThread`. -/
def sampleWorld : World :=
  { emptyWorld with chats := setAt emptyWorld.chats (generateChatId boatA boatB) sampleThread }

/-- A profile of `users`. -/
def sampleUser (uid : String) (boatNumber : JsString) (isActive : Bool) : JsString × User :=
  (utf16 uid,
    { uid := utf16 uid, username := utf16 uid, boatNumber := boatNumber,
      phoneNumber := utf16 "+919876543210", role := "fisherman", isActive := isActive,
      emergencyContacts := some [], lastKnownLocation := none })

/-- A state with three active boats, `TN01-AB123`, `TN02-CD456` and `TN03-EF789`, and
no other document. -/
def fleetWorld : World :=
  { emptyWorld with
    users := [sampleUser "u1" boatA true, sampleUser "u2" boatB true,
      sampleUser "u3" boatC true] }

/-- What the calls of a broadcast draw from outside: the transport succeeds for the
documents at even positions and fails for the others. -/
def fleetEnvs (i : Nat) : SendEnv :=
  { sampleEnv with loraSuccess := i % 2 == 0 }

/-- What a call of `createSOSAlert` draws from outside, no channel being
configured. -/
def sampleSosEnv : SosEnv :=
  { uuid := utf16 "0f8fad5b-d9cb-469f-a165-70867728950e",
    alertDocId := utf16 "Qm4tZc8RbV1xNs6LwY0k", now := 3000,
    smsConfigured := false, smsThrows := fun _ => false,
    emailConfigured := false, emailThrows := fun _ => false }

/-- The location 13, 80 with accuracy 5. -/
def sampleLocation : LocationInput :=
  { latitude := 13, longitude := 80, accuracy := 5 }

/-- The case that `createSOSAlert` returns for `TN01-AB123` in `fleetWorld`. -/
def sampleCase : SOSAlert :=
  newSOSAlert sampleSosEnv (sampleUser "u1" boatA true).2 boatA sampleLocation [] none

/-- The state after `createSOSAlert` for `TN01-AB123` in `fleetWorld`. -/
def alertWorld : World :=
  (createSOSAlert fleetWorld sampleSosEnv boatA sampleLocation [] none).1

/-- The state after the case of `alertWorld` was resolved by `officer1` through its
document id. -/
def resolvedWorld : World :=
  (resolveSOSAlert alertWorld 5000 sampleSosEnv.alertDocId (utf16 "officer1")
    (utf16 "rescued")).1

/-- An active profile with the role `admin`. -/
def adminUser : JsString × User :=
  (utf16 "a1",
    { uid := utf16 "a1", username := utf16 "harbour office", boatNumber := utf16 "TN09-ZZ999",
      phoneNumber := utf16 "+919876500000", role := "admin", isActive := true,
      emergencyContacts := some [], lastKnownLocation := none })

/-- A state with the active boat `TN01-AB123` and the active profile `adminUser`. -/
def harbourWorld : World :=
  { emptyWorld with users := [sampleUser "u1" boatA true, adminUser] }

/-- What a call draws from outside when Twilio is configured and refuses every
number. -/
def failingSmsEnv : SosEnv :=
  { sampleSosEnv with smsConfigured := true, smsThrows := fun _ => true }

/-- A contact with a phone number and an email address. -/
def sampleContact : EmergencyContact :=
  { name := .string (utf16 "Meena"), phoneNumber := .string (utf16 "+919812345678"),
    email := .string (utf16 "meena@example.org") }

/-- A contact stored with a name and a phone number and without the key `email`. -/
def phoneContact : EmergencyContact :=
  { name := .string (utf16 "Ravi"), phoneNumber := .string (utf16 "+919800011122"),
    email := .undefined }

/-- The case of `sampleCase` with the contacts `sampleContact` and `phoneContact`. -/
def twoContactCase : SOSAlert :=
  { sampleCase with emergencyContacts := [sampleContact, phoneContact] }

/-- The case of `sampleCase` with `sampleContact` as its only emergency contact. -/
def contactCase : SOSAlert :=
  { sampleCase with emergencyContacts := [sampleContact] }

/-- The profile of `sampleUser` with a last known location. -/
def locatedUser (uid : String) (boatNumber : JsString) : JsString × User :=
  (utf16 uid,
    { (sampleUser uid boatNumber true).2 with
      lastKnownLocation := some { latitude := 13, longitude := 80, timestamp := 2500 } })

/-- A state with two active boats: `TN01-AB123`, which has reported a location, and
`TN02-CD456`, which has not. -/
def mixedWorld : World :=
  { emptyWorld with users := [locatedUser "u1" boatA, sampleUser "u2" boatB true] }

/-- A storm alert for the coast. -/
def sampleAlert : Alert :=
  { id := utf16 "b5c1e0a2-6f0d-4c55-9d0a-3c2f1e7a8b90", type := utf16 "storm",
    severity := utf16 "high", title := utf16 "Storm warning",
    description := utf16 "Strong winds expected", affectedAreas := [utf16 "Tamil Nadu Coast"],
    estimatedTime := 9000, recommendedActions := [utf16 "Return to port"],
    voiceAlertText := utf16 "புயல் எச்சரிக்கை", voiceUrl := utf16 "https://example.org/a.mp3",
    createdAt := 4000, isActive := true, acknowledgedBy := [] }

/-- The state of `sampleWorld` in which the thread between `TN01-AB123` and
`TN02-CD456` has a document of its own in `chats`. -/
def listedWorld : World :=
  { sampleWorld with chatDocs := [generateChatId boatA boatB] }

/-- What the calls of a broadcast draw from outside when the transport fails for
every one of them. -/
def quietEnvs (_i : Nat) : SendEnv :=
  { sampleEnv with loraSuccess := false }

/-- A state in which the profile of `TN01-AB123` is not active and the only active
boat is `TN02-CD456`. -/
def soloWorld : World :=
  { emptyWorld with users := [sampleUser "u1" boatA false, sampleUser "u2" boatB true] }


/-! ## Thread keys -/

theorem strLt_irrefl (a : JsString) : strLt a a = false := by
  induction a with
  | nil => rfl
  | cons x xs ih => simp [strLt, ih]

theorem strLt_asymm : ∀ a b : JsString, strLt a b = true → strLt b a = false
  | [], [], _ => rfl
  | [], _ :: _, _ => rfl
  | _ :: _, [], h => by simp [strLt] at h
  | x :: xs, y :: ys, h => by
    rcases Nat.lt_trichotomy x y with hxy | hxy | hxy
    · have : ¬ y < x := by omega
      simp [strLt, this]
      omega
    · subst hxy
      simp only [strLt, Nat.lt_irrefl, if_false] at h ⊢
      exact strLt_asymm xs ys h
    · have : ¬ x < y := by omega
      simp [strLt, this, hxy] at h

theorem strLt_connex : ∀ a b : JsString, strLt a b = false → strLt b a = false → a = b
  | [], [], _, _ => rfl
  | [], _ :: _, h, _ => by simp [strLt] at h
  | _ :: _, [], _, h => by simp [strLt] at h
  | x :: xs, y :: ys, h₁, h₂ => by
    rcases Nat.lt_trichotomy x y with hxy | hxy | hxy
    · simp [strLt, hxy] at h₁
    · subst hxy
      simp only [strLt, Nat.lt_irrefl, if_false] at h₁ h₂
      rw [strLt_connex xs ys h₁ h₂]
    · simp [strLt, hxy] at h₂

theorem jsSort_pair (a b : JsString) :
    jsSort [a, b] = if strLt b a then [b, a] else [a, b] := by
  simp [jsSort, sortInsert]

/-- C1. `generateChatId(A, B)` and `generateChatId(B, A)` are the same thread key,
for all strings `A` and `B`. -/
theorem generateChatId_comm (boat1 boat2 : JsString) :
    generateChatId boat1 boat2 = generateChatId boat2 boat1 := by
  unfold generateChatId
  rw [jsSort_pair, jsSort_pair]
  cases h₁ : strLt boat1 boat2 <;> cases h₂ : strLt boat2 boat1
  · rw [strLt_connex boat1 boat2 h₁ h₂]
  · simp
  · simp
  · rw [strLt_asymm boat1 boat2 h₁] at h₂
    cases h₂

/-! ## Risk scoring -/

theorem ofNat_eq_fin (n : Nat) : (OfNat.ofNat n : JsNum) = JsNum.fin (n : ℚ) := rfl

theorem windAssessment_riskScore (w : JsNum) (acc : Risk) :
    (windAssessment w acc).riskScore = acc.riskScore + windScore w := by
  unfold windAssessment windScore
  split_ifs <;> simp [Risk.add]

theorem seaAssessment_riskScore (s : String) (acc : Risk) :
    (seaAssessment s acc).riskScore = acc.riskScore + seaScore s := by
  unfold seaAssessment seaScore
  split_ifs <;> simp [Risk.add]

theorem visibilityAssessment_riskScore (v : JsNum) (acc : Risk) :
    (visibilityAssessment v acc).riskScore = acc.riskScore + visibilityScore v := by
  unfold visibilityAssessment visibilityScore
  split_ifs <;> simp [Risk.add]

theorem temperatureAssessment_riskScore (t : JsNum) (acc : Risk) :
    (temperatureAssessment t acc).riskScore = acc.riskScore + temperatureScore t := by
  unfold temperatureAssessment temperatureScore
  split_ifs <;> simp [Risk.add]

theorem riskScore_eq_sum (wd : WeatherData) :
    (calculateSignalStatus wd).riskScore =
      windScore wd.windSpeed + seaScore wd.seaCondition +
        visibilityScore wd.visibility + temperatureScore wd.temperature := by
  simp [calculateSignalStatus, temperatureAssessment_riskScore,
    visibilityAssessment_riskScore, seaAssessment_riskScore, windAssessment_riskScore]

theorem level_eq_signalLevel (wd : WeatherData) :
    (calculateSignalStatus wd).level = (signalLevel (calculateSignalStatus wd).riskScore).1 :=
  rfl

/-- C2. The risk score returned by `calculateSignalStatus` is the sum `W + S + V + T`
of the four rows of the score table, each read off the snapshot. -/
theorem calculateSignalStatus_riskScore (weatherData : WeatherData) :
    (calculateSignalStatus weatherData).riskScore =
      windScore weatherData.windSpeed + seaScore weatherData.seaCondition +
        visibilityScore weatherData.visibility +
        temperatureScore weatherData.temperature :=
  riskScore_eq_sum weatherData

theorem visibilityScore_eq_zero {v : JsNum} (h : jsGe v 5 = true) : visibilityScore v = 0 := by
  cases v with
  | nan => simp [jsGe, jsLe, ofNat_eq_fin] at h
  | negInf => simp [jsGe, jsLe, jsLt, ofNat_eq_fin] at h
  | posInf => simp [visibilityScore, jsLt]
  | fin q =>
    simp only [jsGe, jsLe, jsLt, ofNat_eq_fin, Bool.not_eq_true', decide_eq_false_iff_not,
      not_lt] at h
    have h' : (5 : ℚ) ≤ q := by exact_mod_cast h
    have h₁ : ¬ q < 1 := by linarith
    have h₅ : ¬ q < 5 := by linarith
    simp [visibilityScore, jsLt, ofNat_eq_fin, h₁, h₅]

theorem temperatureScore_eq_zero {t : JsNum} (h₀ : jsLe 0 t = true) (h₁ : jsLe t 45 = true) :
    temperatureScore t = 0 := by
  cases t with
  | nan => simp [jsLe, ofNat_eq_fin] at h₀
  | negInf => simp [jsLe, jsLt, ofNat_eq_fin] at h₀
  | posInf => simp [jsLe, jsLt, ofNat_eq_fin] at h₁
  | fin q =>
    simp only [jsLe, jsLt, ofNat_eq_fin, Bool.not_eq_true', decide_eq_false_iff_not,
      not_lt] at h₀ h₁
    have h₀' : (0 : ℚ) ≤ q := by exact_mod_cast h₀
    have h₁' : q ≤ (45 : ℚ) := by exact_mod_cast h₁
    have a : ¬ q < 0 := by linarith
    have b : ¬ (45 : ℚ) < q := by linarith
    simp [temperatureScore, jsLt, jsGt, ofNat_eq_fin, a, b]

/-- C3. The level is `red` exactly from score 150, `yellow` exactly from 100 up to
149 and `green` exactly below 100; a snapshot whose only risk is a wind speed of 45
scores 100 and is `yellow`, and a snapshot that scores 150 is `red`. -/
theorem calculateSignalStatus_level (weatherData : WeatherData) :
    ((calculateSignalStatus weatherData).level = "red" ↔
        150 ≤ (calculateSignalStatus weatherData).riskScore) ∧
    ((calculateSignalStatus weatherData).level = "yellow" ↔
        100 ≤ (calculateSignalStatus weatherData).riskScore ∧
          (calculateSignalStatus weatherData).riskScore < 150) ∧
    ((calculateSignalStatus weatherData).level = "green" ↔
        (calculateSignalStatus weatherData).riskScore < 100) ∧
    (weatherData.windSpeed = 45 → weatherData.seaCondition = "calm" →
        jsGe weatherData.visibility 5 = true → jsLe 0 weatherData.temperature = true →
        jsLe weatherData.temperature 45 = true →
        (calculateSignalStatus weatherData).riskScore = 100 ∧
          (calculateSignalStatus weatherData).level = "yellow") ∧
    ((calculateSignalStatus weatherData).riskScore = 150 →
        (calculateSignalStatus weatherData).level = "red") := by
  have key : ∀ n : Nat, ((signalLevel n).1 = "red" ↔ 150 ≤ n) ∧
      ((signalLevel n).1 = "yellow" ↔ 100 ≤ n ∧ n < 150) ∧
      ((signalLevel n).1 = "green" ↔ n < 100) := by
    intro n
    unfold signalLevel
    split_ifs with h₁ h₂
    · refine ⟨by simpa using h₁, ?_, ?_⟩
      · constructor
        · intro h; exact absurd h (by decide)
        · intro h; omega
      · constructor
        · intro h; exact absurd h (by decide)
        · intro h; omega
    · refine ⟨?_, ?_, ?_⟩
      · constructor
        · intro h; exact absurd h (by decide)
        · intro h; omega
      · simp only [true_iff]; omega
      · constructor
        · intro h; exact absurd h (by decide)
        · intro h; omega
    · refine ⟨?_, ?_, ?_⟩
      · constructor
        · intro h; exact absurd h (by decide)
        · intro h; omega
      · constructor
        · intro h; exact absurd h (by decide)
        · intro h; omega
      · simp only [true_iff]; omega
  have k := key (calculateSignalStatus weatherData).riskScore
  rw [← level_eq_signalLevel] at k
  refine ⟨k.1, k.2.1, k.2.2, ?_, fun h => k.1.2 (by omega)⟩
  intro hw hs hv ht₀ ht₁
  have hscore : (calculateSignalStatus weatherData).riskScore = 100 := by
    rw [riskScore_eq_sum, hw, hs, visibilityScore_eq_zero hv,
      temperatureScore_eq_zero ht₀ ht₁]
    decide
  exact ⟨hscore, k.2.1.2 (by omega)⟩

/-- Witness for C3: the wind-only snapshot (45, calm, 10, 25) scores 100 and is
yellow. -/
theorem calculateSignalStatus_level_witness :
    (calculateSignalStatus ⟨45, "calm", 10, 25⟩).riskScore = 100 ∧
      (calculateSignalStatus ⟨45, "calm", 10, 25⟩).level = "yellow" :=
  (calculateSignalStatus_level ⟨45, "calm", 10, 25⟩).2.2.2.1 rfl rfl
    (by decide) (by decide) (by decide)

theorem windScore_mono {w₁ w₂ : JsNum} (h : jsLe w₁ w₂ = true) :
    windScore w₁ ≤ windScore w₂ := by
  cases w₁ with
  | nan => simp [jsLe] at h
  | negInf => simp [windScore, jsGt, jsLt, ofNat_eq_fin]
  | posInf =>
    cases w₂ with
    | nan => simp [jsLe] at h
    | negInf => simp [jsLe, jsLt] at h
    | fin q => simp [jsLe, jsLt] at h
    | posInf => exact Nat.le_refl _
  | fin p =>
    cases w₂ with
    | nan => simp [jsLe] at h
    | negInf => simp [jsLe, jsLt] at h
    | posInf => simp [windScore, jsGt, jsLt, ofNat_eq_fin]; split_ifs <;> omega
    | fin q =>
      simp only [jsLe, jsLt, Bool.not_eq_true', decide_eq_false_iff_not, not_lt] at h
      simp only [windScore, jsGt, jsLt, ofNat_eq_fin, Nat.cast_ofNat, decide_eq_true_eq]
      split_ifs <;> first | omega | (exfalso; linarith)

/-- C4. With sea condition, visibility and temperature fixed, a wind speed that is
not smaller gives a risk score that is not smaller. -/
theorem riskScore_mono_windSpeed (w₁ w₂ : JsNum) (seaCondition : String)
    (visibility temperature : JsNum) (h : jsLe w₁ w₂ = true) :
    (calculateSignalStatus ⟨w₁, seaCondition, visibility, temperature⟩).riskScore ≤
      (calculateSignalStatus ⟨w₂, seaCondition, visibility, temperature⟩).riskScore := by
  rw [riskScore_eq_sum, riskScore_eq_sum]
  have := windScore_mono h
  simp only
  omega

/-- Witness for C4: from wind speed 15 to 35, on a rough sea with visibility 3 and
temperature 25. -/
theorem riskScore_mono_windSpeed_witness :
    jsLe 15 35 = true ∧
      (calculateSignalStatus ⟨15, "rough", 3, 25⟩).riskScore ≤
        (calculateSignalStatus ⟨35, "rough", 3, 25⟩).riskScore :=
  ⟨by decide, riskScore_mono_windSpeed 15 35 "rough" 3 25 (by decide)⟩

/-- C5. `calculateSeaCondition` is `calm` below 5, `slight` from 5 below 10,
`moderate` from 10 below 20, `rough` from 20 below 30, `very_rough` from 30 below
40 and `high` in every other case, whatever the weather type. -/
theorem calculateSeaCondition_spec (windSpeed : JsNum) (weatherType : String) :
    (jsLt windSpeed 5 = true → calculateSeaCondition windSpeed weatherType = "calm") ∧
    (jsLe 5 windSpeed = true → jsLt windSpeed 10 = true →
        calculateSeaCondition windSpeed weatherType = "slight") ∧
    (jsLe 10 windSpeed = true → jsLt windSpeed 20 = true →
        calculateSeaCondition windSpeed weatherType = "moderate") ∧
    (jsLe 20 windSpeed = true → jsLt windSpeed 30 = true →
        calculateSeaCondition windSpeed weatherType = "rough") ∧
    (jsLe 30 windSpeed = true → jsLt windSpeed 40 = true →
        calculateSeaCondition windSpeed weatherType = "very_rough") ∧
    (¬ jsLt windSpeed 5 = true →
        ¬ (jsLe 5 windSpeed = true ∧ jsLt windSpeed 10 = true) →
        ¬ (jsLe 10 windSpeed = true ∧ jsLt windSpeed 20 = true) →
        ¬ (jsLe 20 windSpeed = true ∧ jsLt windSpeed 30 = true) →
        ¬ (jsLe 30 windSpeed = true ∧ jsLt windSpeed 40 = true) →
        calculateSeaCondition windSpeed weatherType = "high") ∧
    (∀ otherType : String,
        calculateSeaCondition windSpeed otherType =
          calculateSeaCondition windSpeed weatherType) := by
  refine ⟨?_, ?_, ?_, ?_, ?_, ?_, fun _ => rfl⟩
  · intro h; simp [calculateSeaCondition, h]
  all_goals
    cases windSpeed with
    | nan => simp [calculateSeaCondition, jsLe, jsLt, ofNat_eq_fin]
    | negInf => simp [calculateSeaCondition, jsLe, jsLt, ofNat_eq_fin]
    | posInf => simp [calculateSeaCondition, jsLe, jsLt, ofNat_eq_fin]
    | fin q =>
      simp only [calculateSeaCondition, jsLe, jsLt, ofNat_eq_fin, Nat.cast_ofNat,
        Bool.not_eq_true', decide_eq_false_iff_not, decide_eq_true_eq, not_lt, not_and,
        not_le]
      intros
      first
        | (split_ifs <;> first | rfl | (exfalso; linarith))
        | (rename_i h₁ h₂ h₃ h₄ h₅
           have g₁ := h₂ h₁
           have g₂ := h₃ g₁
           have g₃ := h₄ g₂
           have g₄ := h₅ g₃
           split_ifs <;> first | rfl | (exfalso; linarith))

/-- Witness for C5: one wind speed in each of the six bands. -/
theorem calculateSeaCondition_spec_witness :
    calculateSeaCondition 3 "Clear" = "calm" ∧
    calculateSeaCondition 7 "Clear" = "slight" ∧
    calculateSeaCondition 15 "Rain" = "moderate" ∧
    calculateSeaCondition 25 "Rain" = "rough" ∧
    calculateSeaCondition 35 "Thunderstorm" = "very_rough" ∧
    calculateSeaCondition 40 "Thunderstorm" = "high" :=
  ⟨(calculateSeaCondition_spec 3 "Clear").1 (by decide),
   (calculateSeaCondition_spec 7 "Clear").2.1 (by decide) (by decide),
   (calculateSeaCondition_spec 15 "Rain").2.2.1 (by decide) (by decide),
   (calculateSeaCondition_spec 25 "Rain").2.2.2.1 (by decide) (by decide),
   (calculateSeaCondition_spec 35 "Thunderstorm").2.2.2.2.1 (by decide) (by decide),
   (calculateSeaCondition_spec 40 "Thunderstorm").2.2.2.2.2.1 (by decide) (by decide)
     (by decide) (by decide) (by decide)⟩

theorem windAssessment_reasons (w : JsNum) (acc : Risk) :
    (windAssessment w acc).reasons = acc.reasons ++ pushed (windAssessment w) := by
  unfold pushed windAssessment
  split_ifs <;> simp [Risk.add]

theorem seaAssessment_reasons (s : String) (acc : Risk) :
    (seaAssessment s acc).reasons = acc.reasons ++ pushed (seaAssessment s) := by
  unfold pushed seaAssessment
  split_ifs <;> simp [Risk.add]

theorem visibilityAssessment_reasons (v : JsNum) (acc : Risk) :
    (visibilityAssessment v acc).reasons = acc.reasons ++ pushed (visibilityAssessment v) := by
  unfold pushed visibilityAssessment
  split_ifs <;> simp [Risk.add]

theorem temperatureAssessment_reasons (t : JsNum) (acc : Risk) :
    (temperatureAssessment t acc).reasons =
      acc.reasons ++ pushed (temperatureAssessment t) := by
  unfold pushed temperatureAssessment
  split_ifs <;> simp [Risk.add]

theorem pushed_windAssessment_length (w : JsNum) :
    (pushed (windAssessment w)).length = triggered (windScore w) := by
  unfold pushed windAssessment windScore triggered
  split_ifs <;> simp_all [Risk.add]

theorem pushed_seaAssessment_length (s : String) :
    (pushed (seaAssessment s)).length = triggered (seaScore s) := by
  unfold pushed seaAssessment seaScore triggered
  split_ifs <;> simp_all [Risk.add]

theorem pushed_visibilityAssessment_length (v : JsNum) :
    (pushed (visibilityAssessment v)).length = triggered (visibilityScore v) := by
  unfold pushed visibilityAssessment visibilityScore triggered
  split_ifs <;> simp_all [Risk.add]

theorem pushed_temperatureAssessment_length (t : JsNum) :
    (pushed (temperatureAssessment t)).length = triggered (temperatureScore t) := by
  unfold pushed temperatureAssessment temperatureScore triggered
  split_ifs <;> simp_all [Risk.add]

theorem triggered_sum_eq_zero (a b c d : Nat) :
    triggered a + triggered b + triggered c + triggered d = 0 ↔ a + b + c + d = 0 := by
  unfold triggered
  split_ifs <;> constructor <;> intro h <;> first | omega | exact h.elim

/-- C6. The reasons are what the wind block pushes, then the sea block, then the
visibility block, then the temperature block; each block pushes one description
when its factor contributes to the score and none when it contributes 0; so there
are as many reasons as contributing factors, and none exactly when the score
is 0. -/
theorem calculateSignalStatus_reasons (weatherData : WeatherData) :
    (calculateSignalStatus weatherData).reasons =
        pushed (windAssessment weatherData.windSpeed) ++
          pushed (seaAssessment weatherData.seaCondition) ++
          pushed (visibilityAssessment weatherData.visibility) ++
          pushed (temperatureAssessment weatherData.temperature) ∧
    (pushed (windAssessment weatherData.windSpeed)).length =
        triggered (windScore weatherData.windSpeed) ∧
    (pushed (seaAssessment weatherData.seaCondition)).length =
        triggered (seaScore weatherData.seaCondition) ∧
    (pushed (visibilityAssessment weatherData.visibility)).length =
        triggered (visibilityScore weatherData.visibility) ∧
    (pushed (temperatureAssessment weatherData.temperature)).length =
        triggered (temperatureScore weatherData.temperature) ∧
    (calculateSignalStatus weatherData).reasons.length =
        triggered (windScore weatherData.windSpeed) +
          triggered (seaScore weatherData.seaCondition) +
          triggered (visibilityScore weatherData.visibility) +
          triggered (temperatureScore weatherData.temperature) ∧
    ((calculateSignalStatus weatherData).reasons = [] ↔
        (calculateSignalStatus weatherData).riskScore = 0) := by
  have hr : (calculateSignalStatus weatherData).reasons =
      pushed (windAssessment weatherData.windSpeed) ++
        pushed (seaAssessment weatherData.seaCondition) ++
        pushed (visibilityAssessment weatherData.visibility) ++
        pushed (temperatureAssessment weatherData.temperature) := by
    simp [calculateSignalStatus, temperatureAssessment_reasons,
      visibilityAssessment_reasons, seaAssessment_reasons, windAssessment_reasons]
  have hl : (calculateSignalStatus weatherData).reasons.length =
      triggered (windScore weatherData.windSpeed) +
        triggered (seaScore weatherData.seaCondition) +
        triggered (visibilityScore weatherData.visibility) +
        triggered (temperatureScore weatherData.temperature) := by
    rw [hr]
    simp only [List.length_append, pushed_windAssessment_length,
      pushed_seaAssessment_length, pushed_visibilityAssessment_length,
      pushed_temperatureAssessment_length]
  refine ⟨hr, pushed_windAssessment_length _, pushed_seaAssessment_length _,
    pushed_visibilityAssessment_length _, pushed_temperatureAssessment_length _, hl, ?_⟩
  rw [← List.length_eq_zero, hl, riskScore_eq_sum]
  exact triggered_sum_eq_zero _ _ _ _


/-! ## Nearest safe port -/

theorem realLt_trans {a b c : JsReal} (h₁ : realLt a b = true) (h₂ : realLt b c = true) :
    realLt a c = true := by
  cases a <;> cases b <;> cases c <;> simp [realLt] at *
  linarith

theorem realLt_of_lt_of_not_lt {a b c : JsReal} (h₁ : realLt a b = true)
    (h₂ : realLt c b = false) (hc : c ≠ .nan) : realLt a c = true := by
  cases a <;> cases b <;> cases c <;> simp [realLt] at *
  linarith

theorem realLe_of_lt {a b : JsReal} (h : realLt a b = true) : realLe a b = true := by
  cases a <;> cases b <;> simp [realLt, realLe] at *
  linarith

theorem realLe_of_not_lt {a b : JsReal} (h : realLt b a = false) (ha : a ≠ .nan)
    (hb : b ≠ .nan) : realLe a b = true := by
  cases a <;> cases b <;> simp [realLt, realLe] at *
  linarith

theorem realLe_refl {a : JsReal} (ha : a ≠ .nan) : realLe a a = true := by
  cases a <;> simp [realLe] at *

theorem realLt_ne_nan {a b : JsReal} (h : realLt a b = true) : a ≠ .nan ∧ b ≠ .nan := by
  cases a <;> cases b <;> simp [realLt] at *

theorem realLt_posInf_of_not_lt {a d : JsReal} (h : realLt a .posInf = false) (ha : a ≠ .nan)
    (hd : realLt d .posInf = true) : realLt d a = true := by
  cases a <;> cases d <;> simp [realLt] at *

theorem calculateDistanceCall_nan_latitude (eval : DistanceEval) (lon lat2 lon2 : JsReal) :
    calculateDistanceCall eval .nan lon lat2 lon2 = .nan := rfl

theorem calculateDistanceCall_nan_longitude (eval : DistanceEval) (lat lat2 lon2 : JsReal) :
    calculateDistanceCall eval lat .nan lat2 lon2 = .nan := by
  cases lat <;> rfl

theorem scanInv_init (eval : DistanceEval) (lat lon : JsReal) :
    ScanInv eval lat lon [] { nearestPort := none, shortestDistance := .posInf } := by
  simp [ScanInv]

theorem scanInv_step (eval : DistanceEval) (lat lon : JsReal) (seen : List SafePort)
    (st : Scan) (port : SafePort) (h : ScanInv eval lat lon seen st) :
    ScanInv eval lat lon (seen ++ [port]) (scanStep eval lat lon st port) := by
  obtain ⟨np, sd⟩ := st
  cases hact : port.isActive with
  | false =>
    have hs : scanStep eval lat lon ⟨np, sd⟩ port = ⟨np, sd⟩ := by simp [scanStep, hact]
    rw [hs]
    cases np with
    | none =>
      simp only [ScanInv] at h ⊢
      refine ⟨h.1, ?_⟩
      intro q hq hqa
      rcases List.mem_append.1 hq with hq | hq
      · exact h.2 q hq hqa
      · rw [List.mem_singleton.1 hq, hact] at hqa; cases hqa
    | some p =>
      simp only [ScanInv] at h ⊢
      obtain ⟨hd, hfin, hp, pre, post, hseen, hpre, hpost⟩ := h
      refine ⟨hd, hfin, hp, pre, post ++ [port], by simp [hseen], hpre, ?_⟩
      intro q hq hqa
      rcases List.mem_append.1 hq with hq | hq
      · exact hpost q hq hqa
      · rw [List.mem_singleton.1 hq, hact] at hqa; cases hqa
  | true =>
    cases np with
    | none =>
      simp only [ScanInv] at h
      obtain ⟨hd, hall⟩ := h
      subst hd
      cases hlt : realLt (distanceTo eval lat lon port) .posInf with
      | true =>
        have hs : scanStep eval lat lon ⟨none, .posInf⟩ port =
            ⟨some port, distanceTo eval lat lon port⟩ := by
          have hc : realLt (calculateDistanceCall eval lat lon (.fin port.latitude)
              (.fin port.longitude)) .posInf = true := hlt
          simp only [scanStep, hact, Bool.not_true, Bool.false_eq_true, if_false, hc, if_true]
          rfl
        rw [hs]
        show _ ∧ _ ∧ _ ∧ _
        refine ⟨rfl, hlt, hact, seen, [], rfl, ?_, ?_⟩
        · intro q hq hqa hnan
          exact realLt_posInf_of_not_lt (hall q hq hqa) hnan hlt
        · intro q hq; cases hq
      | false =>
        have hs : scanStep eval lat lon ⟨none, .posInf⟩ port = ⟨none, .posInf⟩ := by
          have hc : realLt (calculateDistanceCall eval lat lon (.fin port.latitude)
              (.fin port.longitude)) .posInf = false := hlt
          simp only [scanStep, hact, Bool.not_true, Bool.false_eq_true, if_false, hc]
        rw [hs]
        show _ ∧ _
        refine ⟨rfl, ?_⟩
        intro q hq hqa
        rcases List.mem_append.1 hq with hq | hq
        · exact hall q hq hqa
        · rw [List.mem_singleton.1 hq]; exact hlt
    | some p =>
      simp only [ScanInv] at h
      obtain ⟨hd, hfin, hp, pre, post, hseen, hpre, hpost⟩ := h
      subst hd
      cases hlt : realLt (distanceTo eval lat lon port) (distanceTo eval lat lon p) with
      | true =>
        have hs : scanStep eval lat lon ⟨some p, distanceTo eval lat lon p⟩ port =
            ⟨some port, distanceTo eval lat lon port⟩ := by
          have hc : realLt (calculateDistanceCall eval lat lon (.fin port.latitude)
              (.fin port.longitude)) (distanceTo eval lat lon p) = true := hlt
          simp only [scanStep, hact, Bool.not_true, Bool.false_eq_true, if_false, hc, if_true]
          rfl
        rw [hs]
        show _ ∧ _ ∧ _ ∧ _
        refine ⟨rfl, realLt_trans hlt hfin, hact, seen, [], rfl, ?_, ?_⟩
        · intro q hq hqa hnan
          rw [hseen] at hq
          rcases List.mem_append.1 hq with hq | hq
          · exact realLt_trans hlt (hpre q hq hqa hnan)
          · rcases List.mem_cons.1 hq with hq | hq
            · rw [hq]; exact hlt
            · exact realLt_of_lt_of_not_lt hlt (hpost q hq hqa) hnan
        · intro q hq; cases hq
      | false =>
        have hs : scanStep eval lat lon ⟨some p, distanceTo eval lat lon p⟩ port =
            ⟨some p, distanceTo eval lat lon p⟩ := by
          have hc : realLt (calculateDistanceCall eval lat lon (.fin port.latitude)
              (.fin port.longitude)) (distanceTo eval lat lon p) = false := hlt
          simp only [scanStep, hact, Bool.not_true, Bool.false_eq_true, if_false, hc]
        rw [hs]
        show _ ∧ _ ∧ _ ∧ _
        refine ⟨rfl, hfin, hp, pre, post ++ [port], by simp [hseen], hpre, ?_⟩
        intro q hq hqa
        rcases List.mem_append.1 hq with hq | hq
        · exact hpost q hq hqa
        · rw [List.mem_singleton.1 hq]; exact hlt

theorem scanInv_foldl (eval : DistanceEval) (lat lon : JsReal) (rest : List SafePort) :
    ∀ (seen : List SafePort) (st : Scan), ScanInv eval lat lon seen st →
      ScanInv eval lat lon (seen ++ rest) (rest.foldl (scanStep eval lat lon) st) := by
  induction rest with
  | nil => intro seen st h; simpa using h
  | cons port rest ih =>
    intro seen st h
    have := ih (seen ++ [port]) (scanStep eval lat lon st port)
      (scanInv_step eval lat lon seen st port h)
    simpa using this

theorem scanInv_result (eval : DistanceEval) (safePorts : List SafePort) (lat lon : JsReal) :
    ScanInv eval lat lon safePorts
      (safePorts.foldl (scanStep eval lat lon)
        { nearestPort := none, shortestDistance := .posInf }) := by
  simpa using scanInv_foldl eval lat lon safePorts [] _ (scanInv_init eval lat lon)

theorem findNearestSafePort_port (eval : DistanceEval) (safePorts : List SafePort)
    (lat lon : JsReal) :
    (findNearestSafePort eval safePorts lat lon).port =
      (safePorts.foldl (scanStep eval lat lon)
        { nearestPort := none, shortestDistance := .posInf }).nearestPort := rfl

theorem findNearestSafePort_distance (eval : DistanceEval) (safePorts : List SafePort)
    (lat lon : JsReal) :
    (findNearestSafePort eval safePorts lat lon).distance =
      (safePorts.foldl (scanStep eval lat lon)
        { nearestPort := none, shortestDistance := .posInf }).shortestDistance := rfl

theorem findNearestSafePort_of_nan (eval : DistanceEval) (safePorts : List SafePort)
    (lat lon : JsReal) (h : ∀ p ∈ safePorts, distanceTo eval lat lon p = .nan) :
    (findNearestSafePort eval safePorts lat lon).port = none ∧
    (findNearestSafePort eval safePorts lat lon).distance = .posInf := by
  have inv := scanInv_result eval safePorts lat lon
  rw [findNearestSafePort_port, findNearestSafePort_distance]
  generalize safePorts.foldl (scanStep eval lat lon)
    { nearestPort := none, shortestDistance := .posInf } = st at inv
  obtain ⟨np, sd⟩ := st
  cases np with
  | none =>
    simp only [ScanInv] at inv
    exact ⟨rfl, inv.1⟩
  | some p =>
    simp only [ScanInv] at inv
    obtain ⟨_, hfin, _, pre, post, hseen, _, _⟩ := inv
    rw [h p (by simp [hseen])] at hfin
    simp [realLt] at hfin

/-- C7, as stated, fails: with a latitude that is `NaN` every distance is `NaN`, no
comparison `distance < shortestDistance` holds, and `findNearestSafePort` returns
`port = null` although the ports of the constructor's list are active. -/
theorem findNearestSafePort_nan_latitude :
    (∃ p ∈ defaultSafePorts, p.isActive = true) ∧
    (findNearestSafePort exactDistance defaultSafePorts .nan (.fin 80)).port = none :=
  ⟨⟨_, List.mem_cons_self _ _, rfl⟩,
   (findNearestSafePort_of_nan exactDistance defaultSafePorts .nan (.fin 80)
     (fun _ _ => rfl)).1⟩

/-- C7, amended. Whatever the floating-point evaluation of the distance,
`findNearestSafePort` returns `port = null` exactly when no active port of the list
has a distance below `Infinity`, and a port that it returns is an active port of the
list. -/
theorem findNearestSafePort_null_iff (eval : DistanceEval) (safePorts : List SafePort)
    (latitude longitude : JsReal) :
    ((findNearestSafePort eval safePorts latitude longitude).port = none ↔
        ¬ ∃ p ∈ safePorts, p.isActive = true ∧
          realLt (distanceTo eval latitude longitude p) .posInf = true) ∧
    (∀ p, (findNearestSafePort eval safePorts latitude longitude).port = some p →
        p.isActive = true ∧ p ∈ safePorts) := by
  have inv := scanInv_result eval safePorts latitude longitude
  rw [findNearestSafePort_port]
  generalize safePorts.foldl (scanStep eval latitude longitude)
    { nearestPort := none, shortestDistance := .posInf } = st at inv
  obtain ⟨np, sd⟩ := st
  cases np with
  | none =>
    simp only [ScanInv] at inv
    refine ⟨⟨fun _ => ?_, fun _ => rfl⟩, fun p hp => (by cases hp)⟩
    rintro ⟨p, hp, hpa, hlt⟩
    rw [inv.2 p hp hpa] at hlt; cases hlt
  | some p =>
    simp only [ScanInv] at inv
    obtain ⟨_, hfin, hp, pre, post, hseen, _, _⟩ := inv
    have hmem : p ∈ safePorts := by simp [hseen]
    refine ⟨⟨fun h => (by cases h), fun h => ?_⟩, fun q hq => ?_⟩
    · exact absurd ⟨p, hmem, hp, hfin⟩ h
    · cases hq; exact ⟨hp, hmem⟩

/-- C7, amended, at two inputs: the list with one inactive port gives no port, and
the constructor's list, seen from latitude 13 and longitude 80, gives one. -/
theorem findNearestSafePort_null_iff_witness :
    (findNearestSafePort exactDistance
        [{ id := "closed", name := "Closed Port", tamilName := "", latitude := 9,
           longitude := 79, capacity := 10, isActive := false, facilities := [] }]
        (.fin 13) (.fin 80)).port = none ∧
      (findNearestSafePort exactDistance defaultSafePorts (.fin 13) (.fin 80)).port ≠ none :=
  ⟨(findNearestSafePort_null_iff exactDistance _ (.fin 13) (.fin 80)).1.2 (by simp),
   fun h => (findNearestSafePort_null_iff exactDistance defaultSafePorts (.fin 13)
     (.fin 80)).1.1 h ⟨_, List.mem_cons_self _ _, rfl, rfl⟩⟩

/-- C8, as stated, fails: with a longitude that is `NaN` the constructor's list has
active ports, and `findNearestSafePort` returns no port, with the distance
`Infinity`. -/
theorem findNearestSafePort_nan_longitude :
    (∃ p ∈ defaultSafePorts, p.isActive = true) ∧
    (findNearestSafePort exactDistance defaultSafePorts (.fin 13) .nan).port = none ∧
    (findNearestSafePort exactDistance defaultSafePorts (.fin 13) .nan).distance = .posInf :=
  ⟨⟨_, List.mem_cons_self _ _, rfl⟩,
   findNearestSafePort_of_nan exactDistance defaultSafePorts (.fin 13) .nan
     (fun _ _ => rfl)⟩

/-- C8, amended. Whatever the floating-point evaluation of the distance, when some
active port of the list has a distance below `Infinity`, the returned port is an
active port of the list, the reported distance is its distance, that distance is
`<=` the distance of every active port whose distance is a number, no active port has
a distance `<` it, and every active port that stands before it in the list and whose
distance is a number is farther. -/
theorem findNearestSafePort_nearest (eval : DistanceEval) (safePorts : List SafePort)
    (latitude longitude : JsReal)
    (h : ∃ p ∈ safePorts, p.isActive = true ∧
      realLt (distanceTo eval latitude longitude p) .posInf = true) :
    ∃ p pre post,
      (findNearestSafePort eval safePorts latitude longitude).port = some p ∧
      (findNearestSafePort eval safePorts latitude longitude).distance =
        distanceTo eval latitude longitude p ∧
      p.isActive = true ∧
      safePorts = pre ++ p :: post ∧
      (∀ q ∈ safePorts, q.isActive = true → distanceTo eval latitude longitude q ≠ .nan →
        realLe (distanceTo eval latitude longitude p)
          (distanceTo eval latitude longitude q) = true) ∧
      (∀ q ∈ safePorts, q.isActive = true →
        realLt (distanceTo eval latitude longitude q)
          (distanceTo eval latitude longitude p) = false) ∧
      (∀ q ∈ pre, q.isActive = true → distanceTo eval latitude longitude q ≠ .nan →
        realLt (distanceTo eval latitude longitude p)
          (distanceTo eval latitude longitude q) = true) := by
  have inv := scanInv_result eval safePorts latitude longitude
  rw [findNearestSafePort_port, findNearestSafePort_distance]
  generalize safePorts.foldl (scanStep eval latitude longitude)
    { nearestPort := none, shortestDistance := .posInf } = st at inv
  obtain ⟨np, sd⟩ := st
  cases np with
  | none =>
    simp only [ScanInv] at inv
    obtain ⟨p, hp, hpa, hlt⟩ := h
    rw [inv.2 p hp hpa] at hlt; cases hlt
  | some p =>
    simp only [ScanInv] at inv
    obtain ⟨hd, hfin, hp, pre, post, hseen, hpre, hpost⟩ := inv
    have hpn : distanceTo eval latitude longitude p ≠ .nan := (realLt_ne_nan hfin).1
    have hnot : ∀ q ∈ safePorts, q.isActive = true →
        realLt (distanceTo eval latitude longitude q)
          (distanceTo eval latitude longitude p) = false := by
      intro q hq hqa
      rw [hseen] at hq
      rcases List.mem_append.1 hq with hq | hq
      · cases hlt : realLt (distanceTo eval latitude longitude q)
            (distanceTo eval latitude longitude p) with
        | false => rfl
        | true =>
          have h₁ := hpre q hq hqa (realLt_ne_nan hlt).1
          have h₂ := realLt_trans hlt h₁
          cases hq' : distanceTo eval latitude longitude q <;> rw [hq'] at h₂ <;>
            simp [realLt] at h₂
      · rcases List.mem_cons.1 hq with hq | hq
        · rw [hq]
          cases hp' : distanceTo eval latitude longitude p <;> simp [realLt]
        · exact hpost q hq hqa
    refine ⟨p, pre, post, rfl, hd, hp, hseen, ?_, hnot, hpre⟩
    intro q hq hqa hqn
    exact realLe_of_not_lt (hnot q hq hqa) hpn hqn

/-- C8, amended, at the constructor's list seen from latitude 13, longitude 80, the
distance evaluated without rounding error. -/
theorem findNearestSafePort_nearest_witness :
    (∃ p ∈ defaultSafePorts, p.isActive = true ∧
      realLt (distanceTo exactDistance (.fin 13) (.fin 80) p) .posInf = true) ∧
      ∃ p pre post,
        (findNearestSafePort exactDistance defaultSafePorts (.fin 13) (.fin 80)).port =
          some p ∧
        (findNearestSafePort exactDistance defaultSafePorts (.fin 13) (.fin 80)).distance =
          distanceTo exactDistance (.fin 13) (.fin 80) p ∧
        p.isActive = true ∧
        defaultSafePorts = pre ++ p :: post ∧
        (∀ q ∈ defaultSafePorts, q.isActive = true →
          distanceTo exactDistance (.fin 13) (.fin 80) q ≠ .nan →
          realLe (distanceTo exactDistance (.fin 13) (.fin 80) p)
            (distanceTo exactDistance (.fin 13) (.fin 80) q) = true) ∧
        (∀ q ∈ defaultSafePorts, q.isActive = true →
          realLt (distanceTo exactDistance (.fin 13) (.fin 80) q)
            (distanceTo exactDistance (.fin 13) (.fin 80) p) = false) ∧
        (∀ q ∈ pre, q.isActive = true →
          distanceTo exactDistance (.fin 13) (.fin 80) q ≠ .nan →
          realLt (distanceTo exactDistance (.fin 13) (.fin 80) p)
            (distanceTo exactDistance (.fin 13) (.fin 80) q) = true) :=
  ⟨⟨_, List.mem_cons_self _ _, rfl, rfl⟩,
   findNearestSafePort_nearest exactDistance defaultSafePorts (.fin 13) (.fin 80)
     ⟨_, List.mem_cons_self _ _, rfl, rfl⟩⟩

/-! ## Distance and bearing -/

theorem sin_half_toRadians_sub (x y : ℝ) :
    Real.sin (toRadians (x - y) / 2) = -Real.sin (toRadians (y - x) / 2) := by
  rw [← Real.sin_neg]
  congr 1
  unfold toRadians
  ring

/-- C9. The haversine distance, read over the real numbers, is the same in both
directions. -/
theorem calculateDistance_comm (lat1 lon1 lat2 lon2 : ℝ) :
    calculateDistance lat1 lon1 lat2 lon2 = calculateDistance lat2 lon2 lat1 lon1 := by
  have ha : Real.sin (toRadians (lat2 - lat1) / 2) * Real.sin (toRadians (lat2 - lat1) / 2) +
      Real.cos (toRadians lat1) * Real.cos (toRadians lat2) *
        Real.sin (toRadians (lon2 - lon1) / 2) * Real.sin (toRadians (lon2 - lon1) / 2) =
      Real.sin (toRadians (lat1 - lat2) / 2) * Real.sin (toRadians (lat1 - lat2) / 2) +
      Real.cos (toRadians lat2) * Real.cos (toRadians lat1) *
        Real.sin (toRadians (lon1 - lon2) / 2) * Real.sin (toRadians (lon1 - lon2) / 2) := by
    rw [sin_half_toRadians_sub lat2 lat1, sin_half_toRadians_sub lon2 lon1]
    ring
  simp only [calculateDistance]
  rw [ha]

theorem truncate_of_nonneg {x : ℝ} (h : 0 ≤ x) : truncate x = ⌊x⌋ := by
  simp [truncate, h]

theorem jsMod_range {x m : ℝ} (hx : 0 ≤ x) (hm : 0 < m) :
    0 ≤ jsMod x m ∧ jsMod x m < m := by
  unfold jsMod
  rw [truncate_of_nonneg (div_nonneg hx hm.le)]
  have h₁ : (⌊x / m⌋ : ℝ) ≤ x / m := Int.floor_le _
  have h₂ : x / m < ⌊x / m⌋ + 1 := Int.lt_floor_add_one _
  have e : m * (x / m) = x := by field_simp
  constructor
  · have := mul_le_mul_of_nonneg_left h₁ hm.le
    rw [e] at this
    linarith
  · have := mul_lt_mul_of_pos_left h₂ hm
    rw [e] at this
    linarith

theorem toDegrees_atan2_gt (y x : ℝ) : -180 < toDegrees (atan2 y x) := by
  unfold toDegrees atan2
  have h := Complex.neg_pi_lt_arg ⟨x, y⟩
  have hpi := Real.pi_pos
  have hk : 0 < 180 / Real.pi := div_pos (by norm_num) hpi
  have := mul_lt_mul_of_pos_right h hk
  have e : -Real.pi * (180 / Real.pi) = -180 := by
    field_simp
    ring
  rw [e] at this
  exact this

/-- C10. The bearing returned by `calculateBearing` is at least 0 and less than
360, for all coordinate pairs. -/
theorem calculateBearing_range (lat1 lon1 lat2 lon2 : ℝ) :
    0 ≤ calculateBearing lat1 lon1 lat2 lon2 ∧ calculateBearing lat1 lon1 lat2 lon2 < 360 := by
  simp only [calculateBearing]
  apply jsMod_range
  · have := toDegrees_atan2_gt
      (Real.sin (toRadians (lon2 - lon1)) * Real.cos (toRadians lat2))
      (Real.cos (toRadians lat1) * Real.sin (toRadians lat2) -
        Real.sin (toRadians lat1) * Real.cos (toRadians lat2) *
          Real.cos (toRadians (lon2 - lon1)))
    linarith
  · norm_num

theorem toRadians_sub (x y : ℝ) : toRadians (x - y) = toRadians x - toRadians y := by
  unfold toRadians
  ring

theorem cos_mul_cos_eq (u v : ℝ) :
    Real.cos u * Real.cos v =
      Real.cos ((u + v) / 2) ^ 2 * Real.cos ((v - u) / 2) ^ 2 -
        Real.sin ((u + v) / 2) ^ 2 * Real.sin ((v - u) / 2) ^ 2 := by
  have h₁ := Real.cos_sub ((u + v) / 2) ((v - u) / 2)
  have h₂ := Real.cos_add ((u + v) / 2) ((v - u) / 2)
  have e₁ : (u + v) / 2 - (v - u) / 2 = u := by ring
  have e₂ : (u + v) / 2 + (v - u) / 2 = v := by ring
  rw [e₁] at h₁
  rw [e₂] at h₂
  rw [h₁, h₂]
  ring

/-- The quantity `a` of `calculateDistance` lies between 0 and 1, so both square
roots are taken of non-negative numbers. -/
theorem haversine_mem_unit (lat1 lon1 lat2 lon2 : ℝ) :
    0 ≤ Real.sin (toRadians (lat2 - lat1) / 2) * Real.sin (toRadians (lat2 - lat1) / 2) +
        Real.cos (toRadians lat1) * Real.cos (toRadians lat2) *
          Real.sin (toRadians (lon2 - lon1) / 2) * Real.sin (toRadians (lon2 - lon1) / 2) ∧
    Real.sin (toRadians (lat2 - lat1) / 2) * Real.sin (toRadians (lat2 - lat1) / 2) +
        Real.cos (toRadians lat1) * Real.cos (toRadians lat2) *
          Real.sin (toRadians (lon2 - lon1) / 2) * Real.sin (toRadians (lon2 - lon1) / 2) ≤ 1 := by
  rw [toRadians_sub lat2 lat1, cos_mul_cos_eq]
  set sx := Real.sin ((toRadians lat2 - toRadians lat1) / 2)
  set cx := Real.cos ((toRadians lat2 - toRadians lat1) / 2)
  set sm := Real.sin ((toRadians lat1 + toRadians lat2) / 2)
  set cm := Real.cos ((toRadians lat1 + toRadians lat2) / 2)
  set sy := Real.sin (toRadians (lon2 - lon1) / 2)
  have hx : sx ^ 2 + cx ^ 2 = 1 := Real.sin_sq_add_cos_sq _
  have hm : sm ^ 2 + cm ^ 2 = 1 := Real.sin_sq_add_cos_sq _
  have hy : sy ^ 2 ≤ 1 := Real.sin_sq_le_one _
  have h0 : 0 ≤ sy ^ 2 := sq_nonneg _
  have hsx : 0 ≤ sx ^ 2 := sq_nonneg _
  have hcx : 0 ≤ cx ^ 2 := sq_nonneg _
  have hsm : 0 ≤ sm ^ 2 := sq_nonneg _
  have hcm : 0 ≤ cm ^ 2 := sq_nonneg _
  have k₁ : sy ^ 2 * sm ^ 2 ≤ 1 := by nlinarith
  have k₂ : sy ^ 2 * cm ^ 2 ≤ 1 := by nlinarith
  constructor
  · have : sx * sx + (cm ^ 2 * cx ^ 2 - sm ^ 2 * sx ^ 2) * sy * sy =
        sx ^ 2 * (1 - sy ^ 2 * sm ^ 2) + sy ^ 2 * cm ^ 2 * cx ^ 2 := by ring
    rw [this]
    have t₁ : 0 ≤ sx ^ 2 * (1 - sy ^ 2 * sm ^ 2) := mul_nonneg hsx (by linarith)
    have t₂ : 0 ≤ sy ^ 2 * cm ^ 2 * cx ^ 2 := mul_nonneg (mul_nonneg h0 hcm) hcx
    linarith
  · have : sx * sx + (cm ^ 2 * cx ^ 2 - sm ^ 2 * sx ^ 2) * sy * sy =
        1 - (cx ^ 2 * (1 - sy ^ 2 * cm ^ 2) + sy ^ 2 * sm ^ 2 * sx ^ 2) := by
      linear_combination hx
    rw [this]
    have t₁ : 0 ≤ cx ^ 2 * (1 - sy ^ 2 * cm ^ 2) := mul_nonneg hcx (by linarith)
    have t₂ : 0 ≤ sy ^ 2 * sm ^ 2 * sx ^ 2 := mul_nonneg (mul_nonneg h0 hsm) hsx
    linarith

/-! ## Estimated time of arrival -/

theorem mathRound_mono {x y : ℝ} (h : x ≤ y) : mathRound x ≤ mathRound y := by
  unfold mathRound
  exact Int.floor_mono (by linarith)

/-- C11. `calculateETA` does not decrease when the distance grows at a fixed positive
speed, and does not increase when the speed grows at a fixed non-negative
distance. -/
theorem calculateETA_mono :
    (∀ s d₁ d₂ : ℝ, 0 < s → d₁ ≤ d₂ → calculateETA d₁ s ≤ calculateETA d₂ s) ∧
    (∀ d s₁ s₂ : ℝ, 0 ≤ d → 0 < s₁ → s₁ ≤ s₂ → calculateETA d s₂ ≤ calculateETA d s₁) := by
  constructor
  · intro s d₁ d₂ hs hd
    unfold calculateETA
    apply mathRound_mono
    have : d₁ / s ≤ d₂ / s := div_le_div_of_nonneg_right hd hs.le
    linarith
  · intro d s₁ s₂ hd hs₁ hs
    unfold calculateETA
    apply mathRound_mono
    have : d / s₂ ≤ d / s₁ := div_le_div_of_nonneg_left hd hs₁ hs
    linarith

/-- Witness for C11: distances 10 and 30 at speed 20, and speeds 20 and 40 at
distance 10. -/
theorem calculateETA_mono_witness :
    calculateETA 10 20 ≤ calculateETA 30 20 ∧ calculateETA 10 40 ≤ calculateETA 10 20 :=
  ⟨calculateETA_mono.1 20 10 30 (by norm_num) (by norm_num),
   calculateETA_mono.2 10 20 40 (by norm_num) (by norm_num) (by norm_num)⟩

/-- C12, as stated, fails: with distance 10 and speed -5 the call returns the
number -120 and signals no error. -/
theorem calculateETACall_negative_speed :
    (-5 : ℝ) ≤ 0 ∧ calculateETACall 10 (-5) = Except.ok (EtaValue.minutes (-120)) := by
  refine ⟨by norm_num, ?_⟩
  have h : calculateETA 10 (-5) = -120 := by
    unfold calculateETA mathRound
    rw [Int.floor_eq_iff]
    constructor <;> norm_num
  simp [calculateETACall, h]

/-- C12, amended. For every distance and every speed, a speed that is 0 or negative
included, the call returns a number and signals no error; for a negative speed the
number is `round(distance / boatSpeed * 60)`. -/
theorem calculateETACall_returns (distance boatSpeed : ℝ) :
    (∃ v, calculateETACall distance boatSpeed = Except.ok v) ∧
    (boatSpeed < 0 → calculateETACall distance boatSpeed =
        Except.ok (EtaValue.minutes (mathRound (distance / boatSpeed * 60)))) := by
  constructor
  · unfold calculateETACall
    split_ifs <;> exact ⟨_, rfl⟩
  · intro hneg
    simp [calculateETACall, ne_of_lt hneg, calculateETA]

/-- Witness for C12 amended: distance 10, speed -5. -/
theorem calculateETACall_returns_witness :
    calculateETACall 10 (-5) =
      Except.ok (EtaValue.minutes (mathRound (10 / (-5) * 60))) :=
  (calculateETACall_returns 10 (-5)).2 (by norm_num)

/-! ## Sending a chat message -/

theorem validateChatMessage_ok {now : Time} {d : MessageData} {v : ChatValue}
    (h : validateChatMessage now d = .ok v) :
    validateBoat "fromBoat" d.fromBoat = .ok v.fromBoat ∧
    validateBoat "toBoat" d.toBoat = .ok v.toBoat ∧
    validateBody "message" d.message = .ok v.message ∧
    validateType "messageType" d.messageType = .ok v.messageType ∧
    validateDate "timestamp" now d.timestamp = .ok v.timestamp ∧
    d.unknownKeys = [] := by
  unfold validateChatMessage at h
  cases h₁ : validateBoat "fromBoat" d.fromBoat with
  | error e => rw [h₁] at h; cases h
  | ok a =>
    cases h₂ : validateBoat "toBoat" d.toBoat with
    | error e => rw [h₁, h₂] at h; cases h
    | ok b =>
      cases h₃ : validateBody "message" d.message with
      | error e => rw [h₁, h₂, h₃] at h; cases h
      | ok c =>
        cases h₄ : validateType "messageType" d.messageType with
        | error e => rw [h₁, h₂, h₃, h₄] at h; cases h
        | ok t =>
          cases h₅ : validateDate "timestamp" now d.timestamp with
          | error e => rw [h₁, h₂, h₃, h₄, h₅] at h; cases h
          | ok ts =>
            rw [h₁, h₂, h₃, h₄, h₅] at h
            cases h₆ : d.unknownKeys with
            | cons k ks => rw [h₆] at h; cases h
            | nil =>
              rw [h₆] at h
              cases h
              exact ⟨rfl, rfl, rfl, rfl, rfl, rfl⟩

theorem validateBoat_ok {key : String} {f : JsField} {s : JsString}
    (h : validateBoat key f = .ok s) : f = .string s ∧ boatNumberPattern s = true := by
  cases f with
  | undefined => cases h
  | other => cases h
  | string t =>
    cases t with
    | nil => cases h
    | cons x xs =>
      simp only [validateBoat] at h
      split_ifs at h with hp
      cases h
      exact ⟨rfl, hp⟩

theorem validateBody_ok {key : String} {f : JsField} {s : JsString}
    (h : validateBody key f = .ok s) : f = .string s ∧ s ≠ [] ∧ s.length ≤ 1000 := by
  cases f with
  | undefined => cases h
  | other => cases h
  | string t =>
    cases t with
    | nil => cases h
    | cons x xs =>
      simp only [validateBody] at h
      split_ifs at h with hp
      cases h
      exact ⟨rfl, by simp, by omega⟩

theorem validateType_ok {key : String} {f : JsField} {s : JsString}
    (h : validateType key f = .ok s) : s ∈ messageTypes := by
  cases f with
  | undefined => cases h; decide
  | other => cases h
  | string t =>
    simp only [validateType] at h
    split_ifs at h with hp
    cases h
    exact hp

theorem validateChatMessage_defect {now : Time} {d : MessageData} (h : ListedDefect d) :
    ∃ e, validateChatMessage now d = .error e := by
  cases hv : validateChatMessage now d with
  | error e => exact ⟨e, rfl⟩
  | ok v =>
    exfalso
    obtain ⟨h₁, h₂, h₃, h₄, _, _⟩ := validateChatMessage_ok hv
    rcases h with ⟨s, hs, hp⟩ | ⟨s, hs, hp⟩ | hs | ⟨s, hs, hp⟩ | ⟨s, hs, hp⟩
    · have := validateBoat_ok h₁
      rw [hs] at this
      cases this.1
      rw [hp] at this
      cases this.2
    · have := validateBoat_ok h₂
      rw [hs] at this
      cases this.1
      rw [hp] at this
      cases this.2
    · have := validateBody_ok h₃
      rw [hs] at this
      exact this.2.1 (by injection this.1 with h'; exact h'.symm)
    · have := validateBody_ok h₃
      rw [hs] at this
      cases this.1
      omega
    · rw [hs] at h₄
      simp only [validateType] at h₄
      split_ifs at h₄

theorem sendMessage_of_invalid (w : World) (env : SendEnv) (d : MessageData)
    (e : ValidationError) (h : validateChatMessage env.now d = .error e) :
    sendMessage w env d = (w, .error (.validation e)) := by
  simp only [sendMessage, h]

/-- C13. A message that fails validation makes `sendMessage` throw the validation
error and leaves the state, every thread and every backup queue included, as it
was; and each defect that the specification lists makes the validation fail. -/
theorem sendMessage_invalid (w : World) (env : SendEnv) (messageData : MessageData) :
    (∀ e, validateChatMessage env.now messageData = .error e →
        sendMessage w env messageData = (w, .error (.validation e))) ∧
    (ListedDefect messageData →
        ∃ e, validateChatMessage env.now messageData = .error e ∧
          sendMessage w env messageData = (w, .error (.validation e))) := by
  refine ⟨fun e h => sendMessage_of_invalid w env messageData e h, fun h => ?_⟩
  obtain ⟨e, he⟩ := @validateChatMessage_defect env.now messageData h
  exact ⟨e, he, sendMessage_of_invalid w env messageData e he⟩

/-- Witness for C13: a sender `TN1` is refused and the empty state stays empty. -/
theorem sendMessage_invalid_witness :
    sendMessage emptyWorld sampleEnv { sampleMessage with fromBoat := .string (utf16 "TN1") } =
      (emptyWorld, .error (.validation (.stringPattern "fromBoat"))) :=
  (sendMessage_invalid emptyWorld sampleEnv
    { sampleMessage with fromBoat := .string (utf16 "TN1") }).1 _ rfl

theorem updateDoc_eq_none {α : Type} (c : Collection α) (id : JsString) (f : α → α)
    (h : ∀ d ∈ c, d.1 ≠ id) : updateDoc c id f = none := by
  unfold updateDoc
  rw [if_neg]
  intro hany
  obtain ⟨d, hd, hid⟩ := List.any_eq_true.1 hany
  exact h d hd (by simpa using hid)

theorem setAt_same {α : Type} (f : JsString → α) (k : JsString) (v : α) :
    setAt f k v k = v := by
  simp [setAt]

theorem setAt_other {α : Type} (f : JsString → α) {k k' : JsString} (v : α) (h : k' ≠ k) :
    setAt f k v k' = f k' := by
  simp [setAt, h]

/-- The state after the two writes of `sendMessage`. -/
theorem sendMessage_valid (w : World) (env : SendEnv) (d : MessageData) (v : ChatValue)
    (hv : validateChatMessage env.now d = .ok v) (hw : AutoIds w) (he : env.WellFormed) :
    sendMessage w env d =
      (storeMessageBackup
          (storeMessage w env.messageDocId (generateChatId v.fromBoat v.toBoat)
            (newMessage env v))
          env.backupDocId env.backupCreatedAt v.toBoat (newMessage env v),
        if env.loraSuccess then .error (.notFound env.uuid)
        else .ok { messageId := env.uuid, isDelivered := false, loraStatus := "failed" }) := by
  have hnone : updateDoc
      ((storeMessageBackup
          (storeMessage w env.messageDocId (generateChatId v.fromBoat v.toBoat)
            (newMessage env v))
          env.backupDocId env.backupCreatedAt v.toBoat (newMessage env v)).chats
        (generateChatId v.fromBoat v.toBoat)) (newMessage env v).id
      (fun m => { m with isDelivered := true, deliveredAt := some env.deliveredAt }) = none := by
    apply updateDoc_eq_none
    intro doc hdoc hid
    simp only [storeMessageBackup, storeMessage, setAt_same, addDoc, List.mem_append,
      List.mem_singleton] at hdoc
    have hlen : doc.1.length = 20 := by
      rcases hdoc with h | h
      · exact hw _ _ h
      · rw [h]; exact he.2
    rw [hid] at hlen
    have : (newMessage env v).id.length = 36 := he.1
    omega
  simp only [sendMessage, hv]
  cases hl : env.loraSuccess with
  | false => simp [newMessage]
  | true =>
    simp only [if_true]
    rw [hnone]
    rfl

/-- C14, the divergence at a valid message whose transport succeeds: `sendMessage`
throws `NOT_FOUND` for the document `message.id`, and the message that it stored in
the thread keeps `isDelivered = false` and has no `deliveredAt`. -/
theorem sendMessage_transport_success_throws :
    (sendMessage emptyWorld sampleEnv sampleMessage).2 = .error (.notFound sampleEnv.uuid) ∧
    (sendMessage emptyWorld sampleEnv sampleMessage).1.chats (generateChatId boatA boatB) =
      [(sampleEnv.messageDocId,
        { newMessage sampleEnv sampleValue with isDelivered := false, deliveredAt := none })] :=
  ⟨rfl, rfl⟩

/-- C15. After `sendMessage` on a valid message, whatever the transport does, the
backup queue of `toBoat` has one more document, which copies the message, and the
backup queue of every other boat is as before. -/
theorem sendMessage_backup (w : World) (env : SendEnv) (messageData : MessageData)
    (value : ChatValue) (h : validateChatMessage env.now messageData = .ok value) :
    (sendMessage w env messageData).1.chatBackup value.toBoat =
        w.chatBackup value.toBoat ++
          [(env.backupDocId,
            { newMessage env value with backupCreatedAt := env.backupCreatedAt })] ∧
    (newMessage env value).id = env.uuid ∧
    (newMessage env value).fromBoat = value.fromBoat ∧
    (newMessage env value).toBoat = value.toBoat ∧
    (newMessage env value).message = value.message ∧
    (newMessage env value).messageType = value.messageType ∧
    (∀ boat, boat ≠ value.toBoat →
        (sendMessage w env messageData).1.chatBackup boat = w.chatBackup boat) := by
  have key : (sendMessage w env messageData).1.chatBackup =
      setAt w.chatBackup value.toBoat
        (addDoc (w.chatBackup value.toBoat) env.backupDocId
          { newMessage env value with backupCreatedAt := env.backupCreatedAt }) := by
    simp only [sendMessage, h]
    cases env.loraSuccess with
    | false => rfl
    | true =>
      simp only [if_true]
      split <;> rfl
  refine ⟨?_, rfl, rfl, rfl, rfl, rfl, ?_⟩
  · rw [key, setAt_same]; rfl
  · intro boat hb
    rw [key, setAt_other _ _ hb]

/-- Witness for C15: `sampleMessage` sent in the empty state. -/
theorem sendMessage_backup_witness :
    (sendMessage emptyWorld sampleEnv sampleMessage).1.chatBackup boatB =
      [(sampleEnv.backupDocId,
        { newMessage sampleEnv sampleValue with backupCreatedAt := 1001 })] :=
  (sendMessage_backup emptyWorld sampleEnv sampleMessage sampleValue rfl).1

/-! ## Marking messages as read -/

theorem updateDoc_eq_some {α : Type} (c : Collection α) (id : JsString) (f : α → α)
    (h : ∃ d ∈ c, d.1 = id) :
    updateDoc c id f = some (c.map fun d => if d.1 = id then (d.1, f d.2) else d) := by
  unfold updateDoc
  rw [if_pos]
  obtain ⟨d, hd, hid⟩ := h
  exact List.any_eq_true.2 ⟨d, hd, by simpa using hid⟩

theorem updateEach_eq_map {α : Type} (f : α → α) :
    ∀ (ids : List JsString) (c : Collection α), ids.Nodup →
      (∀ id ∈ ids, ∃ d ∈ c, d.1 = id) →
      updateEach f ids c = (c.map fun d => if d.1 ∈ ids then (d.1, f d.2) else d, [])
  | [], c, _, _ => by simp [updateEach]
  | id :: ids, c, hn, hm => by
    have hid : id ∉ ids := (List.nodup_cons.1 hn).1
    have hn' : ids.Nodup := (List.nodup_cons.1 hn).2
    rw [updateEach, updateDoc_eq_some c id f (hm id (List.mem_cons_self _ _))]
    simp only
    rw [updateEach_eq_map f ids _ hn']
    · congr 1
      rw [List.map_map]
      apply List.map_congr_left
      intro d _
      by_cases h₁ : d.1 = id
      · have h₂ : d.1 ∉ ids := by rw [h₁]; exact hid
        simp [h₁, hid]
      · simp [h₁]
    · intro id' hid'
      obtain ⟨d, hd, hdi⟩ := hm id' (List.mem_cons_of_mem _ hid')
      refine ⟨if d.1 = id then (d.1, f d.2) else d, List.mem_map.2 ⟨d, hd, rfl⟩, ?_⟩
      split_ifs <;> exact hdi

theorem mem_ids_filter_iff {α : Type} (c : Collection α) (p : JsString × α → Bool)
    (hn : (c.map Prod.fst).Nodup) {d : JsString × α} (hd : d ∈ c) :
    d.1 ∈ (c.filter p).map Prod.fst ↔ p d = true := by
  constructor
  · intro h
    obtain ⟨d', hd', he⟩ := List.mem_map.1 h
    obtain ⟨hd'c, hp⟩ := List.mem_filter.1 hd'
    have : d' = d := List.inj_on_of_nodup_map hn hd'c hd he
    rw [← this]; exact hp
  · intro hp
    exact List.mem_map.2 ⟨d, List.mem_filter.2 ⟨hd, hp⟩, rfl⟩

theorem setAt_self {α : Type} (f : JsString → α) (k : JsString) : setAt f k (f k) = f := by
  funext k'
  unfold setAt
  split_ifs with h
  · rw [h]
  · rfl

/-- What `markMessagesAsRead` does to a thread whose document ids are distinct. -/
theorem markMessagesAsRead_eq (w : World) (now : Time) (chatId b : JsString)
    (hn : ((w.chats chatId).map Prod.fst).Nodup) :
    markMessagesAsRead w now chatId b =
      ({ w with chats := setAt w.chats chatId ((w.chats chatId).map fun d =>
          if (d.2.toBoat == b && d.2.isRead == false) = true then
            (d.1, { d.2 with isRead := true, readAt := some now })
          else d) },
        .ok { count := (unreadMessages w chatId b).length }) := by
  have hids : ((unreadMessages w chatId b).map Prod.fst).Nodup := by
    unfold unreadMessages
    exact List.Nodup.sublist (List.Sublist.map _ (List.filter_sublist _)) hn
  have hmem : ∀ id ∈ (unreadMessages w chatId b).map Prod.fst,
      ∃ d ∈ w.chats chatId, d.1 = id := by
    intro id hid
    obtain ⟨d, hd, he⟩ := List.mem_map.1 hid
    exact ⟨d, (List.mem_filter.1 hd).1, he⟩
  have hmap : (w.chats chatId).map (fun d =>
        if d.1 ∈ (unreadMessages w chatId b).map Prod.fst then
          (d.1, { d.2 with isRead := true, readAt := some now })
        else d) =
      (w.chats chatId).map (fun d =>
        if (d.2.toBoat == b && d.2.isRead == false) = true then
          (d.1, { d.2 with isRead := true, readAt := some now })
        else d) := by
    apply List.map_congr_left
    intro d hd
    have := mem_ids_filter_iff (w.chats chatId)
      (fun d => d.2.toBoat == b && d.2.isRead == false) hn hd
    unfold unreadMessages
    by_cases hp : (d.2.toBoat == b && d.2.isRead == false) = true
    · rw [if_pos (this.2 hp), if_pos hp]
    · rw [if_neg (fun h => hp (this.1 h)), if_neg hp]
  simp only [markMessagesAsRead]
  rw [updateEach_eq_map _ _ _ hids hmem]
  simp only
  rw [hmap]

/-- C16. On a thread whose document ids are distinct, `markMessagesAsRead(chatId, b)`
returns as count the number of messages addressed to `b` that were unread, leaves no
unread message for `b`, keeps the documents of the thread under their ids and the
messages addressed to another boat as they were, and a repeated call returns count 0
and changes nothing. -/
theorem markMessagesAsRead_spec (w : World) (now : Time) (chatId b : JsString)
    (hn : ((w.chats chatId).map Prod.fst).Nodup) :
    (markMessagesAsRead w now chatId b).2 =
        .ok { count := ((w.chats chatId).filter fun d =>
          d.2.toBoat == b && d.2.isRead == false).length } ∧
    getUnreadCount (markMessagesAsRead w now chatId b).1 chatId b = 0 ∧
    ((markMessagesAsRead w now chatId b).1.chats chatId).map Prod.fst =
        (w.chats chatId).map Prod.fst ∧
    (∀ d ∈ w.chats chatId, d.2.toBoat ≠ b →
        d ∈ (markMessagesAsRead w now chatId b).1.chats chatId) ∧
    (∀ now', markMessagesAsRead (markMessagesAsRead w now chatId b).1 now' chatId b =
        ((markMessagesAsRead w now chatId b).1, .ok { count := 0 })) := by
  rw [markMessagesAsRead_eq w now chatId b hn]
  have hunread : unreadMessages
      { w with chats := setAt w.chats chatId ((w.chats chatId).map fun d =>
          if (d.2.toBoat == b && d.2.isRead == false) = true then
            (d.1, { d.2 with isRead := true, readAt := some now })
          else d) } chatId b = [] := by
    simp only [unreadMessages, setAt_same]
    rw [List.filter_eq_nil_iff]
    intro d hd
    obtain ⟨d₀, _, rfl⟩ := List.mem_map.1 hd
    by_cases hp : (d₀.2.toBoat == b && d₀.2.isRead == false) = true
    · rw [if_pos hp]; simp
    · rw [if_neg hp]; exact hp
  refine ⟨rfl, ?_, ?_, ?_, ?_⟩
  · simp only [getUnreadCount, hunread, List.length_nil]
  · simp only [setAt_same, List.map_map]
    apply List.map_congr_left
    intro d _
    simp only [Function.comp]
    split_ifs <;> rfl
  · intro d hd hb
    simp only [setAt_same]
    refine List.mem_map.2 ⟨d, hd, ?_⟩
    rw [if_neg]
    intro hp
    simp only [Bool.and_eq_true, beq_iff_eq] at hp
    exact hb hp.1
  · intro now'
    simp only [markMessagesAsRead, hunread, List.map_nil, updateEach, List.length_nil]
    congr 1
    congr 1
    exact setAt_self _ _

/-- Witness for C16: in `sampleThread` one message is unread for `TN02-CD456`. -/
theorem markMessagesAsRead_spec_witness :
    (markMessagesAsRead sampleWorld 2000 (generateChatId boatA boatB) boatB).2 =
        .ok { count := 1 } ∧
    getUnreadCount (markMessagesAsRead sampleWorld 2000 (generateChatId boatA boatB) boatB).1
        (generateChatId boatA boatB) boatB = 0 :=
  ⟨(markMessagesAsRead_spec sampleWorld 2000 (generateChatId boatA boatB) boatB
      (by decide)).1,
   (markMessagesAsRead_spec sampleWorld 2000 (generateChatId boatA boatB) boatB
      (by decide)).2.1⟩

/-! ## Backup queues -/

theorem foldl_deleteDoc {α : Type} (l : Collection α) :
    ∀ c : Collection α,
      l.foldl (fun c d => deleteDoc c d.1) c = c.filter fun d => !(l.map Prod.fst).contains d.1 := by
  induction l with
  | nil => intro c; simp
  | cons x xs ih =>
    intro c
    rw [List.foldl_cons, ih, deleteDoc, List.filter_filter]
    apply List.filter_congr
    intro d _
    simp only [List.map_cons, List.contains_cons, Bool.not_or, bne]
    rw [Bool.and_comm]

theorem foldl_deleteDoc_self {α : Type} (c : Collection α) :
    c.foldl (fun c d => deleteDoc c d.1) c = [] := by
  rw [foldl_deleteDoc, List.filter_eq_nil_iff]
  intro d hd
  have hmem : d.1 ∈ c.map Prod.fst := List.mem_map.2 ⟨d, hd, rfl⟩
  have : (c.map Prod.fst).contains d.1 = true := by
    rw [List.contains_iff_exists_mem_beq]
    exact ⟨d.1, hmem, by simp⟩
  rw [this]
  decide

theorem sendMessage_chatBackup (w : World) (env : SendEnv) (d : MessageData) :
    (sendMessage w env d).1.chatBackup = w.chatBackup ∨
    ∃ v, validateChatMessage env.now d = .ok v ∧
      (sendMessage w env d).1.chatBackup =
        setAt w.chatBackup v.toBoat
          (w.chatBackup v.toBoat ++
            [(env.backupDocId, { newMessage env v with backupCreatedAt := env.backupCreatedAt })]) := by
  cases hv : validateChatMessage env.now d with
  | error e => left; rw [sendMessage_of_invalid w env d e hv]
  | ok v =>
    right
    refine ⟨v, rfl, ?_⟩
    simp only [sendMessage, hv]
    cases env.loraSuccess with
    | false => rfl
    | true =>
      simp only [if_true]
      split <;> rfl

theorem sendMessage_keeps_backup (w : World) (env : SendEnv) (d : MessageData)
    (b : JsString) (e : JsString × BackupEntry) (he : e ∈ w.chatBackup b) :
    e ∈ (sendMessage w env d).1.chatBackup b := by
  rcases sendMessage_chatBackup w env d with h | ⟨v, _, h⟩
  · rw [h]; exact he
  · rw [h]
    unfold setAt
    split_ifs with hb
    · rw [← hb]; exact List.mem_append_left _ he
    · exact he

theorem sendAll_keeps_backup (calls : List (SendEnv × MessageData)) :
    ∀ (w : World) (b : JsString) (e : JsString × BackupEntry), e ∈ w.chatBackup b →
      e ∈ (sendAll w calls).1.chatBackup b := by
  induction calls with
  | nil => intro w b e he; exact he
  | cons call calls ih =>
    intro w b e he
    exact ih _ b e (sendMessage_keeps_backup w call.1 call.2 b e he)

theorem markMessagesAsRead_chatBackup (w : World) (now : Time) (chatId b : JsString) :
    (markMessagesAsRead w now chatId b).1.chatBackup = w.chatBackup := by
  simp only [markMessagesAsRead]
  split <;> rfl

theorem broadcastMessage_world (w : World) (envs : Nat → SendEnv)
    (fromBoat message messageType : JsString) :
    (broadcastMessage w envs fromBoat message messageType).1 =
      (sendAll w (broadcastCalls envs fromBoat message messageType 0 (activeUsers w))).1 := by
  simp only [broadcastMessage]
  split <;> rfl

/-- C17. `getBackupMessages` leaves the state as it was, so a second call returns the
same entries; `clearBackupMessages(boat)` empties the queue of `boat`, returns the
number of documents it held and leaves the other queues as they were; and the other
writing operations, `sendMessage`, `broadcastMessage` and `markMessagesAsRead`, keep
every document of every queue. -/
theorem backup_queue_lifecycle (w : World) (boat : JsString) :
    (getBackupMessages w boat).1 = w ∧
    (getBackupMessages (getBackupMessages w boat).1 boat).2 = (getBackupMessages w boat).2 ∧
    (clearBackupMessages w boat).1.chatBackup boat = [] ∧
    (clearBackupMessages w boat).2 = .ok { count := (w.chatBackup boat).length } ∧
    (∀ other, other ≠ boat →
        (clearBackupMessages w boat).1.chatBackup other = w.chatBackup other) ∧
    (∀ env messageData other e, e ∈ w.chatBackup other →
        e ∈ (sendMessage w env messageData).1.chatBackup other) ∧
    (∀ envs fromBoat message messageType other e, e ∈ w.chatBackup other →
        e ∈ (broadcastMessage w envs fromBoat message messageType).1.chatBackup other) ∧
    (∀ now chatId reader,
        (markMessagesAsRead w now chatId reader).1.chatBackup = w.chatBackup) := by
  refine ⟨rfl, rfl, ?_, rfl, ?_, ?_, ?_, ?_⟩
  · simp only [clearBackupMessages, setAt_same]
    exact foldl_deleteDoc_self _
  · intro other ho
    simp only [clearBackupMessages]
    exact setAt_other _ _ ho
  · intro env messageData other e he
    exact sendMessage_keeps_backup w env messageData other e he
  · intro envs fromBoat message messageType other e he
    rw [broadcastMessage_world]
    exact sendAll_keeps_backup _ w other e he
  · intro now chatId reader
    exact markMessagesAsRead_chatBackup w now chatId reader

/-- Witness for C17: the queue of `TN02-CD456` after `sampleMessage` holds one
document; clearing it returns 1 and a document of the queue of another boat stays. -/
theorem backup_queue_lifecycle_witness :
    (clearBackupMessages (sendMessage emptyWorld sampleEnv sampleMessage).1 boatB).2 =
        .ok { count := 1 } ∧
    (clearBackupMessages (sendMessage emptyWorld sampleEnv sampleMessage).1
        boatB).1.chatBackup boatB = [] ∧
    (clearBackupMessages (sendMessage emptyWorld sampleEnv sampleMessage).1
        boatA).1.chatBackup boatB =
      (sendMessage emptyWorld sampleEnv sampleMessage).1.chatBackup boatB :=
  ⟨(backup_queue_lifecycle (sendMessage emptyWorld sampleEnv sampleMessage).1 boatB).2.2.2.1,
   (backup_queue_lifecycle (sendMessage emptyWorld sampleEnv sampleMessage).1 boatB).2.2.1,
   (backup_queue_lifecycle (sendMessage emptyWorld sampleEnv sampleMessage).1
      boatA).2.2.2.2.1 boatB (by decide)⟩

/-! ## Broadcast -/

theorem boatNumberPattern_length {s : JsString} (h : boatNumberPattern s = true) :
    s.length = 10 := by
  match s, h with
  | [_, _, _, _, _, _, _, _, _, _], _ => rfl

theorem generateChatId_eq (a b : JsString) :
    generateChatId a b =
      if strLt b a then b ++ [underscore] ++ a else a ++ [underscore] ++ b := by
  unfold generateChatId
  rw [jsSort_pair]
  split_ifs <;> rfl

theorem generateChatId_injective {a b b' : JsString} (ha : a.length = 10)
    (hb : b.length = 10) (hb' : b'.length = 10)
    (h : generateChatId a b = generateChatId a b') : b = b' := by
  rw [generateChatId_eq, generateChatId_eq] at h
  split_ifs at h
  · rw [List.append_assoc, List.append_assoc] at h
    exact (List.append_inj h (by rw [hb, hb'])).1
  · rw [List.append_assoc, List.append_assoc] at h
    have h₁ := List.append_inj h (by rw [hb, ha])
    have h₂ := List.append_inj h₁.2 rfl
    rw [h₁.1, h₂.2]
  · rw [List.append_assoc, List.append_assoc] at h
    have h₁ := List.append_inj h (by rw [hb', ha])
    have h₂ := List.append_inj h₁.2 rfl
    rw [← h₁.1, ← h₂.2]
  · rw [List.append_assoc, List.append_assoc] at h
    have h₁ := List.append_inj h rfl
    exact (List.append_inj h₁.2 rfl).2

theorem validateBoat_of_pattern (key : String) {s : JsString}
    (h : boatNumberPattern s = true) : validateBoat key (.string s) = .ok s := by
  cases s with
  | nil => cases h
  | cons x xs => simp [validateBoat, h]

theorem validateBody_of_valid (key : String) {s : JsString} (h₁ : s ≠ [])
    (h₂ : s.length ≤ 1000) : validateBody key (.string s) = .ok s := by
  cases s with
  | nil => exact absurd rfl h₁
  | cons x xs =>
    have : ¬ (x :: xs).length > 1000 := by omega
    simp only [validateBody, this, if_false]

theorem validateChatMessage_broadcast (now : Time) {fromBoat toBoat message messageType : JsString}
    (hf : boatNumberPattern fromBoat = true) (ht : boatNumberPattern toBoat = true)
    (hm₁ : message ≠ []) (hm₂ : message.length ≤ 1000) (hk : messageType ∈ messageTypes) :
    validateChatMessage now
        { fromBoat := .string fromBoat, toBoat := .string toBoat, message := .string message,
          messageType := .string messageType, timestamp := .undefined, unknownKeys := [] } =
      .ok { fromBoat := fromBoat, toBoat := toBoat, message := message,
            messageType := messageType, timestamp := now } := by
  simp only [validateChatMessage, validateBoat_of_pattern _ hf, validateBoat_of_pattern _ ht,
    validateBody_of_valid _ hm₁ hm₂, validateType, hk, if_true, validateDate]
  rfl

theorem autoIds_storeMessage {w : World} (hw : AutoIds w) {autoId : JsString}
    (h : autoId.length = 20) (chatId : JsString) (m : Message) (backupId : JsString)
    (at' : Time) (b : JsString) (m' : Message) :
    AutoIds (storeMessageBackup (storeMessage w autoId chatId m) backupId at' b m') := by
  intro c d hd
  simp only [storeMessageBackup, storeMessage, setAt] at hd
  split_ifs at hd with hc
  · rcases List.mem_append.1 hd with h' | h'
    · exact hw _ _ h'
    · rw [List.mem_singleton.1 h']; exact h
  · exact hw _ _ hd

/-- The state after the calls that `broadcastMessage` makes for the documents `docs`
of `usersSnapshot`, the first of them at position `i`. -/
theorem sendAll_broadcastCalls (envs : Nat → SendEnv) (X body kind : JsString)
    (hX : boatNumberPattern X = true) (hb₁ : body ≠ []) (hb₂ : body.length ≤ 1000)
    (hk : kind ∈ messageTypes) (henv : ∀ i, (envs i).WellFormed) :
    ∀ (docs : Collection User) (i : Nat) (w : World), AutoIds w →
      (∀ d ∈ docs, boatNumberPattern d.2.boatNumber = true) →
      (docs.map fun d => d.2.boatNumber).Nodup →
      AutoIds (sendAll w (broadcastCalls envs X body kind i docs)).1 ∧
      (∀ c, (∀ d ∈ docs, d.2.boatNumber ≠ X → generateChatId X d.2.boatNumber ≠ c) →
        (sendAll w (broadcastCalls envs X body kind i docs)).1.chats c = w.chats c) ∧
      (∀ b, (∀ d ∈ docs, d.2.boatNumber ≠ X → d.2.boatNumber ≠ b) →
        (sendAll w (broadcastCalls envs X body kind i docs)).1.chatBackup b = w.chatBackup b) ∧
      (∀ j d, docs[j]? = some d → d.2.boatNumber ≠ X →
        (sendAll w (broadcastCalls envs X body kind i docs)).1.chats
            (generateChatId X d.2.boatNumber) =
          w.chats (generateChatId X d.2.boatNumber) ++
            [((envs (i + j)).messageDocId,
              newMessage (envs (i + j))
                { fromBoat := X, toBoat := d.2.boatNumber, message := body,
                  messageType := kind, timestamp := (envs (i + j)).now })] ∧
        (sendAll w (broadcastCalls envs X body kind i docs)).1.chatBackup d.2.boatNumber =
          w.chatBackup d.2.boatNumber ++
            [((envs (i + j)).backupDocId,
              { newMessage (envs (i + j))
                  { fromBoat := X, toBoat := d.2.boatNumber, message := body,
                    messageType := kind, timestamp := (envs (i + j)).now } with
                backupCreatedAt := (envs (i + j)).backupCreatedAt })]) := by
  intro docs
  induction docs with
  | nil =>
    intro i w hw _ _
    refine ⟨hw, fun _ _ => rfl, fun _ _ => rfl, ?_⟩
    intro j d hd
    simp at hd
  | cons doc docs ih =>
    intro i w hw hpat hnd
    have hpat' : ∀ d ∈ docs, boatNumberPattern d.2.boatNumber = true :=
      fun d hd => hpat d (List.mem_cons_of_mem _ hd)
    have hnd' : (docs.map fun d => d.2.boatNumber).Nodup := (List.nodup_cons.1 hnd).2
    have hnotin : doc.2.boatNumber ∉ docs.map fun d => d.2.boatNumber :=
      (List.nodup_cons.1 hnd).1
    by_cases hx : doc.2.boatNumber = X
    · have hcalls : broadcastCalls envs X body kind i (doc :: docs) =
          broadcastCalls envs X body kind (i + 1) docs := by
        simp [broadcastCalls, hx]
      rw [hcalls]
      obtain ⟨h₁, h₂, h₃, h₄⟩ := ih (i + 1) w hw hpat' hnd'
      refine ⟨h₁, ?_, ?_, ?_⟩
      · intro c hc
        exact h₂ c fun d hd => hc d (List.mem_cons_of_mem _ hd)
      · intro b hb
        exact h₃ b fun d hd => hb d (List.mem_cons_of_mem _ hd)
      · intro j d hd hdx
        cases j with
        | zero =>
          simp only [List.getElem?_cons_zero, Option.some.injEq] at hd
          rw [← hd] at hdx
          exact absurd hx hdx
        | succ j =>
          simp only [List.getElem?_cons_succ] at hd
          have := h₄ j d hd hdx
          rw [show i + 1 + j = i + (j + 1) by omega] at this
          exact this
    · have hr : boatNumberPattern doc.2.boatNumber = true := hpat doc (List.mem_cons_self _ _)
      have hv := validateChatMessage_broadcast (envs i).now hX hr hb₁ hb₂ hk
      have hcalls : broadcastCalls envs X body kind i (doc :: docs) =
          (envs i, { fromBoat := .string X, toBoat := .string doc.2.boatNumber,
                     message := .string body, messageType := .string kind,
                     timestamp := .undefined, unknownKeys := [] }) ::
            broadcastCalls envs X body kind (i + 1) docs := by
        simp [broadcastCalls, hx]
      rw [hcalls]
      simp only [sendAll]
      rw [sendMessage_valid w (envs i) _ _ hv hw (henv i)]
      simp only
      have hw₁ := autoIds_storeMessage hw (henv i).2 (generateChatId X doc.2.boatNumber)
        (newMessage (envs i) (ChatValue.mk X doc.2.boatNumber body kind (envs i).now))
        (envs i).backupDocId (envs i).backupCreatedAt doc.2.boatNumber
        (newMessage (envs i) (ChatValue.mk X doc.2.boatNumber body kind (envs i).now))
      obtain ⟨h₁, h₂, h₃, h₄⟩ := ih (i + 1) _ hw₁ hpat' hnd'
      have hrest_chat : ∀ d ∈ docs, d.2.boatNumber ≠ X →
          generateChatId X d.2.boatNumber ≠ generateChatId X doc.2.boatNumber := by
        intro d hd _ he
        have := generateChatId_injective (boatNumberPattern_length hX)
          (boatNumberPattern_length (hpat' d hd)) (boatNumberPattern_length hr) he
        exact hnotin (List.mem_map.2 ⟨d, hd, this⟩)
      have hrest_boat : ∀ d ∈ docs, d.2.boatNumber ≠ X →
          d.2.boatNumber ≠ doc.2.boatNumber := by
        intro d hd _ he
        exact hnotin (List.mem_map.2 ⟨d, hd, he⟩)
      refine ⟨h₁, ?_, ?_, ?_⟩
      · intro c hc
        rw [h₂ c fun d hd => hc d (List.mem_cons_of_mem _ hd)]
        have hne : c ≠ generateChatId X doc.2.boatNumber :=
          fun he => hc doc (List.mem_cons_self _ _) hx he.symm
        simp only [storeMessageBackup, storeMessage]
        exact setAt_other _ _ hne
      · intro b hb
        rw [h₃ b fun d hd => hb d (List.mem_cons_of_mem _ hd)]
        have hne : b ≠ doc.2.boatNumber :=
          fun he => hb doc (List.mem_cons_self _ _) hx he.symm
        simp only [storeMessageBackup, storeMessage]
        exact setAt_other _ _ hne
      · intro j d hd hdx
        cases j with
        | zero =>
          simp only [List.getElem?_cons_zero, Option.some.injEq] at hd
          subst hd
          rw [h₂ _ hrest_chat, h₃ _ hrest_boat]
          simp only [storeMessageBackup, storeMessage, setAt_same, addDoc, Nat.add_zero]
          exact ⟨trivial, trivial⟩
        | succ j =>
          simp only [List.getElem?_cons_succ] at hd
          have hmem : d ∈ docs := List.getElem?_mem hd
          obtain ⟨g₁, g₂⟩ := h₄ j d hd hdx
          rw [show i + 1 + j = i + (j + 1) by omega] at g₁ g₂
          rw [g₁, g₂]
          simp only [storeMessageBackup, storeMessage]
          rw [setAt_other _ _ (hrest_chat d hmem hdx), setAt_other _ _ (hrest_boat d hmem hdx)]
          exact ⟨rfl, rfl⟩

theorem broadcastCalls_toBoat (envs : Nat → SendEnv) (X body kind : JsString) :
    ∀ (docs : Collection User) (i : Nat),
      (broadcastCalls envs X body kind i docs).map (fun call => call.2.toBoat) =
        (docs.filter fun d => d.2.boatNumber != X).map fun d => JsField.string d.2.boatNumber := by
  intro docs
  induction docs with
  | nil => intro i; rfl
  | cons doc docs ih =>
    intro i
    by_cases hx : doc.2.boatNumber = X
    · simp [broadcastCalls, hx, ih]
    · have : (doc.2.boatNumber != X) = true := by simpa using hx
      simp [broadcastCalls, hx, ih]

/-- C18. For a valid sender `X`, body and kind and active boats with valid, distinct
identifiers, `broadcastMessage` calls `sendMessage` for the active boats other than
`X`, one call each and none for `X`; and whatever the transport does for each of
them, the thread of every such boat with `X` ends with one more message and its
backup queue with one more document. -/
theorem broadcastMessage_records (w : World) (envs : Nat → SendEnv) (X body kind : JsString)
    (hw : AutoIds w) (henv : ∀ i, (envs i).WellFormed)
    (hX : boatNumberPattern X = true) (hb₁ : body ≠ []) (hb₂ : body.length ≤ 1000)
    (hk : kind ∈ messageTypes)
    (hboats : ∀ d ∈ activeUsers w, boatNumberPattern d.2.boatNumber = true)
    (hnodup : ((activeUsers w).map fun d => d.2.boatNumber).Nodup) :
    ((broadcastCalls envs X body kind 0 (activeUsers w)).map (fun call => call.2.toBoat) =
      ((activeUsers w).filter fun d => d.2.boatNumber != X).map
        fun d => JsField.string d.2.boatNumber) ∧
    ((broadcastCalls envs X body kind 0 (activeUsers w)).map (fun call => call.2.toBoat)).Nodup ∧
    JsField.string X ∉
      (broadcastCalls envs X body kind 0 (activeUsers w)).map (fun call => call.2.toBoat) ∧
    (∀ j d, (activeUsers w)[j]? = some d → d.2.boatNumber ≠ X →
      (broadcastMessage w envs X body kind).1.chats (generateChatId X d.2.boatNumber) =
          w.chats (generateChatId X d.2.boatNumber) ++
            [((envs j).messageDocId,
              newMessage (envs j)
                { fromBoat := X, toBoat := d.2.boatNumber, message := body,
                  messageType := kind, timestamp := (envs j).now })] ∧
      (broadcastMessage w envs X body kind).1.chatBackup d.2.boatNumber =
          w.chatBackup d.2.boatNumber ++
            [((envs j).backupDocId,
              { newMessage (envs j)
                  { fromBoat := X, toBoat := d.2.boatNumber, message := body,
                    messageType := kind, timestamp := (envs j).now } with
                backupCreatedAt := (envs j).backupCreatedAt })]) := by
  have hcalls := broadcastCalls_toBoat envs X body kind (activeUsers w) 0
  refine ⟨hcalls, ?_, ?_, ?_⟩
  · rw [hcalls]
    have hsub : (((activeUsers w).filter fun d => d.2.boatNumber != X).map
        fun d => d.2.boatNumber).Nodup :=
      List.Nodup.sublist (List.Sublist.map _ (List.filter_sublist _)) hnodup
    have hmap : ((activeUsers w).filter fun d => d.2.boatNumber != X).map
          (fun d => JsField.string d.2.boatNumber) =
        (((activeUsers w).filter fun d => d.2.boatNumber != X).map
          fun d => d.2.boatNumber).map JsField.string := by
      rw [List.map_map]; rfl
    rw [hmap]
    exact List.Nodup.map (fun a b h => by injection h) hsub
  · rw [hcalls]
    intro hmem
    obtain ⟨d, hd, he⟩ := List.mem_map.1 hmem
    have hne := (List.mem_filter.1 hd).2
    injection he with he
    simp [he] at hne
  · intro j d hd hdx
    rw [broadcastMessage_world]
    have := (sendAll_broadcastCalls envs X body kind hX hb₁ hb₂ hk henv (activeUsers w) 0 w
      hw hboats hnodup).2.2.2 j d hd hdx
    rw [Nat.zero_add] at this
    exact this

/-- Witness for C18: `TN01-AB123` broadcasts `hi` to a fleet of three; the transport
fails for `TN02-CD456`, at position 1, which still gets its message and its backup
document. -/
theorem broadcastMessage_records_witness :
    (broadcastMessage fleetWorld fleetEnvs boatA (utf16 "hi") (utf16 "text")).1.chats
        (generateChatId boatA boatB) =
      [((fleetEnvs 1).messageDocId, newMessage (fleetEnvs 1) sampleValue)] ∧
    (broadcastMessage fleetWorld fleetEnvs boatA (utf16 "hi") (utf16 "text")).1.chatBackup
        boatB =
      [((fleetEnvs 1).backupDocId,
        { newMessage (fleetEnvs 1) sampleValue with backupCreatedAt := 1001 })] :=
  (broadcastMessage_records fleetWorld fleetEnvs boatA (utf16 "hi") (utf16 "text")
    (fun _ _ h => by cases h)
    (fun _ => ⟨(by decide : sampleEnv.uuid.length = 36),
      (by decide : sampleEnv.messageDocId.length = 20)⟩) (by decide) (by decide)
    (by decide) (by decide) (by decide) (by decide)).2.2.2 1 (sampleUser "u2" boatB true) rfl
    (by decide)

/-! ## SOS cases -/

theorem runStep_effect (env : SosEnv) (sosId : JsString) (w : World)
    (step : EmergencyContact × ContactStep) :
    (runStep env sosId w step).channelCalls = w.channelCalls ++ stepCalls env step ∧
    (runStep env sosId w step).sosLogs = w.sosLogs ++ stepLogs env sosId step ∧
    (runStep env sosId w step).sosAlerts = w.sosAlerts := by
  obtain ⟨contact, s⟩ := step
  cases s with
  | sms p => simp [runStep, stepCalls, stepLogs, sendSMS]
  | email e => simp [runStep, stepCalls, stepLogs, sendEmail]
  | log status error =>
    simp only [runStep, stepCalls, stepLogs, logEmergencyContactNotification, loggable]
    split_ifs <;> simp

theorem foldl_runStep (env : SosEnv) (sosId : JsString)
    (order : List (EmergencyContact × ContactStep)) :
    ∀ w : World,
      (order.foldl (runStep env sosId) w).channelCalls =
        w.channelCalls ++ order.flatMap (stepCalls env) ∧
      (order.foldl (runStep env sosId) w).sosLogs =
        w.sosLogs ++ order.flatMap (stepLogs env sosId) ∧
      (order.foldl (runStep env sosId) w).sosAlerts = w.sosAlerts := by
  induction order with
  | nil => intro w; simp
  | cons step order ih =>
    intro w
    obtain ⟨h₁, h₂, h₃⟩ := ih (runStep env sosId w step)
    obtain ⟨g₁, g₂, g₃⟩ := runStep_effect env sosId w step
    rw [List.foldl_cons, h₁, h₂, h₃, g₁, g₂, g₃]
    simp [List.flatMap_cons]

theorem notifyEmergencyContacts_sosAlerts (w : World) (env : SosEnv) (a : SOSAlert) :
    (notifyEmergencyContacts w env a).sosAlerts = w.sosAlerts := by
  unfold notifyEmergencyContacts
  split_ifs
  · rfl
  · exact (foldl_runStep env a.id _ w).2.2

theorem notifyAuthorities_sosAlerts (w : World) (env : SosEnv) (a : SOSAlert) :
    (notifyAuthorities w env a).sosAlerts = w.sosAlerts := by
  unfold notifyAuthorities
  simp only [sendSMS]
  split_ifs <;> rfl

theorem foldl_sendSOSToBoat_sosAlerts (env : SosEnv) (a : SOSAlert) (boats : List User) :
    ∀ w : World,
      (boats.foldl (fun w boat =>
        if boat.boatNumber ≠ a.boatNumber then sendSOSToBoat env a w boat.boatNumber
        else w) w).sosAlerts = w.sosAlerts := by
  induction boats with
  | nil => intro w; rfl
  | cons b bs ih =>
    intro w
    rw [List.foldl_cons, ih]
    split_ifs <;> rfl

theorem notifyNearbyBoats_sosAlerts (w : World) (env : SosEnv) (a : SOSAlert) :
    (notifyNearbyBoats w env a).sosAlerts = w.sosAlerts := by
  unfold notifyNearbyBoats
  exact foldl_sendSOSToBoat_sosAlerts env a _ w

theorem createVoiceAlert_sosAlerts_congr {w w' : World} (a : SOSAlert)
    (h : w.sosAlerts = w'.sosAlerts) :
    (createVoiceAlert w a).sosAlerts = (createVoiceAlert w' a).sosAlerts := by
  unfold createVoiceAlert
  rw [h]
  split <;> simp [*]

/-- The alert documents after `createSOSAlert` for a known boat: the added document,
then the update of `createVoiceAlert`. -/
theorem createSOSAlert_sosAlerts (w : World) (env : SosEnv) (boatNumber : JsString)
    (location : LocationInput) (message : JsString) (userId : Option JsString)
    (userData : User) (hu : getUserByBoatNumber w boatNumber = some userData) :
    (createSOSAlert w env boatNumber location message userId).2 =
        .ok (newSOSAlert env userData boatNumber location message userId) ∧
    (createSOSAlert w env boatNumber location message userId).1.sosAlerts =
      (createVoiceAlert
        { w with
          sosAlerts := addDoc w.sosAlerts env.alertDocId
            (newSOSAlert env userData boatNumber location message userId) }
        (newSOSAlert env userData boatNumber location message userId)).sosAlerts := by
  simp only [createSOSAlert, hu]
  refine ⟨trivial, ?_⟩
  simp only [logSOSActivity]
  apply createVoiceAlert_sosAlerts_congr
  rw [notifyNearbyBoats_sosAlerts, notifyAuthorities_sosAlerts,
    notifyEmergencyContacts_sosAlerts]

theorem updateDoc_keeps {α : Type} {col col' : Collection α} {id : JsString} {f : α → α}
    (P : α → Prop) (h : updateDoc col id f = some col') (hf : ∀ a, P a → P (f a)) :
    ∀ (i : Nat) (d : JsString × α), col[i]? = some d → P d.2 → ∃ d', col'[i]? = some d' ∧ d'.1 = d.1 ∧ P d'.2 := by
  intro i d hd hp
  unfold updateDoc at h
  split_ifs at h
  injection h with h
  rw [← h, List.getElem?_map, hd]
  by_cases hid : d.1 = id
  · exact ⟨(d.1, f d.2), by simp [hid], rfl, hf _ hp⟩
  · exact ⟨d, by simp [hid], rfl, hp⟩

theorem createVoiceAlert_keeps (w : World) (a : SOSAlert) :
    ∀ (i : Nat) (d : JsString × SOSAlert), w.sosAlerts[i]? = some d → d.2.status = "resolved" →
      ∃ d', (createVoiceAlert w a).sosAlerts[i]? = some d' ∧ d'.1 = d.1 ∧
        d'.2.status = "resolved" := by
  intro i d hd hs
  unfold createVoiceAlert
  split
  · rename_i alerts h
    exact updateDoc_keeps (fun x : SOSAlert => x.status = "resolved") h (fun _ ha => ha) i d hd hs
  · exact ⟨d, hd, rfl, hs⟩

theorem createSOSAlert_keeps (w : World) (env : SosEnv) (boatNumber : JsString)
    (location : LocationInput) (message : JsString) (userId : Option JsString) :
    ∀ (i : Nat) (d : JsString × SOSAlert), w.sosAlerts[i]? = some d → d.2.status = "resolved" →
      ∃ d', (createSOSAlert w env boatNumber location message userId).1.sosAlerts[i]? =
          some d' ∧ d'.1 = d.1 ∧ d'.2.status = "resolved" := by
  intro i d hd hs
  cases hu : getUserByBoatNumber w boatNumber with
  | none =>
    simp only [createSOSAlert, hu]
    exact ⟨d, hd, rfl, hs⟩
  | some userData =>
    rw [(createSOSAlert_sosAlerts w env boatNumber location message userId userData hu).2]
    apply createVoiceAlert_keeps
    · simp only [addDoc]
      rw [List.getElem?_append_left (List.getElem?_eq_some.1 hd).1]
      exact hd
    · exact hs

theorem resolveSOSAlert_keeps (w : World) (now : Time) (sosId resolvedBy notes : JsString) :
    ∀ (i : Nat) (d : JsString × SOSAlert), w.sosAlerts[i]? = some d → d.2.status = "resolved" →
      ∃ d', (resolveSOSAlert w now sosId resolvedBy notes).1.sosAlerts[i]? = some d' ∧
        d'.1 = d.1 ∧ d'.2.status = "resolved" := by
  intro i d hd hs
  unfold resolveSOSAlert
  split
  · rename_i alerts h
    exact updateDoc_keeps (fun x : SOSAlert => x.status = "resolved") h (fun _ _ => rfl) i d hd hs
  · exact ⟨d, hd, rfl, hs⟩

/-- For every known boat, in a state whose alert documents have generated ids: the
case that `createSOSAlert` returns is stored under the generated id, as built, and
`resolveSOSAlert` with the `id` of the returned case finds no document. -/
theorem resolveSOSAlert_of_created (w : World) (env : SosEnv) (boatNumber : JsString)
    (location : LocationInput) (message : JsString) (userId : Option JsString)
    (userData : User) (hu : getUserByBoatNumber w boatNumber = some userData)
    (hw : AlertAutoIds w) (h₁ : env.uuid.length = 36) (h₂ : env.alertDocId.length = 20) :
    (createSOSAlert w env boatNumber location message userId).1.sosAlerts =
        w.sosAlerts ++
          [(env.alertDocId, newSOSAlert env userData boatNumber location message userId)] ∧
    (∀ now resolvedBy notes,
      resolveSOSAlert (createSOSAlert w env boatNumber location message userId).1 now
          (newSOSAlert env userData boatNumber location message userId).id resolvedBy notes =
        ((createSOSAlert w env boatNumber location message userId).1,
          .error (.notFound env.uuid))) := by
  have hids : ∀ d ∈ w.sosAlerts ++
      [(env.alertDocId, newSOSAlert env userData boatNumber location message userId)],
      d.1 ≠ env.uuid := by
    intro d hd he
    have hlen : d.1.length = 20 := by
      rcases List.mem_append.1 hd with h | h
      · exact hw d h
      · rw [List.mem_singleton.1 h]; exact h₂
    rw [he] at hlen
    omega
  have hstored : (createSOSAlert w env boatNumber location message userId).1.sosAlerts =
      w.sosAlerts ++
        [(env.alertDocId, newSOSAlert env userData boatNumber location message userId)] := by
    rw [(createSOSAlert_sosAlerts w env boatNumber location message userId userData hu).2]
    unfold createVoiceAlert
    have : (newSOSAlert env userData boatNumber location message userId).id = env.uuid := rfl
    simp only [addDoc, this]
    rw [updateDoc_eq_none _ _ _ hids]
  refine ⟨hstored, ?_⟩
  intro now resolvedBy notes
  have : (newSOSAlert env userData boatNumber location message userId).id = env.uuid := rfl
  unfold resolveSOSAlert
  rw [this, hstored, updateDoc_eq_none _ _ _ hids]

/-- C19, the divergence: the case that `createSOSAlert` returns for `TN01-AB123` has
the uuid as `id`, `resolveSOSAlert` with that `id` throws `NOT_FOUND`, and the stored
case stays as it was, `active`, and is still returned by `getActiveSOSAlerts`. -/
theorem resolveSOSAlert_created_case_throws :
    (createSOSAlert fleetWorld sampleSosEnv boatA sampleLocation [] none).2 =
        .ok sampleCase ∧
    (resolveSOSAlert alertWorld 5000 sampleCase.id (utf16 "officer1") (utf16 "rescued")).2 =
        .error (.notFound sampleCase.id) ∧
    (resolveSOSAlert alertWorld 5000 sampleCase.id (utf16 "officer1")
        (utf16 "rescued")).1.sosAlerts = [(sampleSosEnv.alertDocId, sampleCase)] ∧
    sampleCase.status = "active" ∧
    (getActiveSOSAlerts (resolveSOSAlert alertWorld 5000 sampleCase.id (utf16 "officer1")
        (utf16 "rescued")).1).2 = .ok [sampleCase] :=
  ⟨rfl, rfl, rfl, rfl, rfl⟩

/-- C20. `resolveSOSAlert` on the id of a stored case succeeds whatever the status
of the case; on a case that is already `resolved` it puts the `resolvedBy`,
`resolvedAt` and `notes` of this call in place of the earlier ones and leaves the
status `resolved`; and no operation of SOSService, `resolveSOSAlert` and
`createSOSAlert` with any arguments or the two queries, takes a stored case from
`resolved` to another status. -/
theorem resolveSOSAlert_unguarded (w : World) (now : Time) (sosId resolvedBy notes : JsString) :
    ((∃ d ∈ w.sosAlerts, d.1 = sosId) →
        (resolveSOSAlert w now sosId resolvedBy notes).2 = .ok ()) ∧
    (∀ (i : Nat) (d : JsString × SOSAlert), w.sosAlerts[i]? = some d → d.1 = sosId →
        d.2.status = "resolved" →
        ∃ d', (resolveSOSAlert w now sosId resolvedBy notes).1.sosAlerts[i]? = some d' ∧
          d'.1 = sosId ∧ d'.2.status = "resolved" ∧ d'.2.resolvedBy = some resolvedBy ∧
          d'.2.resolvedAt = some now ∧ d'.2.notes = Notes.text notes) ∧
    (∀ (i : Nat) (d : JsString × SOSAlert), w.sosAlerts[i]? = some d →
        d.2.status = "resolved" →
        ∃ d', (resolveSOSAlert w now sosId resolvedBy notes).1.sosAlerts[i]? = some d' ∧
          d'.1 = d.1 ∧ d'.2.status = "resolved") ∧
    (∀ env boatNumber location message userId (i : Nat) (d : JsString × SOSAlert),
        w.sosAlerts[i]? = some d → d.2.status = "resolved" →
        ∃ d', (createSOSAlert w env boatNumber location message userId).1.sosAlerts[i]? =
            some d' ∧ d'.1 = d.1 ∧ d'.2.status = "resolved") ∧
    (getActiveSOSAlerts w).1 = w ∧
    (∀ boatNumber, (getSOSAlerts w boatNumber).1 = w) := by
  refine ⟨?_, ?_, resolveSOSAlert_keeps w now sosId resolvedBy notes, ?_, rfl, fun _ => rfl⟩
  · intro h
    unfold resolveSOSAlert
    rw [updateDoc_eq_some _ _ _ h]
  · intro i d hd hid _
    have hex : ∃ d ∈ w.sosAlerts, d.1 = sosId := ⟨d, List.getElem?_mem hd, hid⟩
    unfold resolveSOSAlert
    rw [updateDoc_eq_some _ _ _ hex]
    simp only [List.getElem?_map, hd, Option.map_some', if_pos hid]
    exact ⟨_, rfl, hid, rfl, rfl, rfl, rfl⟩
  · intro env boatNumber location message userId i d hd hs
    exact createSOSAlert_keeps w env boatNumber location message userId i d hd hs

/-- Witness for C20: the case of `resolvedWorld`, resolved by `officer1`, is resolved
again by `officer2`. -/
theorem resolveSOSAlert_unguarded_witness :
    (resolveSOSAlert resolvedWorld 6000 sampleSosEnv.alertDocId (utf16 "officer2")
        (utf16 "again")).2 = .ok () ∧
    ∃ d', (resolveSOSAlert resolvedWorld 6000 sampleSosEnv.alertDocId (utf16 "officer2")
          (utf16 "again")).1.sosAlerts[0]? = some d' ∧
      d'.1 = sampleSosEnv.alertDocId ∧ d'.2.status = "resolved" ∧
      d'.2.resolvedBy = some (utf16 "officer2") ∧ d'.2.resolvedAt = some 6000 ∧
      d'.2.notes = Notes.text (utf16 "again") :=
  ⟨(resolveSOSAlert_unguarded resolvedWorld 6000 sampleSosEnv.alertDocId (utf16 "officer2")
      (utf16 "again")).1 ⟨_, List.mem_cons_self _ _, rfl⟩,
   (resolveSOSAlert_unguarded resolvedWorld 6000 sampleSosEnv.alertDocId (utf16 "officer2")
      (utf16 "again")).2.1 0
      (sampleSosEnv.alertDocId,
        { sampleCase with status := "resolved", resolvedAt := some 5000,
                          resolvedBy := some (utf16 "officer1"),
                          notes := Notes.text (utf16 "rescued"), updatedAt := 5000 })
      rfl rfl rfl⟩

/-! ## Risk level of a fetched snapshot -/

theorem orZero_ne_nan (x : JsNum) : orZero x ≠ JsNum.nan := by
  cases x with
  | nan => simp [orZero, ofNat_eq_fin]
  | negInf => simp [orZero]
  | posInf => simp [orZero]
  | fin q =>
    simp only [orZero]
    split_ifs <;> simp [ofNat_eq_fin]

theorem seaScore_values :
    seaScore "calm" = 0 ∧ seaScore "slight" = 0 ∧ seaScore "moderate" = 40 ∧
    seaScore "rough" = 60 ∧ seaScore "very_rough" = 80 ∧ seaScore "high" = 100 := by
  decide

/-- The score of wind and sea together, the sea condition being derived from the wind
speed: below 100 up to 20, from 100 below 150 above 20 up to 30, from 150 above 30. -/
theorem windSea_score (w : JsNum) (weatherType : String) (hw : w ≠ JsNum.nan) :
    (jsLe w 20 = true →
      windScore w + seaScore (calculateSeaCondition w weatherType) < 100) ∧
    (jsGt w 20 = true → jsLe w 30 = true →
      100 ≤ windScore w + seaScore (calculateSeaCondition w weatherType) ∧
      windScore w + seaScore (calculateSeaCondition w weatherType) < 150) ∧
    (jsGt w 30 = true →
      150 ≤ windScore w + seaScore (calculateSeaCondition w weatherType)) := by
  obtain ⟨s₁, s₂, s₃, s₄, s₅, s₆⟩ := seaScore_values
  cases w with
  | nan => exact absurd rfl hw
  | negInf =>
    simp [windScore, calculateSeaCondition, jsGt, jsLt, jsLe, ofNat_eq_fin, s₁]
  | posInf =>
    simp [windScore, calculateSeaCondition, jsGt, jsLt, jsLe, ofNat_eq_fin, s₆]
  | fin q =>
    simp only [windScore, calculateSeaCondition, jsGt, jsLt, jsLe, ofNat_eq_fin,
      Nat.cast_ofNat, decide_eq_true_eq, Bool.not_eq_true', decide_eq_false_iff_not, not_lt]
    refine ⟨?_, ?_, ?_⟩
    · intro h
      split_ifs <;> first | (exfalso; linarith) | (simp only [s₁, s₂, s₃, s₄, s₅, s₆]; omega)
    · intro h₁ h₂
      split_ifs <;> first | (exfalso; linarith) | (simp only [s₁, s₂, s₃, s₄, s₅, s₆]; omega)
    · intro h
      split_ifs <;> first | (exfalso; linarith) | (simp only [s₁, s₂, s₃, s₄, s₅, s₆]; omega)

theorem jsLe_or_jsGt {a b : JsNum} (ha : a ≠ JsNum.nan) (hb : b ≠ JsNum.nan) :
    (jsLe a b = true ∧ jsGt a b = false) ∨ (jsLe a b = false ∧ jsGt a b = true) := by
  cases a with
  | nan => exact absurd rfl ha
  | negInf => cases b <;> simp_all [jsLe, jsGt, jsLt]
  | posInf => cases b <;> simp_all [jsLe, jsGt, jsLt]
  | fin p =>
    cases b with
    | nan => exact absurd rfl hb
    | negInf => simp [jsLe, jsGt, jsLt]
    | posInf => simp [jsLe, jsGt, jsLt]
    | fin q =>
      simp only [jsLe, jsGt, jsLt]
      by_cases h : q < p
      · right; simp [h]
      · left; simp [h]

/-- C26. For a wind speed that is a number, with the sea condition derived from it by
`calculateSeaCondition`, visibility at least 5 and temperature from 0 to 45, the level
is `green` exactly up to 20, `yellow` exactly above 20 up to 30, and `red` exactly
above 30. -/
theorem signalLevel_of_windSpeed (windSpeed : JsNum) (weatherType : String)
    (visibility temperature : JsNum) (hw : windSpeed ≠ JsNum.nan)
    (hv : jsGe visibility 5 = true) (ht₀ : jsLe 0 temperature = true)
    (ht₁ : jsLe temperature 45 = true) :
    ((calculateSignalStatus ⟨windSpeed, calculateSeaCondition windSpeed weatherType,
        visibility, temperature⟩).level = "green" ↔ jsLe windSpeed 20 = true) ∧
    ((calculateSignalStatus ⟨windSpeed, calculateSeaCondition windSpeed weatherType,
        visibility, temperature⟩).level = "yellow" ↔
      jsGt windSpeed 20 = true ∧ jsLe windSpeed 30 = true) ∧
    ((calculateSignalStatus ⟨windSpeed, calculateSeaCondition windSpeed weatherType,
        visibility, temperature⟩).level = "red" ↔ jsGt windSpeed 30 = true) := by
  have hscore : (calculateSignalStatus ⟨windSpeed, calculateSeaCondition windSpeed weatherType,
        visibility, temperature⟩).riskScore =
      windScore windSpeed + seaScore (calculateSeaCondition windSpeed weatherType) := by
    rw [riskScore_eq_sum]
    simp only [visibilityScore_eq_zero hv, temperatureScore_eq_zero ht₀ ht₁, Nat.add_zero]
  obtain ⟨b₁, b₂, b₃⟩ := windSea_score windSpeed weatherType hw
  rw [level_eq_signalLevel, hscore]
  have h20 : (20 : JsNum) ≠ JsNum.nan := by simp [ofNat_eq_fin]
  have h30 : (30 : JsNum) ≠ JsNum.nan := by simp [ofNat_eq_fin]
  unfold signalLevel
  rcases jsLe_or_jsGt hw h20 with ⟨l₂₀, g₂₀⟩ | ⟨l₂₀, g₂₀⟩
  · have hs := b₁ l₂₀
    have l₃₀ : jsGt windSpeed 30 = false := by
      cases windSpeed <;> simp_all [jsLe, jsGt, jsLt, ofNat_eq_fin]
      linarith
    rw [if_neg (by omega), if_neg (by omega)]
    simp [l₂₀, g₂₀, l₃₀]
  · rcases jsLe_or_jsGt hw h30 with ⟨l₃₀, g₃₀⟩ | ⟨l₃₀, g₃₀⟩
    · have hs := b₂ g₂₀ l₃₀
      rw [if_neg (by omega), if_pos (by omega)]
      simp [l₂₀, g₂₀, l₃₀, g₃₀]
    · have hs := b₃ g₃₀
      rw [if_pos (by omega)]
      simp [l₂₀, g₂₀, l₃₀, g₃₀]

/-- Witness for C26: wind speed 25, which `fetchWeatherData` keeps as it is, gives
`rough` and the level `yellow`. -/
theorem signalLevel_of_windSpeed_witness :
    (calculateSignalStatus ⟨orZero 25, calculateSeaCondition (orZero 25) "Clouds",
        10, 28⟩).level = "yellow" :=
  (signalLevel_of_windSpeed (orZero 25) "Clouds" 10 28 (orZero_ne_nan 25) (by decide)
    (by decide) (by decide)).2.1.2 ⟨by decide, by decide⟩

/-! ## SOS notifications -/

/-- C21, the divergence: the case stored for `TN01-AB123` once `createSOSAlert` has
finished is `active` with no `resolvedAt` and no `resolvedBy`, as claimed, but it has
no `voiceText`: the update of `createVoiceAlert` went to the document named by the
uuid, which does not exist. -/
theorem createSOSAlert_stores_no_voiceText :
    (createSOSAlert fleetWorld sampleSosEnv boatA sampleLocation [] none).1.sosAlerts =
        [(sampleSosEnv.alertDocId, sampleCase)] ∧
    sampleCase.status = "active" ∧ sampleCase.resolvedAt = none ∧
    sampleCase.resolvedBy = none ∧ sampleCase.voiceText = none :=
  ⟨rfl, rfl, rfl, rfl, rfl⟩

/-- C22, as stated, fails: `adminUser` is an active user of `harbourWorld` and is not
among the boats that `getNearbyBoats` returns. -/
theorem getNearbyBoats_leaves_out_admin :
    adminUser ∈ harbourWorld.users ∧ adminUser.2.isActive = true ∧
    adminUser.2 ∉ getNearbyBoats harbourWorld sampleCase.location 10 := by
  decide

/-- C22, amended. `getNearbyBoats` returns the users that are active and have the
role `fisherman`, and its result is the same for any two locations and radii. -/
theorem getNearbyBoats_spec (w : World) (location : SOSLocation) (radiusKm : Nat) :
    (∀ u, u ∈ getNearbyBoats w location radiusKm ↔
      ∃ d ∈ w.users, d.2 = u ∧ u.isActive = true ∧ u.role = "fisherman") ∧
    (∀ location' radiusKm',
      getNearbyBoats w location' radiusKm' = getNearbyBoats w location radiusKm) := by
  refine ⟨fun u => ?_, fun _ _ => rfl⟩
  simp only [getNearbyBoats, List.mem_map, List.mem_filter, Bool.and_eq_true, beq_iff_eq]
  constructor
  · rintro ⟨d, ⟨hd, ha, hr⟩, rfl⟩
    exact ⟨d, hd, rfl, ha, hr⟩
  · rintro ⟨d, hd, rfl, ha, hr⟩
    exact ⟨d, ⟨hd, ha, hr⟩, rfl⟩

/-- Witness for C22 amended: the boat of `harbourWorld` is returned. -/
theorem getNearbyBoats_spec_witness :
    (sampleUser "u1" boatA true).2 ∈ getNearbyBoats harbourWorld sampleCase.location 10 :=
  ((getNearbyBoats_spec harbourWorld sampleCase.location 10).1 _).2
    ⟨sampleUser "u1" boatA true, by decide, rfl, rfl, rfl⟩

theorem rounds_perm {α : Type} [DecidableEq α] (runs : List (List α))
    (h : ∀ r ∈ runs, r.length ≤ 3) :
    (runs.filterMap (fun steps => steps[0]?) ++ runs.filterMap (fun steps => steps[1]?) ++
      runs.filterMap (fun steps => steps[2]?)).Perm runs.flatten := by
  induction runs with
  | nil => simp
  | cons r rs ih =>
    have ih' := ih (fun r hr => h r (List.mem_cons_of_mem _ hr))
    have hr := h r (List.mem_cons_self _ _)
    rw [List.perm_iff_count] at ih' ⊢
    intro x
    have hx := ih' x
    match r, hr with
    | [], _ => simpa using hx
    | [a], _ =>
      simp only [List.count_append, List.flatten_cons] at hx ⊢
      simp [List.filterMap_cons, List.count_cons]
      omega
    | [a, b], _ =>
      simp only [List.count_append, List.flatten_cons] at hx ⊢
      simp [List.filterMap_cons, List.count_cons]
      omega
    | [a, b, c], _ =>
      simp only [List.count_append, List.flatten_cons] at hx ⊢
      simp [List.filterMap_cons, List.count_cons]
      omega
    | _ :: _ :: _ :: _ :: _, hr => simp at hr

theorem contactSteps_length (env : SosEnv) (contact : EmergencyContact) :
    (contactSteps env contact).length ≤ 3 := by
  unfold contactSteps
  simp only
  split_ifs <;> simp

theorem contactSteps_calls (env : SosEnv) (contact : EmergencyContact) :
    ((contactSteps env contact).map fun step => (contact, step)).flatMap (stepCalls env) =
      smsAttempt env contact ++ emailAttempt env contact := by
  rcases Bool.eq_false_or_eq_true contact.phoneNumber.truthy with hp | hp <;>
    rcases Bool.eq_false_or_eq_true contact.email.truthy with he | he <;>
    rcases Bool.eq_false_or_eq_true (smsReturns env contact.phoneNumber.text) with hr | hr <;>
    rcases Bool.eq_false_or_eq_true (emailReturns env contact.email.text) with hm | hm <;>
    simp [contactSteps, smsAttempt, emailAttempt, smsPassed, stepCalls, hp, he, hr, hm,
      List.flatMap_cons]

theorem contactSteps_logs (env : SosEnv) (sosId : JsString) (contact : EmergencyContact) :
    ((contactSteps env contact).map fun step => (contact, step)).flatMap
        (stepLogs env sosId) = contactLog env sosId contact := by
  rcases Bool.eq_false_or_eq_true contact.phoneNumber.truthy with hp | hp <;>
    rcases Bool.eq_false_or_eq_true contact.email.truthy with he | he <;>
    rcases Bool.eq_false_or_eq_true (smsReturns env contact.phoneNumber.text) with hr | hr <;>
    rcases Bool.eq_false_or_eq_true (emailReturns env contact.email.text) with hm | hm <;>
    rcases Bool.eq_false_or_eq_true (loggable contact) with hl | hl <;>
    simp [contactSteps, contactLog, smsPassed, stepLogs, hp, he, hr, hm, hl,
      List.flatMap_cons]

theorem callbacks_flatMap {β : Type} (env : SosEnv)
    (f : EmergencyContact × ContactStep → List β) (g : EmergencyContact → List β)
    (h : ∀ contact,
      ((contactSteps env contact).map fun step => (contact, step)).flatMap f = g contact)
    (contacts : List EmergencyContact) :
    (contacts.map fun contact =>
        (contactSteps env contact).map fun step => (contact, step)).flatten.flatMap f =
      contacts.flatMap g := by
  induction contacts with
  | nil => rfl
  | cons c cs ih =>
    simp only [List.map_cons, List.flatten_cons, List.flatMap_append, List.flatMap_cons, ih, h]

theorem notifyEmergencyContacts_effect (w : World) (env : SosEnv) (sosAlert : SOSAlert) :
    (∃ calls, (notifyEmergencyContacts w env sosAlert).channelCalls = w.channelCalls ++ calls ∧
      calls.Perm (sosAlert.emergencyContacts.flatMap
        fun c => smsAttempt env c ++ emailAttempt env c)) ∧
    (∃ logs, (notifyEmergencyContacts w env sosAlert).sosLogs = w.sosLogs ++ logs ∧
      logs.Perm (sosAlert.emergencyContacts.flatMap (contactLog env sosAlert.id))) := by
  unfold notifyEmergencyContacts
  split_ifs with h
  · rw [List.length_eq_zero.1 h]
    exact ⟨⟨[], by simp, by simp⟩, ⟨[], by simp, by simp⟩⟩
  · have hperm := rounds_perm
      (sosAlert.emergencyContacts.map fun contact =>
        (contactSteps env contact).map fun step => (contact, step))
      (by
        intro r hr
        obtain ⟨c, _, rfl⟩ := List.mem_map.1 hr
        simpa using contactSteps_length env c)
    obtain ⟨h₁, h₂, _⟩ := foldl_runStep env sosAlert.id
      ((sosAlert.emergencyContacts.map fun contact =>
          (contactSteps env contact).map fun step => (contact, step)).filterMap
            (fun steps => steps[0]?) ++
        (sosAlert.emergencyContacts.map fun contact =>
          (contactSteps env contact).map fun step => (contact, step)).filterMap
            (fun steps => steps[1]?) ++
        (sosAlert.emergencyContacts.map fun contact =>
          (contactSteps env contact).map fun step => (contact, step)).filterMap
            (fun steps => steps[2]?)) w
    refine ⟨⟨_, h₁, ?_⟩, ⟨_, h₂, ?_⟩⟩
    · have := hperm.flatMap_right (stepCalls env)
      rwa [callbacks_flatMap env (stepCalls env) _ (contactSteps_calls env)] at this
    · have := hperm.flatMap_right (stepLogs env sosAlert.id)
      rwa [callbacks_flatMap env (stepLogs env sosAlert.id) _
        (contactSteps_logs env sosAlert.id)] at this

/-- C24, as stated, fails: for a contact with a phone number and an email, when the
SMS throws, the email is not attempted, and the log gets one entry, `failed`, for the
contact and not one per channel. -/
theorem notifyEmergencyContacts_sms_failure :
    (notifyEmergencyContacts emptyWorld failingSmsEnv contactCase).channelCalls =
        [{ channel := "sms", target := utf16 "+919812345678", returned := false }] ∧
    (notifyEmergencyContacts emptyWorld failingSmsEnv contactCase).sosLogs =
        [SOSLog.contactNotification contactCase.id sampleContact "failed" (some "sms") 3000] :=
  ⟨rfl, rfl⟩

/-- The order of the calls for two contacts: the SMS of both are made before the
email of the first, and the contact stored without the key `email` gets no log
entry. -/
theorem notifyEmergencyContacts_two_contacts :
    (notifyEmergencyContacts emptyWorld sampleSosEnv twoContactCase).channelCalls =
        [{ channel := "sms", target := utf16 "+919812345678", returned := true },
         { channel := "sms", target := utf16 "+919800011122", returned := true },
         { channel := "email", target := utf16 "meena@example.org", returned := true }] ∧
    (notifyEmergencyContacts emptyWorld sampleSosEnv twoContactCase).sosLogs =
        [SOSLog.contactNotification twoContactCase.id sampleContact "sent" none 3000] :=
  ⟨rfl, rfl⟩

/-- C24, amended. The calls that `notifyEmergencyContacts` adds are, in some order,
those of the contacts of the case: for each contact an SMS iff it has a phone number,
and an email iff it has an email and its SMS step did not throw.  The log entries
that it adds are, in some order, those of the contacts: none for a contact that lacks
one of the keys `name`, `phoneNumber`, `email`, and otherwise one entry for the
contact, `sent` if no call for it threw and `failed` otherwise. -/
theorem notifyEmergencyContacts_spec (w : World) (env : SosEnv) (sosAlert : SOSAlert) :
    (∃ calls, (notifyEmergencyContacts w env sosAlert).channelCalls = w.channelCalls ++ calls ∧
      calls.Perm (sosAlert.emergencyContacts.flatMap
        fun c => smsAttempt env c ++ emailAttempt env c)) ∧
    (∃ logs, (notifyEmergencyContacts w env sosAlert).sosLogs = w.sosLogs ++ logs ∧
      logs.Perm (sosAlert.emergencyContacts.flatMap (contactLog env sosAlert.id))) ∧
    (∀ c, (smsAttempt env c).length = if c.phoneNumber.truthy then 1 else 0) ∧
    (∀ c, (emailAttempt env c).length =
        if c.email.truthy ∧ (∀ call ∈ smsAttempt env c, call.returned = true) then 1 else 0) ∧
    (∀ c, (c.name = .undefined ∨ c.phoneNumber = .undefined ∨ c.email = .undefined) →
        contactLog env sosAlert.id c = []) ∧
    (∀ c, c.name ≠ .undefined → c.phoneNumber ≠ .undefined → c.email ≠ .undefined →
      ((∀ call ∈ smsAttempt env c ++ emailAttempt env c, call.returned = true) →
        contactLog env sosAlert.id c =
          [SOSLog.contactNotification sosAlert.id c "sent" none env.now]) ∧
      ((∃ call ∈ smsAttempt env c ++ emailAttempt env c, call.returned = false) →
        ∃ error, contactLog env sosAlert.id c =
          [SOSLog.contactNotification sosAlert.id c "failed" error env.now])) := by
  refine ⟨(notifyEmergencyContacts_effect w env sosAlert).1,
    (notifyEmergencyContacts_effect w env sosAlert).2, ?_, ?_, ?_, ?_⟩
  · intro c
    unfold smsAttempt
    split_ifs <;> rfl
  · intro c
    unfold emailAttempt smsAttempt smsPassed
    cases c.phoneNumber.truthy <;> cases c.email.truthy <;>
      cases smsReturns env c.phoneNumber.text <;> simp
  · intro c hc
    have hl : loggable c = false := by
      rcases hc with hc | hc | hc <;> simp [loggable, hc, ContactField.isDefined]
    simp [contactLog, hl]
  · intro c hn hp he
    have hl : loggable c = true := by
      cases hn' : c.name <;> cases hp' : c.phoneNumber <;> cases he' : c.email <;>
        simp_all [loggable, ContactField.isDefined]
    unfold contactLog emailAttempt smsAttempt smsPassed
    cases c.phoneNumber.truthy <;> cases c.email.truthy <;>
      cases smsReturns env c.phoneNumber.text <;>
      cases emailReturns env c.email.text <;> simp [hl]

/-- C24, amended, at two contacts with no channel configured: both calls for
`sampleContact` return and its entry is `sent`; `phoneContact`, stored without the
key `email`, gets no entry. -/
theorem notifyEmergencyContacts_spec_witness :
    contactLog sampleSosEnv twoContactCase.id sampleContact =
      [SOSLog.contactNotification twoContactCase.id sampleContact "sent" none 3000] ∧
    contactLog sampleSosEnv twoContactCase.id phoneContact = [] :=
  ⟨((notifyEmergencyContacts_spec emptyWorld sampleSosEnv twoContactCase).2.2.2.2.2
      sampleContact (by decide) (by decide) (by decide)).1 (by decide),
   (notifyEmergencyContacts_spec emptyWorld sampleSosEnv twoContactCase).2.2.2.2.1
      phoneContact (Or.inr (Or.inr rfl))⟩

/-- C25, as stated, fails: when the SMS to the coast guard throws, no SMS to the
marine police is attempted. -/
theorem notifyAuthorities_coastGuard_failure :
    (notifyAuthorities emptyWorld failingSmsEnv sampleCase).channelCalls =
      [{ channel := "sms", target := coastGuard, returned := false }] :=
  rfl

/-- C25, amended. `notifyAuthorities` attempts one SMS to the coast guard, then one to
the marine police exactly when the first did not throw, and nothing else. -/
theorem notifyAuthorities_spec (w : World) (env : SosEnv) (sosAlert : SOSAlert) :
    (smsReturns env coastGuard = true →
      (notifyAuthorities w env sosAlert).channelCalls =
        w.channelCalls ++
          [{ channel := "sms", target := coastGuard, returned := true },
           { channel := "sms", target := marinePolice,
             returned := smsReturns env marinePolice }]) ∧
    (smsReturns env coastGuard = false →
      (notifyAuthorities w env sosAlert).channelCalls =
        w.channelCalls ++ [{ channel := "sms", target := coastGuard, returned := false }]) := by
  unfold notifyAuthorities
  simp only [sendSMS, smsReturns]
  constructor
  · intro h
    simp [h]
  · intro h
    simp [h]

/-- Witness for C25 amended: with Twilio not configured both calls are made. -/
theorem notifyAuthorities_spec_witness :
    (notifyAuthorities emptyWorld sampleSosEnv sampleCase).channelCalls =
      [{ channel := "sms", target := coastGuard, returned := true },
       { channel := "sms", target := marinePolice, returned := true }] :=
  (notifyAuthorities_spec emptyWorld sampleSosEnv sampleCase).1 rfl

/-! ## Broadcast alerts and the voice cache -/

/-- C23, as stated, fails: the active boat `TN02-CD456` of `mixedWorld` has no last
known location, `isBoatInAffectedArea` is false for it, and `sendAlertToBoats` writes
nothing for it. -/
theorem isBoatInAffectedArea_without_location :
    sampleUser "u2" boatB true ∈ activeUsers mixedWorld ∧
    isBoatInAffectedArea (sampleUser "u2" boatB true).2 sampleAlert.affectedAreas = false ∧
    (sendAlertToBoats mixedWorld 4100 sampleAlert).boatAlerts boatB = [] := by
  decide

theorem foldl_alertStep (now : Time) (alert : Alert) (b : JsString)
    (docs : Collection User) :
    ∀ w : World,
      (docs.foldl (alertStep now alert) w).boatAlerts b =
        w.boatAlerts b ++
          (docs.filter fun d => d.2.lastKnownLocation.isSome && d.2.boatNumber == b).map
            fun d => BoatAlertDoc.alert
              { alert with boatNumber := d.2.boatNumber, sentAt := now, isRead := false,
                           isAcknowledged := false } := by
  induction docs with
  | nil => intro w; simp
  | cons d ds ih =>
    intro w
    rw [List.foldl_cons, ih]
    cases hl : d.2.lastKnownLocation with
    | none => simp [alertStep, isBoatInAffectedArea, hl]
    | some loc =>
      by_cases hb : d.2.boatNumber = b
      · simp [alertStep, isBoatInAffectedArea, hl, hb, sendAlertToBoat, setAt_same]
      · have hb' : b ≠ d.2.boatNumber := fun h => hb h.symm
        simp [alertStep, isBoatInAffectedArea, hl, hb, sendAlertToBoat, setAt_other _ _ hb']

/-- C23, amended. `isBoatInAffectedArea` is true exactly for a boat record that has a
last known location, whatever the list of affected areas; and `sendAlertToBoats` adds
the alert to the `boatAlerts` of the active boats that have one, once for each such
profile, and to no other. -/
theorem sendAlertToBoats_spec (w : World) (now : Time) (alert : Alert) :
    (∀ userData affectedAreas,
      isBoatInAffectedArea userData affectedAreas = userData.lastKnownLocation.isSome) ∧
    (∀ b, (sendAlertToBoats w now alert).boatAlerts b =
      w.boatAlerts b ++
        ((activeUsers w).filter fun d =>
            d.2.lastKnownLocation.isSome && d.2.boatNumber == b).map
          fun d => BoatAlertDoc.alert
            { alert with boatNumber := d.2.boatNumber, sentAt := now, isRead := false,
                         isAcknowledged := false }) := by
  constructor
  · intro userData affectedAreas
    unfold isBoatInAffectedArea
    cases userData.lastKnownLocation <;> rfl
  · intro b
    exact foldl_alertStep now alert b (activeUsers w) w

/-- C23, amended, in `mixedWorld`: the alert is added for `TN01-AB123`, which has a
last known location, and only for it. -/
theorem sendAlertToBoats_spec_witness :
    (∀ userData affectedAreas,
      isBoatInAffectedArea userData affectedAreas = userData.lastKnownLocation.isSome) ∧
    (∀ b, (sendAlertToBoats mixedWorld 4100 sampleAlert).boatAlerts b =
      mixedWorld.boatAlerts b ++
        ((activeUsers mixedWorld).filter fun d =>
            d.2.lastKnownLocation.isSome && d.2.boatNumber == b).map
          fun d => BoatAlertDoc.alert
            { sampleAlert with boatNumber := d.2.boatNumber, sentAt := 4100, isRead := false,
                               isAcknowledged := false }) :=
  sendAlertToBoats_spec mixedWorld 4100 sampleAlert

/-- C27, the divergence: the SOS voice texts for `TN01-AB123` and `TN02-CD456` differ
and have the same cache key, so after the URL of the first was cached the call for
the second returns the URL of the first. -/
theorem generateCacheKey_collision :
    alertVoiceText boatA ≠ alertVoiceText boatB ∧
    generateCacheKey (alertVoiceText boatA) = generateCacheKey (alertVoiceText boatB) ∧
    (generateTamilVoiceAlert
        (generateTamilVoiceAlert [] (.ok (utf16 "https://example.org/A.mp3"))
          (alertVoiceText boatA)).1
        (.ok (utf16 "https://example.org/B.mp3")) (alertVoiceText boatB)).2 =
      .ok (utf16 "https://example.org/A.mp3") :=
  ⟨by decide, by decide, rfl⟩

/-- The cache key reads the first 24 bytes of the text at most. -/
theorem generateCacheKey_length (text : JsString) : (generateCacheKey text).length ≤ 32 := by
  unfold generateCacheKey
  simp [List.length_take]

/-! ## The chats of a boat -/

theorem boatNumberPattern_no_underscore {s : JsString} (h : boatNumberPattern s = true) :
    underscore ∉ s := by
  match s, h with
  | [t, n, d₁, d₂, c, a₁, a₂, d₃, d₄, d₅], h =>
    simp only [boatNumberPattern, isDigit, isUpper, Bool.and_eq_true, beq_iff_eq,
      decide_eq_true_eq] at h
    simp only [underscore, List.mem_cons, List.mem_singleton, List.not_mem_nil, or_false,
      not_or]
    omega

theorem jsSplit_of_not_mem {sep : Nat} {s : JsString} (h : sep ∉ s) :
    jsSplit sep s = [s] := by
  induction s with
  | nil => rfl
  | cons u rest ih =>
    have hu : u ≠ sep := fun e => h (by simp [e])
    have hr : sep ∉ rest := fun e => h (List.mem_cons_of_mem _ e)
    simp [jsSplit, hu, ih hr]

theorem jsSplit_append {sep : Nat} {a : JsString} (h : sep ∉ a) (rest : JsString) :
    jsSplit sep (a ++ sep :: rest) = a :: jsSplit sep rest := by
  induction a with
  | nil => simp [jsSplit]
  | cons u a ih =>
    have hu : u ≠ sep := fun e => h (by simp [e])
    have hr : sep ∉ a := fun e => h (List.mem_cons_of_mem _ e)
    simp [jsSplit, hu, ih hr]

theorem jsSplit_generateChatId {a b : JsString} (ha : boatNumberPattern a = true)
    (hb : boatNumberPattern b = true) :
    jsSplit underscore (generateChatId a b) = jsSort [a, b] := by
  have ha' := boatNumberPattern_no_underscore ha
  have hb' := boatNumberPattern_no_underscore hb
  rw [generateChatId_eq, jsSort_pair]
  split_ifs
  · rw [List.append_assoc, List.singleton_append, jsSplit_append hb', jsSplit_of_not_mem ha']
  · rw [List.append_assoc, List.singleton_append, jsSplit_append ha', jsSplit_of_not_mem hb']

theorem mem_insertChat (x s : ChatSummary) (l : List ChatSummary) :
    s ∈ insertChat x l ↔ s = x ∨ s ∈ l := by
  induction l with
  | nil => simp [insertChat]
  | cons y ys ih =>
    unfold insertChat
    split_ifs
    · simp only [List.mem_cons, ih]
      tauto
    · simp only [List.mem_cons]

theorem mem_sortChats (s : ChatSummary) (l : List ChatSummary) :
    s ∈ sortChats l ↔ s ∈ l := by
  induction l with
  | nil => simp [sortChats]
  | cons x xs ih => simp only [sortChats, mem_insertChat, ih, List.mem_cons]

theorem chatSummary_chatId {w : World} {boatNumber chatId : JsString} {s : ChatSummary}
    (h : chatSummary w boatNumber chatId = some s) : s.chatId = chatId := by
  unfold chatSummary at h
  simp only at h
  split_ifs at h <;> cases h <;> rfl

theorem chatSummary_generateChatId (w : World) {a b : JsString}
    (ha : boatNumberPattern a = true) (hb : boatNumberPattern b = true) :
    ∃ s, chatSummary w a (generateChatId a b) = some s ∧
      s.chatId = generateChatId a b ∧ s.otherBoat = some b := by
  unfold chatSummary
  simp only [jsSplit_generateChatId ha hb, jsSort_pair]
  by_cases hlt : strLt b a = true
  · have hne : b ≠ a := by
      intro e
      rw [e, strLt_irrefl] at hlt
      cases hlt
    simp [hlt, hne]
  · simp [hlt]

theorem chatSummary_other (w : World) {a b c : JsString}
    (ha : boatNumberPattern a = true) (hb : boatNumberPattern b = true)
    (hca : c ≠ a) (hcb : c ≠ b) :
    chatSummary w c (generateChatId a b) = none := by
  have hac : a ≠ c := fun e => hca e.symm
  have hbc : b ≠ c := fun e => hcb e.symm
  unfold chatSummary
  simp only [jsSplit_generateChatId ha hb, jsSort_pair]
  by_cases hlt : strLt b a = true
  · simp [hlt, hac, hbc]
  · simp [hlt, hac, hbc]

/-- The selection test of `getBoatChats` taken by itself.  For boat identifiers `A`
and `B` of the validated form, splitting `generateChatId(A, B)` at `_` gives two parts,
`A` and `B` in sorted order; if the thread were among the documents that the listing
of `chats` returns, `getBoatChats(A)` would return an entry for it with
`otherBoat = B`, and `getBoatChats(C)` returns no entry for it when `C` differs from
`A` and from `B`. -/
theorem getBoatChats_selects (w : World) (A B : JsString)
    (hA : boatNumberPattern A = true) (hB : boatNumberPattern B = true) :
    jsSplit underscore (generateChatId A B) = jsSort [A, B] ∧
    (jsSplit underscore (generateChatId A B)).length = 2 ∧
    (∃ l, (getBoatChats w A).2 = .ok l ∧
      (generateChatId A B ∈ w.chatDocs → ∃ s ∈ l, s.chatId = generateChatId A B) ∧
      (∀ s ∈ l, s.chatId = generateChatId A B → s.otherBoat = some B)) ∧
    (∀ C, C ≠ A → C ≠ B →
      ∃ l, (getBoatChats w C).2 = .ok l ∧ ∀ s ∈ l, s.chatId ≠ generateChatId A B) := by
  have hsplit := jsSplit_generateChatId hA hB
  refine ⟨hsplit, ?_, ⟨_, rfl, ?_, ?_⟩, ?_⟩
  · rw [hsplit, jsSort_pair]
    split_ifs <;> rfl
  · intro hmem
    obtain ⟨s, hs, hid, _⟩ := chatSummary_generateChatId w hA hB
    refine ⟨s, ?_, hid⟩
    rw [mem_sortChats, List.mem_filterMap]
    exact ⟨_, hmem, hs⟩
  · intro s hs hid
    rw [mem_sortChats, List.mem_filterMap] at hs
    obtain ⟨chatId, _, hsum⟩ := hs
    have hc := chatSummary_chatId hsum
    rw [hid] at hc
    rw [← hc] at hsum
    obtain ⟨s', hs', _, hother⟩ := chatSummary_generateChatId w hA hB
    rw [hs'] at hsum
    cases hsum
    exact hother
  · intro C hCA hCB
    refine ⟨_, rfl, ?_⟩
    intro s hs hid
    rw [mem_sortChats, List.mem_filterMap] at hs
    obtain ⟨chatId, _, hsum⟩ := hs
    have hc := chatSummary_chatId hsum
    rw [hid] at hc
    rw [← hc, chatSummary_other w hA hB hCA hCB] at hsum
    cases hsum

/-- The selection test at `TN01-AB123` and `TN02-CD456` in `listedWorld`. -/
theorem getBoatChats_selects_witness :
    boatNumberPattern boatA = true ∧ boatNumberPattern boatB = true ∧
    generateChatId boatA boatB ∈ listedWorld.chatDocs ∧
    jsSplit underscore (generateChatId boatA boatB) = jsSort [boatA, boatB] ∧
    (jsSplit underscore (generateChatId boatA boatB)).length = 2 ∧
    (∃ l, (getBoatChats listedWorld boatA).2 = .ok l ∧
      (generateChatId boatA boatB ∈ listedWorld.chatDocs →
        ∃ s ∈ l, s.chatId = generateChatId boatA boatB) ∧
      (∀ s ∈ l, s.chatId = generateChatId boatA boatB → s.otherBoat = some boatB)) ∧
    (∀ C, C ≠ boatA → C ≠ boatB →
      ∃ l, (getBoatChats listedWorld C).2 = .ok l ∧
        ∀ s ∈ l, s.chatId ≠ generateChatId boatA boatB) :=
  ⟨by decide, by decide, by decide,
    getBoatChats_selects listedWorld boatA boatB (by decide) (by decide)⟩

theorem sendMessage_chatDocs (w : World) (env : SendEnv) (messageData : MessageData) :
    (sendMessage w env messageData).1.chatDocs = w.chatDocs := by
  unfold sendMessage
  split
  · rfl
  · simp only [storeMessage, storeMessageBackup]
    split
    · split <;> rfl
    · rfl

theorem sendAll_chatDocs (calls : List (SendEnv × MessageData)) :
    ∀ w : World, (sendAll w calls).1.chatDocs = w.chatDocs := by
  induction calls with
  | nil => intro w; rfl
  | cons call calls ih =>
    intro w
    simp only [sendAll]
    rw [ih, sendMessage_chatDocs]

theorem broadcastMessage_chatDocs (w : World) (envs : Nat → SendEnv)
    (fromBoat message messageType : JsString) :
    (broadcastMessage w envs fromBoat message messageType).1.chatDocs = w.chatDocs := by
  rw [broadcastMessage_world, sendAll_chatDocs]

theorem markMessagesAsRead_chatDocs (w : World) (now : Time) (chatId boatNumber : JsString) :
    (markMessagesAsRead w now chatId boatNumber).1.chatDocs = w.chatDocs := by
  unfold markMessagesAsRead
  simp only
  split <;> rfl

theorem getBoatChats_of_no_chatDocs (w : World) (boatNumber : JsString)
    (h : w.chatDocs = []) : (getBoatChats w boatNumber).2 = .ok [] := by
  simp [getBoatChats, h, sortChats]

/-- C28, the divergence: after `sendMessage` has stored a message from `TN01-AB123`
to `TN02-CD456` in their thread (the transport failing), `getBoatChats('TN01-AB123')`
returns no chat at all.  The message is a document of `chats/{chatId}/messages`; the
document `chats/{chatId}` itself is never written, and the listing of `chats` that
`getBoatChats` goes through has no entry for it. -/
theorem getBoatChats_misses_thread :
    (sendMessage emptyWorld (quietEnvs 0) sampleMessage).2 =
      .ok { messageId := sampleEnv.uuid, isDelivered := false, loraStatus := "failed" } ∧
    ((sendMessage emptyWorld (quietEnvs 0) sampleMessage).1.chats
      (generateChatId boatA boatB)).length = 1 ∧
    (getBoatChats (sendMessage emptyWorld (quietEnvs 0) sampleMessage).1 boatA).2 = .ok [] :=
  ⟨rfl, by decide, rfl⟩

/-! ## The count of a broadcast -/

theorem broadcastCalls_length (envs : Nat → SendEnv) (X body kind : JsString)
    (docs : Collection User) (i : Nat) :
    (broadcastCalls envs X body kind i docs).length =
      (docs.filter fun d => d.2.boatNumber != X).length := by
  have h := congrArg List.length (broadcastCalls_toBoat envs X body kind docs i)
  simpa using h

theorem broadcastMessage_sentTo (w : World) (envs : Nat → SendEnv)
    (fromBoat message messageType : JsString) (r : BroadcastResult)
    (h : (broadcastMessage w envs fromBoat message messageType).2 = .ok r) :
    r.sentTo = ((activeUsers w).length : Int) - 1 := by
  simp only [broadcastMessage] at h
  split at h
  · cases h
  · cases h
    rfl

/-- C29, the divergence: in `soloWorld` the sender `TN01-AB123` is not among the
active boats, `broadcastMessage` sends the message to the one active boat,
`TN02-CD456`, and returns `sentTo = 0`; with no active boat at all it sends nothing
and returns `sentTo = -1`. -/
theorem broadcastMessage_sentTo_miscount :
    (broadcastMessage soloWorld quietEnvs boatA (utf16 "hi") (utf16 "text")).2 =
      .ok { sentTo := 0 } ∧
    ((activeUsers soloWorld).filter fun d => d.2.boatNumber != boatA).length = 1 ∧
    ((broadcastMessage soloWorld quietEnvs boatA (utf16 "hi") (utf16 "text")).1.chats
      (generateChatId boatA boatB)).length = 1 ∧
    (broadcastMessage emptyWorld quietEnvs boatA (utf16 "hi") (utf16 "text")).2 =
      .ok { sentTo := -1 } ∧
    ((activeUsers emptyWorld).filter fun d => d.2.boatNumber != boatA).length = 0 :=
  ⟨rfl, by decide, by decide, rfl, by decide⟩

/-! ## The SOS message -/

theorem validateChatMessage_sosCopy (now₀ now : Time) (boatNumber message toBoat : JsString) :
    ∃ e, validateChatMessage now₀ (sosCopy now boatNumber message toBoat) = .error e := by
  cases h : validateChatMessage now₀ (sosCopy now boatNumber message toBoat) with
  | error e => exact ⟨e, rfl⟩
  | ok v =>
    have hk := (validateChatMessage_ok h).2.2.2.2.2
    simp [sosCopy] at hk

theorem sendAll_sosCalls (envs : Nat → SendEnv) (now : Time) (X message : JsString)
    (docs : Collection User) :
    ∀ (i : Nat) (w : World),
      (sendAll w (sosCalls envs now X message i docs)).1 = w ∧
      ((∃ d ∈ docs, d.2.boatNumber ≠ X) →
        ∃ e, firstError (sendAll w (sosCalls envs now X message i docs)).2 =
          some (.validation e)) := by
  induction docs with
  | nil =>
    intro i w
    exact ⟨rfl, fun h => by simp at h⟩
  | cons doc docs ih =>
    intro i w
    by_cases hx : doc.2.boatNumber = X
    · have hcalls : sosCalls envs now X message i (doc :: docs) =
          sosCalls envs now X message (i + 1) docs := by
        simp [sosCalls, hx]
      rw [hcalls]
      refine ⟨(ih (i + 1) w).1, ?_⟩
      rintro ⟨d, hd, hne⟩
      rcases List.mem_cons.mp hd with e | hd
      · rw [e] at hne
        exact absurd hx hne
      · exact (ih (i + 1) w).2 ⟨d, hd, hne⟩
    · have hcalls : sosCalls envs now X message i (doc :: docs) =
          (envs i, sosCopy now X message doc.2.boatNumber) ::
            sosCalls envs now X message (i + 1) docs := by
        simp [sosCalls, hx]
      obtain ⟨e, he⟩ :=
        validateChatMessage_sosCopy (envs i).now now X message doc.2.boatNumber
      rw [hcalls]
      simp only [sendAll, sendMessage_of_invalid w (envs i) _ e he, firstError]
      exact ⟨(ih (i + 1) w).1, fun _ => ⟨e, rfl⟩⟩

theorem sendSOSMessage_of_recipient (w : World) (uuid : JsString) (now : Time)
    (envs : Nat → SendEnv) (X : JsString) (location : LocationInput) (message : JsString) :
    (sendSOSMessage w uuid now envs X location message).1 = w ∧
    ((∃ d ∈ activeUsers w, d.2.boatNumber ≠ X) →
      ∃ e, (sendSOSMessage w uuid now envs X location message).2 =
        .error (.validation e)) := by
  have h := sendAll_sosCalls envs now X message (activeUsers w) 0 w
  constructor
  · simp only [sendSOSMessage]
    split <;> exact h.1
  · intro hd
    obtain ⟨e, he⟩ := h.2 hd
    refine ⟨e, ?_⟩
    simp only [sendSOSMessage, he]

/-- C30, the divergence: `TN01-AB123` has a valid identifier and `TN02-CD456` is an
active boat of `fleetWorld`, yet the copy that `sendSOSMessage` passes to
`sendMessage` for it is refused by the schema, whose first complaint is the key `id`;
`sendSOSMessage` throws and the thread between the two boats stays empty. -/
theorem sendSOSMessage_copy_refused :
    boatNumberPattern boatA = true ∧
    sampleUser "u2" boatB true ∈ activeUsers fleetWorld ∧
    validateChatMessage 1000 (sosCopy 1000 boatA (utf16 "help") boatB) =
      .error (.unknown "id") ∧
    (sendSOSMessage fleetWorld sampleEnv.uuid 1000 fleetEnvs boatA sampleLocation
      (utf16 "help")).2 = .error (.validation (.unknown "id")) ∧
    (sendSOSMessage fleetWorld sampleEnv.uuid 1000 fleetEnvs boatA sampleLocation
      (utf16 "help")).1.chats (generateChatId boatA boatB) = [] :=
  ⟨by decide, by decide, rfl, rfl, by decide⟩

end OceanSentinels
